import Mathlib

/-! # node-gdal-async collections: a shallow embedding

The binding methods of `src/collections/*.cpp` are embedded as pure functions.

* JavaScript arguments (`info`) are lists of `JSValue`.
* The argument macros of `gdal_common.hpp` (`NODE_ARG_INT`, `NODE_ARG_STR`,
  `NODE_ARG_WRAPPED`, `IS_WRAPPED`, ...) are declared outside the translated
  sources.  A method takes the outcome of each macro it expands as a parameter
  (`ArgResult`), in the order in which the source expands them.
* The GDAL library itself is external.  Its objects are modelled by the
  sequences they expose (rings of a polygon, points of a line string, bands
  and layers of a dataset, features of a layer) and whatever only the library
  decides (whether a driver accepts a new band, a new layer, a ring) is a
  parameter.
* A method returns the JavaScript exception it raised (if any), the value it
  returned, the native state it left behind, and the native calls it made.
-/

namespace NodeGdal

/-! ## JavaScript side -/

/-- Identity of a native object (a pointer value). -/
abbrev Handle := Nat

/-- JavaScript values, as far as the binding code inspects them. -/
inductive JSValue where
  | undefined
  | null
  | boolean (b : Bool)
  | number (x : Rat)
  | string (s : String)
  | array (elems : List JSValue)
  | wrapped (cls : String) (h : Handle)
  | object (fields : List (String × JSValue))

/-- Native error codes (`OGRErr`, `CPLErr`): zero is success. -/
abbrev OGRErr := Nat

/-- The JavaScript exception a binding method raises. -/
inductive JSError where
  /-- `Nan::ThrowError(msg)` with a message fixed by the binding. -/
  | error (msg : String)
  /-- `NODE_THROW_OGRERR(err)`: the message derived from a native error code. -/
  | ogr (err : OGRErr)
  /-- `NODE_THROW_LAST_CPLERR`: the message GDAL reported last. -/
  | lastCPLErr
  /-- `throw CPLGetLastErrorMsg()` inside a job: the message reported by the failed native call. -/
  | native (msg : String)
  deriving DecidableEq, Repr

/-- Outcome of an argument macro: the bound value, or the exception the macro raises
before the method returns. -/
abbrev ArgResult (α : Type) := Except JSError α

/-! ## Standalone collections: `add` -/

/-- Native polygon (`OGRPolygon`): its rings in order, the exterior ring first. -/
structure OGRPolygon (Ring : Type) where
  rings : List Ring
  deriving DecidableEq, Repr

/-- Native `OGRPolygon::addRing` (external): when the library accepts the ring it is
appended after the existing ones and `OGRERR_NONE` is returned; otherwise a non-zero
code is returned and the polygon is unchanged.  `accepts` is the library's decision. -/
def OGRPolygon.addRing {Ring : Type} (accepts : List Ring → Ring → Bool)
    (p : OGRPolygon Ring) (r : Ring) : OGRErr × OGRPolygon Ring :=
  if accepts p.rings r then (0, { rings := p.rings ++ [r] }) else (6, p)

/-- The array loop of `PolygonRings::add` (polygon_rings.cpp:135-148). -/
def PolygonRings.addArray {Ring : Type} (IS_WRAPPED : JSValue → String → Bool)
    (unwrap : JSValue → Ring) (accepts : List Ring → Ring → Bool) :
    List JSValue → OGRPolygon Ring → Option JSError × OGRPolygon Ring
  | [], geom => (none, geom)
  | element :: rest, geom =>
    if IS_WRAPPED element "LinearRing" then
      let ring := unwrap element
      let r := geom.addRing accepts ring
      if r.1 ≠ 0 then (some (JSError.ogr r.1), r.2)
      else PolygonRings.addArray IS_WRAPPED unwrap accepts rest r.2
    else (some (JSError.error "All array elements must be LinearRings"), geom)

/-- Method `PolygonRings::add` (polygon_rings.cpp:118-162). -/
def PolygonRings.add {Ring : Type} (IS_WRAPPED : JSValue → String → Bool)
    (unwrap : JSValue → Ring) (accepts : List Ring → Ring → Bool)
    (geom : OGRPolygon Ring) (info : List JSValue) : Option JSError × OGRPolygon Ring :=
  match info with
  | [] => (some (JSError.error "ring(s) must be given"), geom)
  | JSValue.array elems :: _ => PolygonRings.addArray IS_WRAPPED unwrap accepts elems geom
  | v :: _ =>
    if IS_WRAPPED v "LinearRing" then
      let ring := unwrap v
      let r := geom.addRing accepts ring
      if r.1 ≠ 0 then (some (JSError.ogr r.1), r.2) else (none, r.2)
    else (some (JSError.error "ring(s) must be a LinearRing or array of LinearRings"), geom)

/-- Native compound curve (`OGRCompoundCurve`): its member curves in order. -/
structure OGRCompoundCurve (Curve : Type) where
  curves : List Curve
  deriving DecidableEq, Repr

/-- Native `OGRCompoundCurve::addCurve` (external): appends the curve when the library
accepts it (returning `OGRERR_NONE`), otherwise returns a non-zero code and changes
nothing.  `accepts` is the library's decision (e.g. the curve must be contiguous). -/
def OGRCompoundCurve.addCurve {Curve : Type} (accepts : List Curve → Curve → Bool)
    (p : OGRCompoundCurve Curve) (c : Curve) : OGRErr × OGRCompoundCurve Curve :=
  if accepts p.curves c then (0, { curves := p.curves ++ [c] }) else (6, p)

/-- The array loop of `CompoundCurveCurves::add` (compound_curves.cpp:133-146). -/
def CompoundCurveCurves.addArray {Curve : Type} (IS_WRAPPED : JSValue → String → Bool)
    (unwrap : JSValue → Curve) (accepts : List Curve → Curve → Bool) :
    List JSValue → OGRCompoundCurve Curve → Option JSError × OGRCompoundCurve Curve
  | [], geom => (none, geom)
  | element :: rest, geom =>
    if IS_WRAPPED element "SimpleCurve" then
      let ring := unwrap element
      let r := geom.addCurve accepts ring
      if r.1 ≠ 0 then (some (JSError.ogr r.1), r.2)
      else CompoundCurveCurves.addArray IS_WRAPPED unwrap accepts rest r.2
    else (some (JSError.error "All array elements must be SimpleCurves"), geom)

/-- Method `CompoundCurveCurves::add` (compound_curves.cpp:116-160). -/
def CompoundCurveCurves.add {Curve : Type} (IS_WRAPPED : JSValue → String → Bool)
    (unwrap : JSValue → Curve) (accepts : List Curve → Curve → Bool)
    (geom : OGRCompoundCurve Curve) (info : List JSValue) :
    Option JSError × OGRCompoundCurve Curve :=
  match info with
  | [] => (some (JSError.error "curve(s) must be given"), geom)
  | JSValue.array elems :: _ => CompoundCurveCurves.addArray IS_WRAPPED unwrap accepts elems geom
  | v :: _ =>
    if IS_WRAPPED v "SimpleCurve" then
      let ring := unwrap v
      let r := geom.addCurve accepts ring
      if r.1 ≠ 0 then (some (JSError.ogr r.1), r.2) else (none, r.2)
    else (some (JSError.error "curve(s) must be a SimpleCurve or array of SimpleCurves"), geom)

/-- Native feature definition (`OGRFeatureDefn`): its field definitions in order. -/
structure OGRFeatureDefn (Field : Type) where
  fields : List Field
  deriving DecidableEq, Repr

/-- Native `OGRFeatureDefn::AddFieldDefn` (external, returns nothing): appends a copy of
the field definition. -/
def OGRFeatureDefn.AddFieldDefn {Field : Type} (d : OGRFeatureDefn Field) (f : Field) :
    OGRFeatureDefn Field :=
  { fields := d.fields ++ [f] }

/-- The `FeatureDefn` wrapper: `this_` is the native definition, absent once the wrapper
has been disposed; `isAlive()` is `this_ != nullptr`. -/
structure FeatureDefn (Field : Type) where
  this_ : Option (OGRFeatureDefn Field)
  deriving DecidableEq, Repr

/-- Liveness test `FeatureDefn::isAlive`. -/
def FeatureDefn.isAlive {Field : Type} (w : FeatureDefn Field) : Bool := w.this_.isSome

/-- The array loop of `FeatureDefnFields::add` (feature_defn_fields.cpp:214-223). -/
def FeatureDefnFields.addArray {Field : Type} (IS_WRAPPED : JSValue → String → Bool)
    (unwrap : JSValue → Field) :
    List JSValue → OGRFeatureDefn Field → Option JSError × OGRFeatureDefn Field
  | [], def_ => (none, def_)
  | element :: rest, def_ =>
    if IS_WRAPPED element "FieldDefn" then
      let field_def := unwrap element
      FeatureDefnFields.addArray IS_WRAPPED unwrap rest (def_.AddFieldDefn field_def)
    else (some (JSError.error "All array elements must be FieldDefn objects"), def_)

/-- Method `FeatureDefnFields::add` (feature_defn_fields.cpp:194-233). -/
def FeatureDefnFields.add {Field : Type} (IS_WRAPPED : JSValue → String → Bool)
    (unwrap : JSValue → Field) (feature_def : FeatureDefn Field) (info : List JSValue) :
    Option JSError × FeatureDefn Field :=
  match feature_def.this_ with
  | none => (some (JSError.error "FeatureDefn object already destroyed"), feature_def)
  | some raw =>
    match info with
    | [] => (some (JSError.error "field definition(s) must be given"), feature_def)
    | JSValue.array elems :: _ =>
      let r := FeatureDefnFields.addArray IS_WRAPPED unwrap elems raw
      (r.1, { this_ := some r.2 })
    | v :: _ =>
      if IS_WRAPPED v "FieldDefn" then
        (none, { this_ := some (raw.AddFieldDefn (unwrap v)) })
      else
        (some (JSError.error
          "field definition(s) must be a FieldDefn object or array of FieldDefn objects"),
          feature_def)

/-! ## Machine integers -/

/-- The `int` obtained from the mathematical integer `v` by two's-complement wrap-around
(conversion of a wider value to `int`, or `int` arithmetic leaving the range). -/
def wrapInt (v : Int) : Int := (v + 2147483648) % 4294967296 - 2147483648

/-! ## Standalone collections: `count` and `get` -/

/-- Native `OGRPolygon::getExteriorRing` (external): the first ring, null when there is none. -/
def OGRPolygon.getExteriorRing {Ring : Type} (p : OGRPolygon Ring) : Option Ring :=
  p.rings.head?

/-- Native `OGRPolygon::getNumInteriorRings` (external): the rings after the first. -/
def OGRPolygon.getNumInteriorRings {Ring : Type} (p : OGRPolygon Ring) : Int :=
  (p.rings.tail.length : Int)

/-- Native `OGRPolygon::getInteriorRing(i)` (external): interior ring number `i`, null
when `i` is negative or not less than the number of interior rings. -/
def OGRPolygon.getInteriorRing {Ring : Type} (p : OGRPolygon Ring) (i : Int) : Option Ring :=
  if i < 0 ∨ i ≥ p.getNumInteriorRings then none else p.rings.tail.get? i.toNat

/-- Method `PolygonRings::count` (polygon_rings.cpp:47-58). -/
def PolygonRings.count {Ring : Type} (geom : OGRPolygon Ring) : Int :=
  let i : Int := if geom.getExteriorRing.isSome then 1 else 0
  wrapInt (i + geom.getNumInteriorRings)

/-- Method `PolygonRings::get` (polygon_rings.cpp:74-95).  `index` is the outcome of
`NODE_ARG_INT(0, "index", i)`.  The result is the ring handed to `LinearRing::New`. -/
def PolygonRings.get {Ring : Type} (geom : OGRPolygon Ring) (index : ArgResult Int) :
    Except JSError Ring :=
  match index with
  | Except.error e => Except.error e
  | Except.ok i =>
    let r := if i = 0 then geom.getExteriorRing else geom.getInteriorRing (wrapInt (i - 1))
    match r with
    | none => Except.error JSError.lastCPLErr
    | some ring => Except.ok ring

/-- Native line string (`OGRLineString`): its points in order. -/
structure OGRLineString (Pt : Type) where
  points : List Pt
  deriving DecidableEq, Repr

/-- Native `OGRSimpleCurve::getNumPoints` (external). -/
def OGRLineString.getNumPoints {Pt : Type} (g : OGRLineString Pt) : Int :=
  (g.points.length : Int)

/-- Native `OGRSimpleCurve::getPoint(i, &pt)` (external): copies the coordinates of the
point at position `i` into `pt`; `default` is the value of the freshly constructed `pt`,
kept when there is no such position. -/
def OGRLineString.getPoint {Pt : Type} [Inhabited Pt] (g : OGRLineString Pt) (i : Int) : Pt :=
  if i < 0 then default else g.points.getD i.toNat default

/-- Method `LineStringPoints::get` (linestring_points.cpp:110-130).  `index` is the
outcome of `NODE_ARG_INT(0, "index", i)`.  The result is the point copied by `Point::New`. -/
def LineStringPoints.get {Pt : Type} [Inhabited Pt] (geom : OGRLineString Pt)
    (index : ArgResult Int) : Except JSError Pt :=
  match index with
  | Except.error e => Except.error e
  | Except.ok i =>
    if i < 0 ∨ i ≥ geom.getNumPoints then
      Except.error (JSError.error "Invalid point requested")
    else
      Except.ok (geom.getPoint i)

/-! ## Dataset-bound collections: native model -/

/-- Raster data types (`GDALDataType`), by their numeric code. -/
abbrev GDALDataType := Nat

/-- The code of the unknown data type. -/
def GDT_Unknown : GDALDataType := 0

/-- The native option list a `StringList` holds (`options->get()`). -/
abbrev StringList := List String

/-- Native feature (`OGRFeature`): its identifier and its field values. -/
structure OGRFeature where
  fid : Int
  values : List String
  deriving DecidableEq, Repr

/-- Native vector layer (`OGRLayer`): identity, name, features in native read order and
the position of the single forward read cursor. -/
structure OGRLayer where
  handle : Handle
  name : String
  features : List OGRFeature
  cursor : Nat
  deriving DecidableEq, Repr

/-- Native dataset (`GDALDataset`): raster bands in order (band id `k` is the `k`-th,
counted from one) and vector layers in order. -/
structure GDALDataset where
  bands : List Handle
  layers : List OGRLayer
  deriving DecidableEq, Repr

/-- What only the external library decides about a dataset operation: the error message
it reports, or the handle of the object it creates. -/
structure GDALDriver where
  GDALGetDataTypeByName : String → GDALDataType
  addBand : GDALDataset → GDALDataType → StringList → Except String Handle
  createLayer : GDALDataset → String → Option Handle → Int → StringList → Except String Handle
  copyLayer : GDALDataset → Option OGRLayer → String → StringList → Except String Handle
  deleteLayer : GDALDataset → Int → OGRErr

/-- Native `GDALDataset::GetRasterCount` (external). -/
def GDALDataset.GetRasterCount (ds : GDALDataset) : Int := (ds.bands.length : Int)

/-- Native `GDALDataset::GetRasterBand(nBandId)` (external): band ids run from 1 to the
raster count; null otherwise. -/
def GDALDataset.GetRasterBand (ds : GDALDataset) (nBandId : Int) : Option Handle :=
  if nBandId < 1 ∨ nBandId > ds.GetRasterCount then none else ds.bands.get? (nBandId - 1).toNat

/-- Native `GDALDataset::AddBand` (external): on success the new band becomes the last
one; on failure the message is left as the last error and nothing changes. -/
def GDALDataset.AddBand (drv : GDALDriver) (ds : GDALDataset) (type : GDALDataType)
    (options : StringList) : Except String GDALDataset :=
  match drv.addBand ds type options with
  | Except.error msg => Except.error msg
  | Except.ok h => Except.ok { ds with bands := ds.bands ++ [h] }

/-- Native `GDALDataset::GetLayerCount` (external). -/
def GDALDataset.GetLayerCount (ds : GDALDataset) : Int := (ds.layers.length : Int)

/-- Native `GDALDataset::GetLayer(iLayer)` (external): positions run from 0; null
otherwise. -/
def GDALDataset.GetLayer (ds : GDALDataset) (iLayer : Int) : Option Handle :=
  if iLayer < 0 ∨ iLayer ≥ ds.GetLayerCount then none
  else (ds.layers.get? iLayer.toNat).map OGRLayer.handle

/-- Native `GDALDataset::GetLayerByName` (external): the first layer whose name is exactly
`name`; when there is none, the first layer whose name the library's comparison `EQUAL`
(which ignores case) takes to be `name`; null when there is none either. -/
def GDALDataset.GetLayerByName (EQUAL : String → String → Bool) (ds : GDALDataset)
    (name : String) : Option Handle :=
  match ds.layers.find? (fun l => l.name == name) with
  | some l => some l.handle
  | none => (ds.layers.find? (fun l => EQUAL name l.name)).map OGRLayer.handle

/-- Native `GDALDataset::CreateLayer` (external): on success a new empty layer with the
given name becomes the last layer and is returned; on failure null is returned and the
message is left as the last error. -/
def GDALDataset.CreateLayer (drv : GDALDriver) (ds : GDALDataset) (name : String)
    (srs : Option Handle) (geom_type : Int) (options : StringList) :
    Except String (Handle × GDALDataset) :=
  match drv.createLayer ds name srs geom_type options with
  | Except.error msg => Except.error msg
  | Except.ok h =>
    Except.ok (h, { ds with layers := ds.layers ++
      [{ handle := h, name := name, features := [], cursor := 0 }] })

/-- Native `GDALDataset::CopyLayer` (external): on success a layer with the new name and
the features of the source becomes the last layer and is returned. -/
def GDALDataset.CopyLayer (drv : GDALDriver) (ds : GDALDataset) (src : Option OGRLayer)
    (new_name : String) (options : StringList) : Except String (Handle × GDALDataset) :=
  match drv.copyLayer ds src new_name options with
  | Except.error msg => Except.error msg
  | Except.ok h =>
    Except.ok (h, { ds with layers := ds.layers ++
      [{ handle := h, name := new_name,
         features := (src.map OGRLayer.features).getD [], cursor := 0 }] })

/-- Native `GDALDataset::DeleteLayer(iLayer)` (external): on success the layer at that
position is gone. -/
def GDALDataset.DeleteLayer (drv : GDALDriver) (ds : GDALDataset) (iLayer : Int) :
    OGRErr × GDALDataset :=
  if drv.deleteLayer ds iLayer = 0 then (0, { ds with layers := ds.layers.eraseIdx iLayer.toNat })
  else (drv.deleteLayer ds iLayer, ds)

/-- Native `OGRLayer::GetFeature(id)` (external): the feature carrying that identifier,
null when there is none. -/
def OGRLayer.GetFeature (l : OGRLayer) (id : Int) : Option OGRFeature :=
  l.features.find? (fun f => f.fid == id)

/-- Native `OGRLayer::ResetReading` (external): the cursor returns to the start. -/
def OGRLayer.ResetReading (l : OGRLayer) : OGRLayer := { l with cursor := 0 }

/-- Native `OGRLayer::GetNextFeature` (external): the feature under the cursor, which
then moves on; null, with the cursor unmoved, when the features are exhausted. -/
def OGRLayer.GetNextFeature (l : OGRLayer) : Option OGRFeature × OGRLayer :=
  match l.features.get? l.cursor with
  | some f => (some f, { l with cursor := l.cursor + 1 })
  | none => (none, l)

/-- The layer mutators and counters of the external library, as the binding calls them
on the native pointers it holds (`none` is a null pointer). -/
structure OGRLibrary where
  CreateFeature : OGRLayer → Option OGRFeature → OGRErr × OGRLayer
  SetFeature : OGRLayer → Option OGRFeature → OGRErr × OGRLayer
  DeleteFeature : OGRLayer → Int → OGRErr × OGRLayer
  GetFeatureCount : OGRLayer → Int → Int
  SetFID : Option OGRFeature → Int → OGRErr × Option OGRFeature

/-! ## Dataset-bound collections: wrappers, jobs, results -/

/-- The `Dataset` wrapper: `this_dataset` is the native dataset, absent once the dataset
has been closed; `isAlive()` tests it. -/
structure Dataset where
  this_dataset : Option GDALDataset
  uid : Nat
  deriving DecidableEq, Repr

/-- Liveness test `Dataset::isAlive`. -/
def Dataset.isAlive (ds : Dataset) : Bool := ds.this_dataset.isSome

/-- The `Layer` wrapper: `this_` is the native layer (absent once disposed),
`parent_ds` the native dataset it belongs to (`getParent()`). -/
structure Layer where
  this_ : Option OGRLayer
  parent_ds : Handle
  parent_uid : Nat
  deriving DecidableEq, Repr

/-- Liveness test `Layer::isAlive`. -/
def Layer.isAlive (l : Layer) : Bool := l.this_.isSome

/-- The `Feature` wrapper: `this_` is the native feature, absent once disposed. -/
structure Feature where
  this_ : Option OGRFeature
  deriving DecidableEq, Repr

/-- Liveness test `Feature::isAlive`. -/
def Feature.isAlive (f : Feature) : Bool := f.this_.isSome

/-- Native calls a binding method can make, with their arguments. -/
inductive NativeCall where
  | AddBand (type : GDALDataType) (options : StringList)
  | GetRasterCount
  | GetRasterBand (nBandId : Int)
  | CreateLayer (name : String) (srs : Option Handle) (geom_type : Int) (options : StringList)
  | CopyLayer (src : Option Handle) (new_name : String) (options : StringList)
  | DeleteLayer (iLayer : Int)
  | GetLayerCount
  | GetLayer (iLayer : Int)
  | GetLayerByName (name : String)
  | getNames
  | GetFeature (id : Int)
  | ResetReading
  | GetNextFeature
  | CreateFeature (f : Option OGRFeature)
  | SetFID (id : Int)
  | SetFeature (f : Option OGRFeature)
  | DeleteFeature (id : Int)
  | GetFeatureCount (force : Int)
  deriving DecidableEq, Repr

/-- The wrappers a job can pin with `persist`, or whose native handle its native-call
closure captures. -/
inductive WrapperRef where
  | dataset
  | parent
  | layer
  | feature
  | sourceLayer
  | spatialReference
  deriving DecidableEq, Repr

/-- A job as built by a method: what it pins and what its closure captures. -/
structure JobRecord where
  persisted : List WrapperRef
  captured : List WrapperRef
  deriving DecidableEq, Repr

/-- What a binding method leaves behind: the exceptions it raised in order (`thrown`,
empty when the call succeeds), the native value it handed back (`value`), the job it
built (`job`), the native calls it made in order (`calls`), the native state (`state`). -/
structure CallResult (S R : Type) where
  thrown : List JSError
  value : Option R
  job : Option JobRecord
  calls : List NativeCall
  state : S
  deriving DecidableEq, Repr

/-- A method that raises `e` and returns before building a job or calling the library. -/
def CallResult.raise {S R : Type} (e : JSError) (s : S) : CallResult S R :=
  { thrown := [e], value := none, job := none, calls := [], state := s }

/-- Outcome of `StringList::parse` (utils/string_list.hpp, not among the sources): the
value it returns (`failed`, true on error), the exception it raised itself, and the list
`options->get()` yields afterwards. -/
structure ParseOutcome where
  failed : Bool
  thrown : Option JSError
  list : StringList
  deriving DecidableEq, Repr

/-- A `StringList` on which `parse` was not called. -/
def ParseOutcome.fresh : ParseOutcome := { failed := false, thrown := none, list := [] }

/-- Modelled from the spec: `GDALAsyncableJob::run` (async.hpp is not among the sources).
Per §4.4-4.5 the synchronous and asynchronous forms share the native-call logic: the
native-call closure `main` executes; when it raises, the error reaches the caller instead
of a result; otherwise the translation closure hands the native result back.  `raised`
are the exceptions the method had raised before it ran the job. -/
def GDALAsyncableJob.run {S R : Type} (raised : List JSError) (job : JobRecord)
    (main : Except JSError R × List NativeCall × S) : CallResult S R :=
  match main.1 with
  | Except.error e =>
    { thrown := raised ++ [e], value := none, job := some job, calls := main.2.1,
      state := main.2.2 }
  | Except.ok r =>
    { thrown := raised, value := some r, job := some job, calls := main.2.1,
      state := main.2.2 }

/-! ## Dataset-bound collections: the generic template (dataset_collection.hpp) -/

/-- Template method `DatasetCollection::get` (dataset_collection.hpp:99-128).  `ds` and
`parent` are the outcomes of the two `NODE_UNWRAP_CHECK` expansions (for `parent`,
together with `parent->get()`), `id` the outcome of `NODE_ARG_STR_INT(0, "id", ...)`:
a name (`isString`) or an index (`size_t`).  `__get` and `__getByName` are the two
overloads of `SELF::__get`.  The value is the native pointer handed to `NODEOBJ::New`. -/
def DatasetCollection.get {P : Type}
    (__get : P → Nat → Except JSError (Option Handle) × List NativeCall)
    (__getByName : P → String → Except JSError (Option Handle) × List NativeCall)
    (ds : ArgResult Dataset) (parent : ArgResult P) (id : ArgResult (String ⊕ Nat)) :
    CallResult Unit Handle :=
  match ds with
  | Except.error e => CallResult.raise e ()
  | Except.ok _ =>
    match parent with
    | Except.error e => CallResult.raise e ()
    | Except.ok raw =>
      match id with
      | Except.error e => CallResult.raise e ()
      | Except.ok key =>
        let r := match key with
          | Sum.inr idx => __get raw idx
          | Sum.inl name => __getByName raw name
        GDALAsyncableJob.run [] { persisted := [WrapperRef.parent], captured := [WrapperRef.parent] }
          (match r.1 with
            | Except.error e => (Except.error e, r.2, ())
            | Except.ok none => (Except.error (JSError.error "Invalid element"), r.2, ())
            | Except.ok (some h) => (Except.ok h, r.2, ()))

/-- Template method `DatasetCollection::count` (dataset_collection.hpp:130-150). -/
def DatasetCollection.count {P : Type} (__count : P → Int × List NativeCall)
    (ds : ArgResult Dataset) (parent : ArgResult P) : CallResult Unit Int :=
  match ds with
  | Except.error e => CallResult.raise e ()
  | Except.ok _ =>
    match parent with
    | Except.error e => CallResult.raise e ()
    | Except.ok raw =>
      GDALAsyncableJob.run [] { persisted := [WrapperRef.parent], captured := [WrapperRef.parent] }
        (Except.ok (__count raw).1, (__count raw).2, ())

/-- Getter `GroupCollection::namesGetter` (group_collection.hpp:42-65).  `ds` is the
unwrapped root dataset, `parent` the native parent (`parent->get()`), `__getNames` the
hook `SELF::__getNames`. -/
def GroupCollection.namesGetter {P : Type} (__getNames : P → List String)
    (ds : Dataset) (parent : P) : CallResult Unit (List String) :=
  if !ds.isAlive then
    CallResult.raise (JSError.error "Dataset object has already been destroyed") ()
  else
    { thrown := [], value := some (__getNames parent), job := none,
      calls := [NativeCall.getNames], state := () }

/-! ## `DatasetBands` (dataset_bands.cpp) -/

/-- Hook `DatasetBands::__count` (dataset_bands.cpp:160-162). -/
def DatasetBands.__count (parent : GDALDataset) : Int × List NativeCall :=
  (parent.GetRasterCount, [NativeCall.GetRasterCount])

/-- Hook `DatasetBands::__get(parent, idx)` (dataset_bands.cpp:65-68); `idx` is a `size_t`,
converted to `int` at the native call. -/
def DatasetBands.__get (parent : GDALDataset) (idx : Nat) :
    Except JSError (Option Handle) × List NativeCall :=
  if idx > (DatasetBands.__count parent).1.toNat ∨ idx = 0 then
    (Except.ok none, [NativeCall.GetRasterCount])
  else
    (Except.ok (parent.GetRasterBand (wrapInt idx)),
      [NativeCall.GetRasterCount, NativeCall.GetRasterBand (wrapInt idx)])

/-- Hook `DatasetBands::__get(parent, name)` (dataset_bands.cpp:70-72). -/
def DatasetBands.__getByName (_parent : GDALDataset) (_name : String) :
    Except JSError (Option Handle) × List NativeCall :=
  (Except.error (JSError.error "index must be a number"), [])

/-- The data type selection of `DatasetBands::create` (dataset_bands.cpp:117-125) on the
first argument: `none` when the method raises `data type must be string or undefined`. -/
def DatasetBands.create_type (drv : GDALDriver) (a0 : JSValue) : Option GDALDataType :=
  match a0 with
  | JSValue.string type_name => some (drv.GDALGetDataTypeByName type_name)
  | JSValue.null => some GDT_Unknown
  | JSValue.undefined => some GDT_Unknown
  | _ => none

/-- The creation options of `DatasetBands::create` (dataset_bands.cpp:110, 127):
`options->parse(info[1])` when a second argument is given. -/
def DatasetBands.create_options (parse : JSValue → ParseOutcome) (rest : List JSValue) :
    ParseOutcome :=
  match rest with
  | [] => ParseOutcome.fresh
  | a1 :: _ => parse a1

/-- Method `DatasetBands::create` (dataset_bands.cpp:96-141).  `parse` stands for
`StringList::parse`.  The value is the pointer handed to `RasterBand::New`. -/
def DatasetBands.create (drv : GDALDriver) (parse : JSValue → ParseOutcome)
    (ds : Dataset) (info : List JSValue) : CallResult (Option GDALDataset) (Option Handle) :=
  match ds.this_dataset with
  | none =>
    CallResult.raise (JSError.error "Dataset object has already been destroyed") ds.this_dataset
  | some raw =>
    match info with
    | [] => CallResult.raise (JSError.error "data type argument needed") ds.this_dataset
    | a0 :: rest =>
      match DatasetBands.create_type drv a0 with
      | none =>
        CallResult.raise (JSError.error "data type must be string or undefined") ds.this_dataset
      | some type =>
        let options := DatasetBands.create_options parse rest
        if options.failed then
          { thrown := options.thrown.toList, value := none, job := none, calls := [],
            state := ds.this_dataset }
        else
          GDALAsyncableJob.run [] { persisted := [WrapperRef.dataset], captured := [WrapperRef.dataset] }
            (match raw.AddBand drv type options.list with
              | Except.error msg =>
                (Except.error (JSError.native msg), [NativeCall.AddBand type options.list], some raw)
              | Except.ok raw1 =>
                (Except.ok (raw1.GetRasterBand raw1.GetRasterCount),
                  [NativeCall.AddBand type options.list, NativeCall.GetRasterCount,
                    NativeCall.GetRasterBand raw1.GetRasterCount],
                  some raw1))

/-! ## `DatasetLayers` (dataset_layers.cpp) -/

/-- Hook `DatasetLayers::__count` (dataset_layers.cpp:173-175). -/
def DatasetLayers.__count (parent : GDALDataset) : Int × List NativeCall :=
  (parent.GetLayerCount, [NativeCall.GetLayerCount])

/-- Hook `DatasetLayers::__get(parent, idx)` (dataset_layers.cpp:63-65); `idx` is a
`size_t`, converted to `int` at the native call. -/
def DatasetLayers.__get (parent : GDALDataset) (idx : Nat) :
    Except JSError (Option Handle) × List NativeCall :=
  (Except.ok (parent.GetLayer (wrapInt idx)), [NativeCall.GetLayer (wrapInt idx)])

/-- Hook `DatasetLayers::__get(parent, name)` (dataset_layers.cpp:67-69).  `EQUAL` is the
comparison of names the library falls back on in `GetLayerByName`. -/
def DatasetLayers.__getByName (EQUAL : String → String → Bool) (parent : GDALDataset)
    (name : String) : Except JSError (Option Handle) × List NativeCall :=
  (Except.ok (parent.GetLayerByName EQUAL name), [NativeCall.GetLayerByName name])

/-- The geometry type `wkbUnknown`. -/
def wkbUnknown : Int := 0

/-- Method `DatasetLayers::create` (dataset_layers.cpp:112-155).  `layer_name`,
`spatial_ref` and `geom_type` are the outcomes of `NODE_ARG_STR(0, ...)`,
`NODE_ARG_WRAPPED_OPT(1, ...)` (the native reference of the wrapper, `none` when the
argument is left out or null) and `NODE_ARG_ENUM_OPT(2, ...)` (`none` when left out);
`parse` stands for `options->parse(info[3])`. -/
def DatasetLayers.create (drv : GDALDriver) (parse : JSValue → ParseOutcome)
    (ds : Dataset) (info : List JSValue) (layer_name : ArgResult String)
    (spatial_ref : ArgResult (Option Handle)) (geom_type : ArgResult (Option Int)) :
    CallResult (Option GDALDataset) Handle :=
  match ds.this_dataset with
  | none =>
    CallResult.raise (JSError.error "Dataset object has already been destroyed") ds.this_dataset
  | some raw =>
    match layer_name with
    | Except.error e => CallResult.raise e ds.this_dataset
    | Except.ok name =>
      match spatial_ref with
      | Except.error e => CallResult.raise e ds.this_dataset
      | Except.ok srs =>
        match geom_type with
        | Except.error e => CallResult.raise e ds.this_dataset
        | Except.ok gt =>
          let geom_type := gt.getD wkbUnknown
          let options := if info.length > 3 then parse (info.getD 3 JSValue.undefined)
            else ParseOutcome.fresh
          if options.failed then
            { thrown := options.thrown.toList, value := none, job := none, calls := [],
              state := ds.this_dataset }
          else
            GDALAsyncableJob.run []
              { persisted := [WrapperRef.dataset],
                captured := WrapperRef.dataset ::
                  (if srs.isSome then [WrapperRef.spatialReference] else []) }
              (match raw.CreateLayer drv name srs geom_type options.list with
                | Except.error msg =>
                  (Except.error (JSError.native msg),
                    [NativeCall.CreateLayer name srs geom_type options.list], some raw)
                | Except.ok (layer, raw1) =>
                  (Except.ok layer,
                    [NativeCall.CreateLayer name srs geom_type options.list], some raw1))

/-- Method `DatasetLayers::copy` (dataset_layers.cpp:199-236).  `layer_to_copy` and
`new_name` are the outcomes of `NODE_ARG_WRAPPED(0, ...)` and `NODE_ARG_STR(1, ...)`;
`parse` stands for `options->parse(info[2])`.  After a failed parse the method raises
`Error parsing string list` and goes on (line 219 has no `return`). -/
def DatasetLayers.copy (drv : GDALDriver) (parse : JSValue → ParseOutcome)
    (ds : Dataset) (info : List JSValue) (layer_to_copy : ArgResult Layer)
    (new_name : ArgResult String) : CallResult (Option GDALDataset) Handle :=
  match ds.this_dataset with
  | none =>
    CallResult.raise (JSError.error "Dataset object has already been destroyed") ds.this_dataset
  | some raw =>
    match layer_to_copy with
    | Except.error e => CallResult.raise e ds.this_dataset
    | Except.ok layer =>
      match new_name with
      | Except.error e => CallResult.raise e ds.this_dataset
      | Except.ok name =>
        let options := if info.length > 2 then parse (info.getD 2 JSValue.undefined)
          else ParseOutcome.fresh
        let raised : List JSError :=
          if options.failed then
            options.thrown.toList ++ [JSError.error "Error parsing string list"]
          else []
        let src := layer.this_
        GDALAsyncableJob.run raised
          { persisted := [WrapperRef.dataset, WrapperRef.sourceLayer],
            captured := [WrapperRef.dataset, WrapperRef.sourceLayer] }
          (match raw.CopyLayer drv src name options.list with
            | Except.error msg =>
              (Except.error (JSError.native msg),
                [NativeCall.CopyLayer (src.map OGRLayer.handle) name options.list], some raw)
            | Except.ok (l, raw1) =>
              (Except.ok l,
                [NativeCall.CopyLayer (src.map OGRLayer.handle) name options.list], some raw1))

/-- Method `DatasetLayers::remove` (dataset_layers.cpp:257-283).  `i` is the outcome of
`NODE_ARG_INT(0, "layer index", i)`. -/
def DatasetLayers.remove (drv : GDALDriver) (ds : Dataset) (i : ArgResult Int) :
    CallResult (Option GDALDataset) Unit :=
  match ds.this_dataset with
  | none =>
    CallResult.raise (JSError.error "Dataset object has already been destroyed") ds.this_dataset
  | some raw =>
    match i with
    | Except.error e => CallResult.raise e ds.this_dataset
    | Except.ok i =>
      GDALAsyncableJob.run [] { persisted := [WrapperRef.dataset], captured := [WrapperRef.dataset] }
        (if (raw.DeleteLayer drv i).1 ≠ 0 then
          (Except.error (JSError.ogr (raw.DeleteLayer drv i).1), [NativeCall.DeleteLayer i],
            some (raw.DeleteLayer drv i).2)
        else
          (Except.ok (), [NativeCall.DeleteLayer i], some (raw.DeleteLayer drv i).2))

/-! ## `LayerFeatures` (layer_features.cpp) -/

/-- The test `v->IsObject()` of the JavaScript engine. -/
def JSValue.IsObject : JSValue → Bool
  | JSValue.array _ => true
  | JSValue.wrapped _ _ => true
  | JSValue.object _ => true
  | _ => false

/-- The test `v->IsNumber()` of the JavaScript engine. -/
def JSValue.IsNumber : JSValue → Bool
  | JSValue.number _ => true
  | _ => false

/-- Method `LayerFeatures::get` (layer_features.cpp:74-98).  `feature_id` is the outcome
of `NODE_ARG_INT(0, "feature id", feature_id)`. -/
def LayerFeatures.get (layer : Layer) (feature_id : ArgResult Int) :
    CallResult Layer OGRFeature :=
  match layer.this_ with
  | none => CallResult.raise (JSError.error "Layer object already destroyed") layer
  | some gdal_layer =>
    match feature_id with
    | Except.error e => CallResult.raise e layer
    | Except.ok feature_id =>
      GDALAsyncableJob.run [] { persisted := [WrapperRef.layer], captured := [WrapperRef.layer] }
        (match gdal_layer.GetFeature feature_id with
          | none => (Except.error JSError.lastCPLErr, [NativeCall.GetFeature feature_id], layer)
          | some feature => (Except.ok feature, [NativeCall.GetFeature feature_id], layer))

/-- Method `LayerFeatures::first` (layer_features.cpp:117-138).  The value is the pointer
handed to `Feature::New` (null when the layer has no feature). -/
def LayerFeatures.first (layer : Layer) : CallResult Layer (Option OGRFeature) :=
  match layer.this_ with
  | none => CallResult.raise (JSError.error "Layer object already destroyed") layer
  | some gdal_layer =>
    GDALAsyncableJob.run [] { persisted := [WrapperRef.layer], captured := [WrapperRef.layer] }
      (Except.ok gdal_layer.ResetReading.GetNextFeature.1,
        [NativeCall.ResetReading, NativeCall.GetNextFeature],
        { layer with this_ := some gdal_layer.ResetReading.GetNextFeature.2 })

/-- Method `LayerFeatures::next` (layer_features.cpp:163-183). -/
def LayerFeatures.next (layer : Layer) : CallResult Layer (Option OGRFeature) :=
  match layer.this_ with
  | none => CallResult.raise (JSError.error "Layer object already destroyed") layer
  | some gdal_layer =>
    GDALAsyncableJob.run [] { persisted := [WrapperRef.layer], captured := [WrapperRef.layer] }
      (Except.ok gdal_layer.GetNextFeature.1, [NativeCall.GetNextFeature],
        { layer with this_ := some gdal_layer.GetNextFeature.2 })

/-- Method `LayerFeatures::add` (layer_features.cpp:220-245).  `f` is the outcome of
`NODE_ARG_WRAPPED(0, "feature", Feature, f)`. -/
def LayerFeatures.add (lib : OGRLibrary) (layer : Layer) (f : ArgResult Feature) :
    CallResult Layer Unit :=
  match layer.this_ with
  | none => CallResult.raise (JSError.error "Layer object already destroyed") layer
  | some gdal_layer =>
    match f with
    | Except.error e => CallResult.raise e layer
    | Except.ok f =>
      let gdal_f := f.this_
      GDALAsyncableJob.run [] { persisted := [WrapperRef.layer], captured := [WrapperRef.layer, WrapperRef.feature] }
        (if (lib.CreateFeature gdal_layer gdal_f).1 ≠ 0 then
          (Except.error (JSError.ogr (lib.CreateFeature gdal_layer gdal_f).1),
            [NativeCall.CreateFeature gdal_f],
            { layer with this_ := some (lib.CreateFeature gdal_layer gdal_f).2 })
        else
          (Except.ok (), [NativeCall.CreateFeature gdal_f],
            { layer with this_ := some (lib.CreateFeature gdal_layer gdal_f).2 }))

/-- Method `LayerFeatures::count` (layer_features.cpp:265-296).  `object_store_has` is
`object_store.has`, `force` the outcome of `NODE_ARG_BOOL_OPT(0, "force", force)`
(`none` when the argument is left out). -/
def LayerFeatures.count (lib : OGRLibrary) (object_store_has : Handle → Bool) (layer : Layer)
    (force : ArgResult (Option Bool)) : CallResult Layer Int :=
  match layer.this_ with
  | none => CallResult.raise (JSError.error "Layer object already destroyed") layer
  | some gdal_layer =>
    if object_store_has layer.parent_ds then
      match force with
      | Except.error e => CallResult.raise e layer
      | Except.ok b =>
        let force : Int := match b with
          | none => 1
          | some true => 1
          | some false => 0
        GDALAsyncableJob.run [] { persisted := [WrapperRef.layer], captured := [WrapperRef.layer] }
          (Except.ok (lib.GetFeatureCount gdal_layer force), [NativeCall.GetFeatureCount force],
            layer)
    else CallResult.raise (JSError.error "Dataset object already destroyed") layer

/-- The job of `LayerFeatures::set` (layer_features.cpp:366-382), once the feature has
been bound: `calls` are the native calls already made. -/
def LayerFeatures.setJob (lib : OGRLibrary) (layer : Layer) (gdal_layer : OGRLayer)
    (f : Feature) (calls : List NativeCall) : CallResult (Layer × Option Feature) Unit :=
  if !f.isAlive then
    { thrown := [JSError.error "Feature already destroyed"], value := none, job := none,
      calls := calls, state := (layer, some f) }
  else
    let gdal_feature := f.this_
    GDALAsyncableJob.run []
      { persisted := [WrapperRef.layer, WrapperRef.feature],
        captured := [WrapperRef.layer, WrapperRef.feature] }
      (if (lib.SetFeature gdal_layer gdal_feature).1 ≠ 0 then
        (Except.error (JSError.ogr (lib.SetFeature gdal_layer gdal_feature).1),
          calls ++ [NativeCall.SetFeature gdal_feature],
          ({ layer with this_ := some (lib.SetFeature gdal_layer gdal_feature).2 }, some f))
      else
        (Except.ok (), calls ++ [NativeCall.SetFeature gdal_feature],
          ({ layer with this_ := some (lib.SetFeature gdal_layer gdal_feature).2 }, some f)))

/-- Method `LayerFeatures::set` (layer_features.cpp:326-383).  `feature0`, `id0` and
`feature1` are the outcomes of `NODE_ARG_WRAPPED(0, "feature", Feature, f)`,
`NODE_ARG_INT(0, "feature id", i)` and `NODE_ARG_WRAPPED(1, "feature", Feature, f)`.
Lines 337-342: the object-store lookup only binds the local `ds`, and the test that
follows it is again `!layer->isAlive()`. -/
def LayerFeatures.set (lib : OGRLibrary) (object_store_has : Handle → Bool) (layer : Layer)
    (info : List JSValue) (feature0 : ArgResult Feature) (id0 : ArgResult Int)
    (feature1 : ArgResult Feature) : CallResult (Layer × Option Feature) Unit :=
  match layer.this_ with
  | none => CallResult.raise (JSError.error "Layer object already destroyed") (layer, none)
  | some gdal_layer =>
    let _ds : Option Handle :=
      if object_store_has layer.parent_ds then some layer.parent_ds else none
    if !layer.isAlive then
      CallResult.raise (JSError.error "Dataset object already destroyed") (layer, none)
    else if (info.getD 0 JSValue.undefined).IsObject then
      match feature0 with
      | Except.error e => CallResult.raise e (layer, none)
      | Except.ok f => LayerFeatures.setJob lib layer gdal_layer f []
    else if (info.getD 0 JSValue.undefined).IsNumber then
      match id0 with
      | Except.error e => CallResult.raise e (layer, none)
      | Except.ok i =>
        match feature1 with
        | Except.error e => CallResult.raise e (layer, none)
        | Except.ok f =>
          if (lib.SetFID f.this_ i).1 ≠ 0 then
            { thrown := [JSError.error "Error setting feature id"], value := none,
              job := none, calls := [NativeCall.SetFID i],
              state := (layer, some { this_ := (lib.SetFID f.this_ i).2 }) }
          else
            LayerFeatures.setJob lib layer gdal_layer { this_ := (lib.SetFID f.this_ i).2 }
              [NativeCall.SetFID i]
    else CallResult.raise (JSError.error "Invalid arguments") (layer, none)

/-- Method `LayerFeatures::remove` (layer_features.cpp:403-429).  `i` is the outcome of
`NODE_ARG_INT(0, "feature id", i)`. -/
def LayerFeatures.remove (lib : OGRLibrary) (layer : Layer) (i : ArgResult Int) :
    CallResult Layer Unit :=
  match layer.this_ with
  | none => CallResult.raise (JSError.error "Layer object already destroyed") layer
  | some gdal_layer =>
    match i with
    | Except.error e => CallResult.raise e layer
    | Except.ok i =>
      GDALAsyncableJob.run [] { persisted := [WrapperRef.layer], captured := [WrapperRef.layer] }
        (if (lib.DeleteFeature gdal_layer i).1 ≠ 0 then
          (Except.error (JSError.ogr (lib.DeleteFeature gdal_layer i).1),
            [NativeCall.DeleteFeature i],
            { layer with this_ := some (lib.DeleteFeature gdal_layer i).2 })
        else
          (Except.ok (), [NativeCall.DeleteFeature i],
            { layer with this_ := some (lib.DeleteFeature gdal_layer i).2 }))

/-- The feature identifiers produced by `k` successive calls of `LayerFeatures::next`
(`none` for a null result or a failed call), and the layer wrapper afterwards. -/
def LayerFeatures.nextIds : Nat → Layer → List (Option Int) × Layer
  | 0, layer => ([], layer)
  | k + 1, layer =>
    let r := LayerFeatures.next layer
    let rest := LayerFeatures.nextIds k r.state
    ((r.value.bind (fun f => f.map OGRFeature.fid)) :: rest.1, rest.2)

/-- The feature identifiers produced by `first()` followed by `k` calls of `next()`. -/
def LayerFeatures.scanIds (k : Nat) (layer : Layer) : List (Option Int) :=
  let r := LayerFeatures.first layer
  (r.value.bind (fun f => f.map OGRFeature.fid)) :: (LayerFeatures.nextIds k r.state).1

/-! ## `LineStringPoints`: `add` and `reverse` (linestring_points.cpp) -/

/-- Native point (`OGRPoint`): its coordinates; `z` is absent for a two-dimensional point.
JavaScript numbers are carried over unchanged (`Nan::To<double>`). -/
structure OGRPoint where
  x : Rat
  y : Rat
  z : Option Rat
  deriving DecidableEq, Repr

instance : Inhabited OGRPoint := ⟨{ x := 0, y := 0, z := none }⟩

/-- Native `OGRSimpleCurve::addPoint(const OGRPoint *)` (external): the point becomes the
last point of the line string. -/
def OGRLineString.addPoint {Pt : Type} (g : OGRLineString Pt) (p : Pt) : OGRLineString Pt :=
  { points := g.points ++ [p] }

/-- Native `OGRSimpleCurve::addPoint(x, y)` (external). -/
def OGRLineString.addPointXY (g : OGRLineString OGRPoint) (x y : Rat) : OGRLineString OGRPoint :=
  g.addPoint { x := x, y := y, z := none }

/-- Native `OGRSimpleCurve::addPoint(x, y, z)` (external). -/
def OGRLineString.addPointXYZ (g : OGRLineString OGRPoint) (x y z : Rat) :
    OGRLineString OGRPoint :=
  g.addPoint { x := x, y := y, z := some z }

/-- Native `OGRSimpleCurve::reversePoints` (external): the same points in reverse order. -/
def OGRLineString.reversePoints {Pt : Type} (g : OGRLineString Pt) : OGRLineString Pt :=
  { points := g.points.reverse }

/-- The test `v->IsArray()` of the JavaScript engine. -/
def JSValue.IsArray : JSValue → Bool
  | JSValue.array _ => true
  | _ => false

/-- The elements of an array (`Nan::Get(array, i)` for `i` below `array->Length()`). -/
def JSValue.elements : JSValue → List JSValue
  | JSValue.array elems => elems
  | _ => []

/-- `Nan::HasOwnProperty(obj, key)` followed by `Nan::Get(obj, key)`: the value of the own
property `key`, `none` when the object has no such property. -/
def JSValue.ownProperty (v : JSValue) (key : String) : Option JSValue :=
  match v with
  | JSValue.object fields => fields.lookup key
  | _ => none

/-- `Nan::To<double>(v).ToChecked()` on a value that passed `IsNumber()`. -/
def JSValue.toDouble : JSValue → Rat
  | JSValue.number x => x
  | _ => 0

/-- Hook `LineStringPoints::__count` (linestring_points.cpp:61-63). -/
def LineStringPoints.__count {Pt : Type} (parent : OGRLineString Pt) : Int :=
  parent.getNumPoints

/-- Method `LineStringPoints::reverse` (linestring_points.cpp:70-80): the line string
after the call. -/
def LineStringPoints.reverse {Pt : Type} (geom : OGRLineString Pt) : OGRLineString Pt :=
  geom.reversePoints

/-- The branch `set from object {x: 0, y: 5}` of `LineStringPoints::add`
(linestring_points.cpp:291-306 inside the array loop, 310-326 for a single argument; the
two copies are the same code).  `NODE_DOUBLE_FROM_OBJ` is the macro of that name. -/
def LineStringPoints.addFromObject (NODE_DOUBLE_FROM_OBJ : JSValue → String → ArgResult Rat)
    (geom : OGRLineString OGRPoint) (obj : JSValue) : Option JSError × OGRLineString OGRPoint :=
  match NODE_DOUBLE_FROM_OBJ obj "x" with
  | Except.error e => (some e, geom)
  | Except.ok x =>
    match NODE_DOUBLE_FROM_OBJ obj "y" with
    | Except.error e => (some e, geom)
    | Except.ok y =>
      match obj.ownProperty "z" with
      | some z_val =>
        if !z_val.IsNumber then (some (JSError.error "z property must be number"), geom)
        else (none, geom.addPointXYZ x y z_val.toDouble)
      | none => (none, geom.addPointXY x y)

/-- The array loop of `LineStringPoints::add` (linestring_points.cpp:279-308). -/
def LineStringPoints.addArray (IS_WRAPPED : JSValue → String → Bool)
    (unwrap : JSValue → OGRPoint) (NODE_DOUBLE_FROM_OBJ : JSValue → String → ArgResult Rat) :
    List JSValue → OGRLineString OGRPoint → Option JSError × OGRLineString OGRPoint
  | [], geom => (none, geom)
  | element :: rest, geom =>
    if !element.IsObject then
      (some (JSError.error "All points must be Point objects or objects"), geom)
    else if IS_WRAPPED element "Point" then
      LineStringPoints.addArray IS_WRAPPED unwrap NODE_DOUBLE_FROM_OBJ rest
        (geom.addPoint (unwrap element))
    else
      match LineStringPoints.addFromObject NODE_DOUBLE_FROM_OBJ geom element with
      | (some e, geom1) => (some e, geom1)
      | (none, geom1) =>
        LineStringPoints.addArray IS_WRAPPED unwrap NODE_DOUBLE_FROM_OBJ rest geom1

/-- Method `LineStringPoints::add` (linestring_points.cpp:254-354): the exception raised,
if any, and the line string after the call. -/
def LineStringPoints.add (IS_WRAPPED : JSValue → String → Bool)
    (unwrap : JSValue → OGRPoint) (NODE_DOUBLE_FROM_OBJ : JSValue → String → ArgResult Rat)
    (geom : OGRLineString OGRPoint) (info : List JSValue) :
    Option JSError × OGRLineString OGRPoint :=
  match info with
  | [] => (some (JSError.error "Point must be given"), geom)
  | [a0] =>
    if !a0.IsObject then
      (some (JSError.error "Point, object, or array of points expected"), geom)
    else if IS_WRAPPED a0 "Point" then (none, geom.addPoint (unwrap a0))
    else if a0.IsArray then
      LineStringPoints.addArray IS_WRAPPED unwrap NODE_DOUBLE_FROM_OBJ a0.elements geom
    else LineStringPoints.addFromObject NODE_DOUBLE_FROM_OBJ geom a0
  | a0 :: a1 :: more =>
    if !a0.IsNumber then (some (JSError.error "Number expected for first argument"), geom)
    else if !a1.IsNumber then (some (JSError.error "Number expected for second argument"), geom)
    else
      match more with
      | [] => (none, geom.addPointXY a0.toDouble a1.toDouble)
      | a2 :: _ =>
        if !a2.IsNumber then (some (JSError.error "Number expected for third argument"), geom)
        else (none, geom.addPointXYZ a0.toDouble a1.toDouble a2.toDouble)

/-- The point an array element stands for, in the words of the specification: a Point
object stands for its native point, an object with numeric `x` and `y` and, when present,
numeric `z` for the point with these coordinates; every other element is invalid
(`none`). -/
def LineStringPoints.elementPoint (IS_WRAPPED : JSValue → String → Bool)
    (unwrap : JSValue → OGRPoint) (NODE_DOUBLE_FROM_OBJ : JSValue → String → ArgResult Rat)
    (element : JSValue) : Option OGRPoint :=
  if element.IsObject then
    if IS_WRAPPED element "Point" then some (unwrap element)
    else
      match NODE_DOUBLE_FROM_OBJ element "x", NODE_DOUBLE_FROM_OBJ element "y" with
      | Except.ok x, Except.ok y =>
        match element.ownProperty "z" with
        | none => some { x := x, y := y, z := none }
        | some (JSValue.number z) => some { x := x, y := y, z := some z }
        | some _ => none
      | _, _ => none
  else none

/-! ## `CompoundCurveCurves`: index lookup (compound_curves.cpp) -/

/-- Native calls on a geometry, with their arguments. -/
inductive GeometryCall where
  | getNumCurves
  | getCurve (i : Int)
  deriving DecidableEq, Repr

/-- Native `OGRCompoundCurve::getNumCurves` (external). -/
def OGRCompoundCurve.getNumCurves {Curve : Type} (p : OGRCompoundCurve Curve) : Int :=
  (p.curves.length : Int)

/-- Native `OGRCompoundCurve::getCurve(i)` (external): the curve at position `i`, counted
from zero; null outside the range. -/
def OGRCompoundCurve.getCurve {Curve : Type} (p : OGRCompoundCurve Curve) (i : Int) :
    Option Curve :=
  if i < 0 ∨ i ≥ p.getNumCurves then none else p.curves.get? i.toNat

/-- Hook `CompoundCurveCurves::__count` (compound_curves.cpp:53-55). -/
def CompoundCurveCurves.__count {Curve : Type} (parent : OGRCompoundCurve Curve) :
    Int × List GeometryCall :=
  (parent.getNumCurves, [GeometryCall.getNumCurves])

/-- Hook `CompoundCurveCurves::__get(parent, idx)` (compound_curves.cpp:86-89); `idx` is a
`size_t`, converted to `int` at the native call. -/
def CompoundCurveCurves.__get {Curve : Type} (parent : OGRCompoundCurve Curve) (idx : Nat) :
    Option Curve × List GeometryCall :=
  if idx ≥ (CompoundCurveCurves.__count parent).1.toNat then
    (none, [GeometryCall.getNumCurves])
  else
    (parent.getCurve (wrapInt idx),
      [GeometryCall.getNumCurves, GeometryCall.getCurve (wrapInt idx)])

/-- Modelled from the spec: `StandaloneCollection::get` (standalone_collection.hpp is not
among the sources).  Per §4.3 and §8, `get(index)` hands back the element the hook
`__get` yields and fails, never wrapping a null handle, when the hook yields null.
`idx` is the index bound from the argument. -/
def StandaloneCollection.get {P E C : Type} (__get : P → Nat → Option E × List C)
    (parent : P) (idx : ArgResult Nat) : Except JSError E :=
  match idx with
  | Except.error e => Except.error e
  | Except.ok i =>
    match (__get parent i).1 with
    | none => Except.error (JSError.error "Invalid element")
    | some r => Except.ok r

/-! ## `LayerFeatures`: one pass over the features -/

/-- The outcome (exceptions raised, value handed back) of each of `k` successive calls of
`LayerFeatures::next`. -/
def LayerFeatures.nextResults :
    Nat → Layer → List (List JSError × Option (Option OGRFeature))
  | 0, _ => []
  | k + 1, layer =>
    ((LayerFeatures.next layer).thrown, (LayerFeatures.next layer).value) ::
      LayerFeatures.nextResults k (LayerFeatures.next layer).state

/-- The outcome of `first()` and of each of the `k` calls of `next()` that follow it. -/
def LayerFeatures.passResults (k : Nat) (layer : Layer) :
    List (List JSError × Option (Option OGRFeature)) :=
  ((LayerFeatures.first layer).thrown, (LayerFeatures.first layer).value) ::
    LayerFeatures.nextResults k (LayerFeatures.first layer).state

/-! ## `LayerFeatures.set`: the native writes -/

/-- Native `OGRFeature::SetFID` (external): the feature carries the identifier afterwards;
`OGRERR_NONE` is returned. -/
def OGRFeature.SetFID (f : OGRFeature) (id : Int) : OGRErr × OGRFeature :=
  (0, { f with fid := id })

/-- The features of a layer after the first one carrying the identifier of `f` has been
replaced by `f`. -/
def OGRLayer.rewrite (f : OGRFeature) : List OGRFeature → List OGRFeature
  | [] => []
  | g :: rest => if g.fid = f.fid then f :: rest else g :: OGRLayer.rewrite f rest

/-- Native `OGRLayer::SetFeature` (external): the feature stored under the identifier of
`f` is replaced by `f`.  When no feature carries that identifier the driver either adds
`f` (`driverInserts`) or reports `OGRERR_NON_EXISTING_FEATURE` and changes nothing. -/
def OGRLayer.SetFeature (driverInserts : Bool) (l : OGRLayer) (f : OGRFeature) :
    OGRErr × OGRLayer :=
  if (l.features.find? (fun g => g.fid == f.fid)).isSome then
    (0, { l with features := OGRLayer.rewrite f l.features })
  else if driverInserts then (0, { l with features := l.features ++ [f] })
  else (9, l)

/-- The library behind `LayerFeatures`, with the native model above: `CreateFeature`
appends, `SetFeature` writes by identifier, `DeleteFeature` removes by identifier,
`GetFeatureCount` counts; a null feature pointer is refused. -/
def nativeLib (driverInserts : Bool) : OGRLibrary where
  CreateFeature := fun l f =>
    match f with
    | none => (6, l)
    | some g => (0, { l with features := l.features ++ [g] })
  SetFeature := fun l f =>
    match f with
    | none => (6, l)
    | some g => l.SetFeature driverInserts g
  DeleteFeature := fun l id =>
    if (l.features.find? (fun g => g.fid == id)).isSome then
      (0, { l with features := l.features.filter (fun g => g.fid != id) })
    else (9, l)
  GetFeatureCount := fun l _ => (l.features.length : Int)
  SetFID := fun f id =>
    match f with
    | none => (6, none)
    | some g => ((g.SetFID id).1, some (g.SetFID id).2)

/-- The layer wrapper after `first()` followed by `k` calls of `next()`. -/
def LayerFeatures.scanState (k : Nat) (layer : Layer) : Layer :=
  (LayerFeatures.nextIds k (LayerFeatures.first layer).state).2

/-! ## Sample hosts, used to exhibit concrete runs -/

/-- A host in which `IS_WRAPPED(v, cls)` holds exactly of the objects wrapped by class `cls`. -/
def sampleIsWrapped (v : JSValue) (cls : String) : Bool :=
  match v with
  | JSValue.wrapped c _ => c == cls
  | _ => false

/-- A host in which unwrapping a wrapped object yields its native handle. -/
def sampleUnwrap (v : JSValue) : Handle :=
  match v with
  | JSValue.wrapped _ h => h
  | _ => 0

/-- A native layer `towns` (handle 3) holding one feature, with identifier 5. -/
def sampleTowns : OGRLayer :=
  { handle := 3, name := "towns", features := [{ fid := 5, values := ["a"] }], cursor := 0 }

/-- A live wrapper of `sampleTowns`, whose root dataset has the native handle 7. -/
def sampleTownsLayer : Layer := { this_ := some sampleTowns, parent_ds := 7, parent_uid := 1 }

/-- An object store from which every dataset is gone. -/
def emptyStore (_ : Handle) : Bool := false

/-- A wrapper of a layer that has been disposed. -/
def sampleDeadLayer : Layer := { this_ := none, parent_ds := 7, parent_uid := 1 }

/-- A library in which features are appended, written and deleted by identifier, and
counted exactly. -/
def sampleLib : OGRLibrary where
  CreateFeature := fun l f =>
    match f with
    | none => (6, l)
    | some g => (0, { l with features := l.features ++ [g] })
  SetFeature := fun l f =>
    match f with
    | none => (6, l)
    | some g => (0, { l with features := l.features.map (fun x => if x.fid = g.fid then g else x) })
  DeleteFeature := fun l id => (0, { l with features := l.features.filter (fun x => x.fid != id) })
  GetFeatureCount := fun l _ => (l.features.length : Int)
  SetFID := fun f id => (0, f.map (fun g => { g with fid := id }))

/-- A driver that accepts every request: new bands get the handles 100, 101, ..., new
layers 200, 201, ..., and every data type name maps to the code 1. -/
def sampleDriver : GDALDriver where
  GDALGetDataTypeByName := fun _ => 1
  addBand := fun ds _ _ => Except.ok (100 + ds.bands.length)
  createLayer := fun ds _ _ _ _ => Except.ok (200 + ds.layers.length)
  copyLayer := fun ds _ _ _ => Except.ok (200 + ds.layers.length)
  deleteLayer := fun _ _ => 0

/-- A driver that refuses every request with the message `not supported`. -/
def refusingDriver : GDALDriver where
  GDALGetDataTypeByName := fun _ => 1
  addBand := fun _ _ _ => Except.error "not supported"
  createLayer := fun _ _ _ _ _ => Except.error "not supported"
  copyLayer := fun _ _ _ _ => Except.error "not supported"
  deleteLayer := fun _ _ => 6

/-- An option parser that takes `null`, `undefined`, arrays and objects (yielding no
option) and fails on everything else, raising an exception of its own. -/
def sampleParse (v : JSValue) : ParseOutcome :=
  match v with
  | JSValue.null => ParseOutcome.fresh
  | JSValue.undefined => ParseOutcome.fresh
  | JSValue.array _ => ParseOutcome.fresh
  | JSValue.object _ => ParseOutcome.fresh
  | _ =>
    { failed := true, thrown := some (JSError.error "String list must be an array or object"),
      list := [] }

/-- A native dataset with the single band 100 and the single layer `towns`. -/
def sampleNative : GDALDataset := { bands := [100], layers := [sampleTowns] }

/-- A live dataset wrapper over `sampleNative`. -/
def sampleDataset : Dataset := { this_dataset := some sampleNative, uid := 1 }

/-- A host in which unwrapping a Point object with handle `h` yields the point `(h, h)`. -/
def samplePointOf (v : JSValue) : OGRPoint :=
  match v with
  | JSValue.wrapped _ h => { x := (h : Rat), y := (h : Rat), z := none }
  | _ => default

/-- A host in which `NODE_DOUBLE_FROM_OBJ(obj, key, var)` binds the numeric own property
`key` and raises when the property is missing or not a number. -/
def sampleDoubleFromObj (obj : JSValue) (key : String) : ArgResult Rat :=
  match obj.ownProperty key with
  | some (JSValue.number x) => Except.ok x
  | some _ => Except.error (JSError.error "Property must be a number")
  | none => Except.error (JSError.error "Object must contain property")

/-- A live feature wrapper over a native feature with identifier 0 and the value `b`. -/
def sampleFeature : Feature := { this_ := some { fid := 0, values := ["b"] } }

/-! ## `FeatureDefnFields`: names, lookup, removal, reordering (feature_defn_fields.cpp) -/

/-- Native field definition (`OGRFieldDefn`): its name and its type code. -/
structure OGRFieldDefn where
  name : String
  type : Int
  deriving DecidableEq, Repr

/-- Native calls on a feature definition, with their arguments. -/
inductive FieldDefnCall where
  | GetFieldCount
  | GetFieldIndex (name : String)
  | GetFieldDefn (i : Int)
  | DeleteFieldDefn (i : Int)
  | ReorderFieldDefns (map : List Int)
  deriving DecidableEq, Repr

/-- What a method of `FeatureDefnFields` leaves behind: the exception raised, the value
handed back, the native calls made on the definition, and the wrapper afterwards. -/
structure FieldsResult (R : Type) where
  thrown : Option JSError
  value : Option R
  calls : List FieldDefnCall
  state : FeatureDefn OGRFieldDefn
  deriving DecidableEq, Repr

/-- A method that raises `e` and returns before touching the native definition. -/
def FieldsResult.raise {R : Type} (e : JSError) (w : FeatureDefn OGRFieldDefn) :
    FieldsResult R :=
  { thrown := some e, value := none, calls := [], state := w }

/-- Native `OGRFeatureDefn::GetFieldCount` (external). -/
def OGRFeatureDefn.GetFieldCount {Field : Type} (d : OGRFeatureDefn Field) : Int :=
  (d.fields.length : Int)

/-- The search behind `GetFieldIndex`: the position, counted from `i`, of the first field
whose name the library takes to be `name`; `-1` when there is none. -/
def OGRFeatureDefn.fieldIndexFrom (EQUAL : String → String → Bool) (name : String) :
    List OGRFieldDefn → Int → Int
  | [], _ => -1
  | f :: rest, i =>
    if EQUAL f.name name then i else OGRFeatureDefn.fieldIndexFrom EQUAL name rest (i + 1)

/-- Native `OGRFeatureDefn::GetFieldIndex` (external): the index of the first field
carrying the name, `-1` when there is none.  `EQUAL` is the library's comparison of field
names. -/
def OGRFeatureDefn.GetFieldIndex (EQUAL : String → String → Bool)
    (d : OGRFeatureDefn OGRFieldDefn) (name : String) : Int :=
  OGRFeatureDefn.fieldIndexFrom EQUAL name d.fields 0

/-- Native `OGRFeatureDefn::GetFieldDefn(i)` (external): the field at position `i`, null
outside the range. -/
def OGRFeatureDefn.GetFieldDefn {Field : Type} (d : OGRFeatureDefn Field) (i : Int) :
    Option Field :=
  if i < 0 ∨ i ≥ d.GetFieldCount then none else d.fields.get? i.toNat

/-- Native `OGRFeatureDefn::DeleteFieldDefn(i)` (external): the field at position `i` is
removed; outside the range an error code is returned and nothing changes. -/
def OGRFeatureDefn.DeleteFieldDefn {Field : Type} (d : OGRFeatureDefn Field) (i : Int) :
    OGRErr × OGRFeatureDefn Field :=
  if i < 0 ∨ i ≥ d.GetFieldCount then (6, d) else (0, { fields := d.fields.eraseIdx i.toNat })

/-- Native `OGRFeatureDefn::ReorderFieldDefns(panMap)` (external): when `panMap` is a
permutation of `0 .. n-1` the field at the new position `i` is the one that stood at
position `panMap[i]`; otherwise an error code is returned and nothing changes. -/
def OGRFeatureDefn.ReorderFieldDefns {Field : Type} (d : OGRFeatureDefn Field)
    (panMap : List Int) : OGRErr × OGRFeatureDefn Field :=
  if panMap.Perm ((List.range d.fields.length).map Int.ofNat) then
    (0, { fields := panMap.filterMap (fun k => d.fields.get? k.toNat) })
  else (6, d)

/-- `Nan::To<int64_t>(v).ToChecked()` on a value that passed `IsNumber()`: the number with
its fractional part dropped. -/
def JSValue.toInt64 : JSValue → Int
  | JSValue.number x => Int.tdiv x.num x.den
  | _ => 0

/-- Method `FeatureDefnFields::indexOf` (feature_defn_fields.cpp:74-89).  `name` is the
outcome of `NODE_ARG_STR(0, "field name", name)`. -/
def FeatureDefnFields.indexOf (EQUAL : String → String → Bool)
    (feature_def : FeatureDefn OGRFieldDefn) (name : ArgResult String) : FieldsResult Int :=
  match feature_def.this_ with
  | none => FieldsResult.raise (JSError.error "FeatureDefn object already destroyed") feature_def
  | some raw =>
    match name with
    | Except.error e => FieldsResult.raise e feature_def
    | Except.ok name =>
      { thrown := none, value := some (raw.GetFieldIndex EQUAL name),
        calls := [FieldDefnCall.GetFieldIndex name], state := feature_def }

/-- Method `FeatureDefnFields::get` (feature_defn_fields.cpp:99-122).  `field_index` is
the outcome of `ARG_FIELD_ID(0, feature_def->get(), field_index)`.  A null field makes the
method `throw CPLGetLastErrorMsg()`. -/
def FeatureDefnFields.get (feature_def : FeatureDefn OGRFieldDefn) (info : List JSValue)
    (field_index : ArgResult Int) : FieldsResult OGRFieldDefn :=
  match feature_def.this_ with
  | none => FieldsResult.raise (JSError.error "FeatureDefn object already destroyed") feature_def
  | some raw =>
    if info.length < 1 then
      FieldsResult.raise (JSError.error "Field index or name must be given") feature_def
    else
      match field_index with
      | Except.error e => FieldsResult.raise e feature_def
      | Except.ok i =>
        match raw.GetFieldDefn i with
        | none =>
          { thrown := some JSError.lastCPLErr, value := none,
            calls := [FieldDefnCall.GetFieldDefn i], state := feature_def }
        | some r =>
          { thrown := none, value := some r, calls := [FieldDefnCall.GetFieldDefn i],
            state := feature_def }

/-- Method `FeatureDefnFields::getNames` (feature_defn_fields.cpp:130-150): the name of
`GetFieldDefn(i)` for each `i` below `GetFieldCount()`. -/
def FeatureDefnFields.getNames (feature_def : FeatureDefn OGRFieldDefn) :
    FieldsResult (List String) :=
  match feature_def.this_ with
  | none => FieldsResult.raise (JSError.error "FeatureDefn object already destroyed") feature_def
  | some raw =>
    { thrown := none,
      value := some ((List.range raw.GetFieldCount.toNat).filterMap
        (fun (i : Nat) => (raw.GetFieldDefn (i : Int)).map OGRFieldDefn.name)),
      calls := FieldDefnCall.GetFieldCount ::
        (List.range raw.GetFieldCount.toNat).map
          (fun (i : Nat) => FieldDefnCall.GetFieldDefn (i : Int)),
      state := feature_def }

/-- Method `FeatureDefnFields::remove` (feature_defn_fields.cpp:159-185).  `field_index`
is the outcome of `ARG_FIELD_ID(0, feature_def->get(), field_index)`. -/
def FeatureDefnFields.remove (feature_def : FeatureDefn OGRFieldDefn) (info : List JSValue)
    (field_index : ArgResult Int) : FieldsResult Unit :=
  match feature_def.this_ with
  | none => FieldsResult.raise (JSError.error "FeatureDefn object already destroyed") feature_def
  | some raw =>
    if info.length < 1 then
      FieldsResult.raise (JSError.error "Field index or name must be given") feature_def
    else
      match field_index with
      | Except.error e => FieldsResult.raise e feature_def
      | Except.ok i =>
        if (raw.DeleteFieldDefn i).1 ≠ 0 then
          { thrown := some (JSError.ogr (raw.DeleteFieldDefn i).1), value := none,
            calls := [FieldDefnCall.DeleteFieldDefn i],
            state := { this_ := some (raw.DeleteFieldDefn i).2 } }
        else
          { thrown := none, value := none, calls := [FieldDefnCall.DeleteFieldDefn i],
            state := { this_ := some (raw.DeleteFieldDefn i).2 } }

/-- The loop of `FeatureDefnFields::reorder` (feature_defn_fields.cpp:271-287) over the
elements of the map: the exception it raises, or the `int` array it fills.  `n` is the
field count. -/
def FeatureDefnFields.reorderLoop (n : Int) : List JSValue → Except JSError (List Int)
  | [] => Except.ok []
  | val :: rest =>
    if !val.IsNumber then Except.error (JSError.error "Array must only contain integers")
    else
      let key := wrapInt val.toInt64
      if key < 0 ∨ key ≥ n then
        Except.error (JSError.error "Values must be between 0 and field count - 1")
      else
        match FeatureDefnFields.reorderLoop n rest with
        | Except.error e => Except.error e
        | Except.ok keys => Except.ok (key :: keys)

/-- Method `FeatureDefnFields::reorder` (feature_defn_fields.cpp:247-298).  `field_map` is
the outcome of `NODE_ARG_ARRAY(0, "field map", field_map)`: the elements of the array.
Its length is an unsigned 32-bit value, converted to `int` for the comparison; the loop
reads the elements at the positions below `n`. -/
def FeatureDefnFields.reorder (feature_def : FeatureDefn OGRFieldDefn)
    (field_map : ArgResult (List JSValue)) : FieldsResult Unit :=
  match feature_def.this_ with
  | none => FieldsResult.raise (JSError.error "FeatureDefn object already destroyed") feature_def
  | some raw =>
    match field_map with
    | Except.error e => FieldsResult.raise e feature_def
    | Except.ok field_map =>
      let n := raw.GetFieldCount
      if wrapInt (field_map.length : Int) ≠ n then
        { thrown := some (JSError.error "Array length must match field count"), value := none,
          calls := [FieldDefnCall.GetFieldCount], state := feature_def }
      else
        match FeatureDefnFields.reorderLoop n (field_map.take n.toNat) with
        | Except.error e =>
          { thrown := some e, value := none, calls := [FieldDefnCall.GetFieldCount],
            state := feature_def }
        | Except.ok field_map_array =>
          if (raw.ReorderFieldDefns field_map_array).1 ≠ 0 then
            { thrown := some (JSError.ogr (raw.ReorderFieldDefns field_map_array).1),
              value := none,
              calls := [FieldDefnCall.GetFieldCount,
                FieldDefnCall.ReorderFieldDefns field_map_array],
              state := { this_ := some (raw.ReorderFieldDefns field_map_array).2 } }
          else
            { thrown := none, value := none,
              calls := [FieldDefnCall.GetFieldCount,
                FieldDefnCall.ReorderFieldDefns field_map_array],
              state := { this_ := some (raw.ReorderFieldDefns field_map_array).2 } }

/-! ## `LineStringPoints.set` (linestring_points.cpp) -/

/-- Native `OGRPoint::getZ` (external): the `z` of the point, `0` for a two-dimensional
point. -/
def OGRPoint.getZ (p : OGRPoint) : Rat := p.z.getD 0

/-- Whether the curve is three-dimensional (the library's flag `OGR_G_3D`).  The library
keeps one dimension for all the points of a curve; here it is read off the points. -/
def OGRLineString.is3D (g : OGRLineString OGRPoint) : Bool :=
  g.points.any (fun p => p.z.isSome)

/-- The curves the library can hold: every point carries a `z`, or none does. -/
def OGRLineString.uniform (g : OGRLineString OGRPoint) : Bool :=
  g.points.all (fun p => p.z.isSome) || g.points.all (fun p => p.z.isNone)

/-- Native `OGRSimpleCurve::Make3D` (external): the curve becomes three-dimensional; a
point that had no `z` gets `z = 0`. -/
def OGRLineString.Make3D (g : OGRLineString OGRPoint) : OGRLineString OGRPoint :=
  { points := g.points.map (fun p => { p with z := some p.getZ }) }

/-- Native `OGRSimpleCurve::setPoint(i, x, y)` (external) on an existing position: `x` and
`y` of the point at position `i` are written, its `z` is left as it is. -/
def OGRLineString.setPointXY (g : OGRLineString OGRPoint) (i : Int) (x y : Rat) :
    OGRLineString OGRPoint :=
  { points := g.points.set i.toNat { g.points.getD i.toNat default with x := x, y := y } }

/-- Native `OGRSimpleCurve::setPoint(i, x, y, z)` (external) on an existing position: a
two-dimensional curve is first made three-dimensional (`Make3D`), then `x`, `y` and `z`
of the point at position `i` are written. -/
def OGRLineString.setPointXYZ (g : OGRLineString OGRPoint) (i : Int) (x y z : Rat) :
    OGRLineString OGRPoint :=
  { points := (if g.is3D then g else g.Make3D).points.set i.toNat
      { x := x, y := y, z := some z } }

/-- Native `OGRSimpleCurve::setPoint(i, const OGRPoint *)` (external) on an existing
position: the library writes by the dimension of the curve, `x`, `y` and `getZ()` of the
point on a three-dimensional curve, `x` and `y` only on a two-dimensional one. -/
def OGRLineString.setPoint (g : OGRLineString OGRPoint) (i : Int) (p : OGRPoint) :
    OGRLineString OGRPoint :=
  if g.is3D then g.setPointXYZ i p.x p.y p.getZ else g.setPointXY i p.x p.y

/-- The branch `set from object {x: 0, y: 5}` of `LineStringPoints::set`
(linestring_points.cpp:182-198). -/
def LineStringPoints.setFromObject (NODE_DOUBLE_FROM_OBJ : JSValue → String → ArgResult Rat)
    (geom : OGRLineString OGRPoint) (i : Int) (obj : JSValue) :
    Option JSError × OGRLineString OGRPoint :=
  match NODE_DOUBLE_FROM_OBJ obj "x" with
  | Except.error e => (some e, geom)
  | Except.ok x =>
    match NODE_DOUBLE_FROM_OBJ obj "y" with
    | Except.error e => (some e, geom)
    | Except.ok y =>
      match obj.ownProperty "z" with
      | some z_val =>
        if !z_val.IsNumber then (some (JSError.error "z property must be number"), geom)
        else (none, geom.setPointXYZ i x y z_val.toDouble)
      | none => (none, geom.setPointXY i x y)

/-- Method `LineStringPoints::set` (linestring_points.cpp:153-227): the exception raised,
if any, and the line string after the call.  `index` is the outcome of
`NODE_ARG_INT(0, "index", i)`; `info` holds all arguments, the index included. -/
def LineStringPoints.set (IS_WRAPPED : JSValue → String → Bool)
    (unwrap : JSValue → OGRPoint) (NODE_DOUBLE_FROM_OBJ : JSValue → String → ArgResult Rat)
    (geom : OGRLineString OGRPoint) (index : ArgResult Int) (info : List JSValue) :
    Option JSError × OGRLineString OGRPoint :=
  match index with
  | Except.error e => (some e, geom)
  | Except.ok i =>
    if i < 0 ∨ i ≥ geom.getNumPoints then
      (some (JSError.error "Point index out of range"), geom)
    else
      let n : Int := (info.length : Int) - 1
      if n = 0 then (some (JSError.error "Point must be given"), geom)
      else if n = 1 then
        if !(info.getD 1 JSValue.undefined).IsObject then
          (some (JSError.error "Point or object expected for second argument"), geom)
        else if IS_WRAPPED (info.getD 1 JSValue.undefined) "Point" then
          (none, geom.setPoint i (unwrap (info.getD 1 JSValue.undefined)))
        else
          LineStringPoints.setFromObject NODE_DOUBLE_FROM_OBJ geom i
            (info.getD 1 JSValue.undefined)
      else if !(info.getD 1 JSValue.undefined).IsNumber then
        (some (JSError.error "Number expected for second argument"), geom)
      else if !(info.getD 2 JSValue.undefined).IsNumber then
        (some (JSError.error "Number expected for third argument"), geom)
      else if n = 2 then
        (none, geom.setPointXY i (info.getD 1 JSValue.undefined).toDouble
          (info.getD 2 JSValue.undefined).toDouble)
      else if !(info.getD 3 JSValue.undefined).IsNumber then
        (some (JSError.error "Number expected for fourth argument"), geom)
      else
        (none, geom.setPointXYZ i (info.getD 1 JSValue.undefined).toDouble
          (info.getD 2 JSValue.undefined).toDouble (info.getD 3 JSValue.undefined).toDouble)

/-- The coordinates the arguments of `set` after the index give, in the words of the
specification: a single Point object or object with numeric `x`, `y` and optionally `z`
(as for `elementPoint`), or two or three leading numeric arguments; `z` is absent when
none is given; every other argument list is malformed (`none`). -/
def LineStringPoints.givenPoint (IS_WRAPPED : JSValue → String → Bool)
    (unwrap : JSValue → OGRPoint) (NODE_DOUBLE_FROM_OBJ : JSValue → String → ArgResult Rat)
    (args : List JSValue) : Option OGRPoint :=
  match args with
  | [] => none
  | [a] => LineStringPoints.elementPoint IS_WRAPPED unwrap NODE_DOUBLE_FROM_OBJ a
  | [a, b] =>
    if a.IsNumber ∧ b.IsNumber then some { x := a.toDouble, y := b.toDouble, z := none }
    else none
  | a :: b :: c :: _ =>
    if a.IsNumber ∧ b.IsNumber ∧ c.IsNumber then
      some { x := a.toDouble, y := b.toDouble, z := some c.toDouble }
    else none

/-! ## `FeatureDefn`: construction, cloning, release (gdal_feature_defn.cpp) -/

/-- A native feature definition in memory: its content, its reference count, and whether
it has been deleted. -/
structure DefnCell where
  fields : List OGRFieldDefn
  geomType : Int
  geomIgnored : Bool
  styleIgnored : Bool
  refCount : Int
  deleted : Bool
  deriving DecidableEq, Repr

instance : Inhabited DefnCell :=
  ⟨{ fields := [], geomType := 0, geomIgnored := false, styleIgnored := false,
     refCount := 0, deleted := false }⟩

/-- The native definitions allocated so far; a pointer is a position in this list. -/
abbrev DefnHeap := List DefnCell

/-- Native calls on feature definitions, with the pointer they are made on. -/
inductive DefnCall where
  | create
  | Clone (p : Handle)
  | Reference (p : Handle)
  | Release (p : Handle)
  | SetGeomType (p : Handle) (v : Int)
  | SetGeometryIgnored (p : Handle) (v : Int)
  | SetStyleIgnored (p : Handle) (v : Int)
  deriving DecidableEq, Repr

/-- A method of the native definition at `p`: only that definition changes. -/
def DefnHeap.update (h : DefnHeap) (p : Handle) (f : DefnCell → DefnCell) : DefnHeap :=
  h.set p (f (h.getD p default))

/-- Native `new OGRFeatureDefn()` (external): a new, empty definition with reference
count zero; its pointer and the memory afterwards. -/
def DefnHeap.create (h : DefnHeap) : Handle × DefnHeap :=
  (h.length, h ++ [default])

/-- Native `OGRFeatureDefn::Clone` (external): a new definition with the content of the
one at `p` and reference count zero. -/
def DefnHeap.Clone (h : DefnHeap) (p : Handle) : Handle × DefnHeap :=
  (h.length, h ++ [{ h.getD p default with refCount := 0, deleted := false }])

/-- Native `OGRFeatureDefn::Reference` (external): the reference count goes up by one. -/
def DefnHeap.Reference (h : DefnHeap) (p : Handle) : DefnHeap :=
  h.update p (fun c => { c with refCount := c.refCount + 1 })

/-- Native `OGRFeatureDefn::Release` (external): the reference count goes down by one,
and the definition is deleted when the count is no longer positive. -/
def DefnHeap.Release (h : DefnHeap) (p : Handle) : DefnHeap :=
  h.update p (fun c =>
    { c with refCount := c.refCount - 1, deleted := c.deleted || decide (c.refCount - 1 ≤ 0) })

/-- The C++ object `FeatureDefn`: the pointer `this_` (absent when null) and `owned_`. -/
structure FeatureDefnObj where
  this_ : Option Handle
  owned_ : Bool
  deriving DecidableEq, Repr

/-- What a step on `FeatureDefn` objects leaves behind: the value or object it yields,
the native memory afterwards, and the native calls made in order. -/
structure DefnResult (R : Type) where
  value : R
  heap : DefnHeap
  calls : List DefnCall
  deriving DecidableEq, Repr

/-- Destructor `FeatureDefn::~FeatureDefn` (gdal_feature_defn.cpp:39-46): the object
afterwards, the memory, the native calls. -/
def FeatureDefn.destroy (w : FeatureDefnObj) (heap : DefnHeap) : DefnResult FeatureDefnObj :=
  match w.this_ with
  | some p =>
    if w.owned_ then
      { value := { w with this_ := none }, heap := heap.Release p, calls := [DefnCall.Release p] }
    else { value := { w with this_ := none }, heap := heap, calls := [] }
  | none => { value := w, heap := heap, calls := [] }

/-- The JavaScript constructor `FeatureDefn::New` (gdal_feature_defn.cpp:54-80) called
from JavaScript (no `External` argument): the exception, or the new object. -/
def FeatureDefn.New_js (isConstructCall : Bool) (info : List JSValue) (heap : DefnHeap) :
    DefnResult (Except JSError FeatureDefnObj) :=
  if !isConstructCall then
    { value := Except.error (JSError.error
        "Cannot call constructor as function, you need to use 'new' keyword"),
      heap := heap, calls := [] }
  else if info.length ≠ 0 then
    { value := Except.error (JSError.error "FeatureDefn constructor doesn't take any arguments"),
      heap := heap, calls := [] }
  else
    { value := Except.ok { this_ := some heap.create.1, owned_ := true },
      heap := heap.create.2.Reference heap.create.1,
      calls := [DefnCall.create, DefnCall.Reference heap.create.1] }

/-- Function `FeatureDefn::New(def, owned)` (gdal_feature_defn.cpp:87-112): `none` is the
JavaScript null value, otherwise the object wrapped by the new JavaScript instance. -/
def FeatureDefn.New (def_ : Option Handle) (owned : Bool) (heap : DefnHeap) :
    DefnResult (Option FeatureDefnObj) :=
  match def_ with
  | none => { value := none, heap := heap, calls := [] }
  | some d =>
    if !owned then
      { value := some { this_ := some (heap.Clone d).1, owned_ := true },
        heap := (heap.Clone d).2.Reference (heap.Clone d).1,
        calls := [DefnCall.Clone d, DefnCall.Reference (heap.Clone d).1] }
    else
      { value := some { this_ := some d, owned_ := true },
        heap := heap.Reference d, calls := [DefnCall.Reference d] }

/-- Function `FeatureDefn::New(def)` (gdal_feature_defn.cpp:82-85). -/
def FeatureDefn.New1 (def_ : Option Handle) (heap : DefnHeap) :
    DefnResult (Option FeatureDefnObj) :=
  FeatureDefn.New def_ false heap

/-- Method `FeatureDefn::clone` (gdal_feature_defn.cpp:124-127): `New(def->this_->Clone())`.
`def->this_` is taken to be a valid pointer (`p`). -/
def FeatureDefn.clone (p : Handle) (heap : DefnHeap) : DefnResult (Option FeatureDefnObj) :=
  let r := FeatureDefn.New1 (some (heap.Clone p).1) (heap.Clone p).2
  { value := r.value, heap := r.heap, calls := DefnCall.Clone p :: r.calls }

/-- The test `v->IsInt32()` of the JavaScript engine. -/
def JSValue.IsInt32 : JSValue → Bool
  | JSValue.number x => decide (x.den = 1 ∧ -2147483648 ≤ x.num ∧ x.num ≤ 2147483647)
  | _ => false

/-- The test `v->IsBoolean()` of the JavaScript engine. -/
def JSValue.IsBoolean : JSValue → Bool
  | JSValue.boolean _ => true
  | _ => false

/-- `Nan::To<int64_t>(v).ToChecked()` on a boolean or a number. -/
def JSValue.toInteger : JSValue → Int
  | JSValue.boolean true => 1
  | JSValue.boolean false => 0
  | v => v.toInt64

/-- Setter `FeatureDefn::geomTypeSetter` (gdal_feature_defn.cpp:178-185) on an object
whose `this_` is the valid pointer `p`. -/
def FeatureDefn.geomTypeSetter (p : Handle) (value : JSValue) (heap : DefnHeap) :
    DefnResult (Option JSError) :=
  if !value.IsInt32 then
    { value := some (JSError.error "geomType must be an integer"), heap := heap, calls := [] }
  else
    { value := none, heap := heap.update p (fun c => { c with geomType := value.toInteger }),
      calls := [DefnCall.SetGeomType p value.toInteger] }

/-- Setter `FeatureDefn::geomIgnoredSetter` (gdal_feature_defn.cpp:187-194). -/
def FeatureDefn.geomIgnoredSetter (p : Handle) (value : JSValue) (heap : DefnHeap) :
    DefnResult (Option JSError) :=
  if !value.IsBoolean then
    { value := some (JSError.error "geomIgnored must be a boolean"), heap := heap, calls := [] }
  else
    { value := none,
      heap := heap.update p (fun c => { c with geomIgnored := decide (value.toInteger ≠ 0) }),
      calls := [DefnCall.SetGeometryIgnored p value.toInteger] }

/-- Setter `FeatureDefn::styleIgnoredSetter` (gdal_feature_defn.cpp:196-203). -/
def FeatureDefn.styleIgnoredSetter (p : Handle) (value : JSValue) (heap : DefnHeap) :
    DefnResult (Option JSError) :=
  if !value.IsBoolean then
    { value := some (JSError.error "styleIgnored must be a boolean"), heap := heap, calls := [] }
  else
    { value := none,
      heap := heap.update p (fun c => { c with styleIgnored := decide (value.toInteger ≠ 0) }),
      calls := [DefnCall.SetStyleIgnored p value.toInteger] }

/-- Hook `FeatureDefnFields::__count` (feature_defn_fields.cpp:63-65). -/
def FeatureDefnFields.__count {Field : Type} (parent : OGRFeatureDefn Field) : Int :=
  parent.GetFieldCount

/-- The JavaScript array `[k_0, k_1, ...]` of the integers `ks`. -/
def jsIntegers (ks : List Nat) : List JSValue :=
  ks.map (fun (k : Nat) => JSValue.number (k : Rat))

/-- A feature definition with the three fields `id`, `name` and `height`. -/
def sampleFields : OGRFeatureDefn OGRFieldDefn :=
  { fields := [⟨"id", 0⟩, ⟨"name", 4⟩, ⟨"height", 2⟩] }

/-- A live wrapper of `sampleFields`. -/
def sampleDefn : FeatureDefn OGRFieldDefn := { this_ := some sampleFields }

/-- A comparison of field names that ignores case, as the library's `EQUAL` does. -/
def sampleEQUAL (a b : String) : Bool := decide (a.toLower = b.toLower)

/-- A wrapper of a feature definition after its destruction. -/
def sampleDeadDefn : FeatureDefn OGRFieldDefn := { this_ := none }

/-- A feature definition with the two fields `id` and `name`. -/
def sampleTwoFields : OGRFeatureDefn OGRFieldDefn :=
  { fields := [⟨"id", 0⟩, ⟨"name", 4⟩] }

/-- A feature definition with the single field `id`. -/
def sampleOneField : OGRFeatureDefn OGRFieldDefn :=
  { fields := [⟨"id", 0⟩] }

/-- The number `1.5`. -/
def oneAndAHalf : Rat := Rat.mk' 3 2 (by decide) (by decide)

/-- A method of the `fields` collection reached through the wrapper whose `this_` is the
pointer `p`: it works on the native definition at `p`.  `method` gives the wrapper's
definition after the call, e.g. `fun w => (FeatureDefnFields.reorder w map).state`. -/
def DefnHeap.fieldsMethod (h : DefnHeap) (p : Handle)
    (method : FeatureDefn OGRFieldDefn → FeatureDefn OGRFieldDefn) : DefnHeap :=
  h.update p (fun c =>
    match (method { this_ := some { fields := c.fields } }).this_ with
    | some raw => { c with fields := raw.fields }
    | none => c)

/-- Native memory holding one definition, with the fields of `sampleFields`, referenced
once. -/
def sampleHeap : DefnHeap :=
  [{ fields := sampleFields.fields, geomType := 1, geomIgnored := false,
     styleIgnored := false, refCount := 1, deleted := false }]

/-- A two-dimensional line string with the three points `(0, 0)`, `(1, 1)` and `(2, 2)`. -/
def sampleLine : OGRLineString OGRPoint :=
  { points := [⟨0, 0, none⟩, ⟨1, 1, none⟩, ⟨2, 2, none⟩] }

/-- A three-dimensional line string with the two points `(0, 0, 1)` and `(1, 1, 2)`. -/
def sampleLine3D : OGRLineString OGRPoint :=
  { points := [⟨0, 0, some 1⟩, ⟨1, 1, some 2⟩] }

/-- A host in which unwrapping a Point object with handle `h` yields the
three-dimensional point `(h, h, h)`. -/
def samplePoint3DOf (v : JSValue) : OGRPoint :=
  match v with
  | JSValue.wrapped _ h => { x := (h : Rat), y := (h : Rat), z := some (h : Rat) }
  | _ => default

/-- The coordinates of a point as the library reads them: `x`, `y` and `getZ()`. -/
def OGRPoint.coordinates (p : OGRPoint) : Rat × Rat × Rat := (p.x, p.y, p.getZ)

theorem polygonRings_addArray_stops {Ring : Type} (IS_WRAPPED : JSValue → String → Bool)
    (unwrap : JSValue → Ring) (accepts : List Ring → Ring → Bool)
    (bad : JSValue) (post : List JSValue) (hbad : IS_WRAPPED bad "LinearRing" = false) :
    ∀ (pre : List JSValue) (geom : OGRPolygon Ring),
      (∀ v ∈ pre, IS_WRAPPED v "LinearRing" = true) →
      (∀ done r todo, pre.map unwrap = done ++ r :: todo →
        accepts (geom.rings ++ done) r = true) →
      PolygonRings.addArray IS_WRAPPED unwrap accepts (pre ++ bad :: post) geom =
        (some (JSError.error "All array elements must be LinearRings"),
          { rings := geom.rings ++ pre.map unwrap }) := by
  intro pre
  induction pre with
  | nil =>
    intro geom _ _
    simp [PolygonRings.addArray, hbad]
  | cons x xs ih =>
    intro geom hw hacc
    have hx : IS_WRAPPED x "LinearRing" = true := hw x (List.mem_cons_self _ _)
    have ha : accepts geom.rings (unwrap x) = true := by
      have := hacc [] (unwrap x) (xs.map unwrap) (by simp)
      simpa using this
    have hstep : geom.addRing accepts (unwrap x) = (0, { rings := geom.rings ++ [unwrap x] }) := by
      simp [OGRPolygon.addRing, ha]
    have hrec := ih { rings := geom.rings ++ [unwrap x] }
      (fun v hv => hw v (List.mem_cons_of_mem _ hv))
      (fun done r todo hsplit => by
        have := hacc (unwrap x :: done) r todo (by simp [hsplit])
        simpa [List.append_assoc] using this)
    simp only [List.cons_append, PolygonRings.addArray, hx, hstep, if_true]
    simpa [List.append_assoc] using hrec

theorem compoundCurveCurves_addArray_stops {Curve : Type}
    (IS_WRAPPED : JSValue → String → Bool) (unwrap : JSValue → Curve)
    (accepts : List Curve → Curve → Bool)
    (bad : JSValue) (post : List JSValue) (hbad : IS_WRAPPED bad "SimpleCurve" = false) :
    ∀ (pre : List JSValue) (geom : OGRCompoundCurve Curve),
      (∀ v ∈ pre, IS_WRAPPED v "SimpleCurve" = true) →
      (∀ done r todo, pre.map unwrap = done ++ r :: todo →
        accepts (geom.curves ++ done) r = true) →
      CompoundCurveCurves.addArray IS_WRAPPED unwrap accepts (pre ++ bad :: post) geom =
        (some (JSError.error "All array elements must be SimpleCurves"),
          { curves := geom.curves ++ pre.map unwrap }) := by
  intro pre
  induction pre with
  | nil =>
    intro geom _ _
    simp [CompoundCurveCurves.addArray, hbad]
  | cons x xs ih =>
    intro geom hw hacc
    have hx : IS_WRAPPED x "SimpleCurve" = true := hw x (List.mem_cons_self _ _)
    have ha : accepts geom.curves (unwrap x) = true := by
      have := hacc [] (unwrap x) (xs.map unwrap) (by simp)
      simpa using this
    have hstep : geom.addCurve accepts (unwrap x) =
        (0, { curves := geom.curves ++ [unwrap x] }) := by
      simp [OGRCompoundCurve.addCurve, ha]
    have hrec := ih { curves := geom.curves ++ [unwrap x] }
      (fun v hv => hw v (List.mem_cons_of_mem _ hv))
      (fun done r todo hsplit => by
        have := hacc (unwrap x :: done) r todo (by simp [hsplit])
        simpa [List.append_assoc] using this)
    simp only [List.cons_append, CompoundCurveCurves.addArray, hx, hstep, if_true]
    simpa [List.append_assoc] using hrec

theorem featureDefnFields_addArray_stops {Field : Type}
    (IS_WRAPPED : JSValue → String → Bool) (unwrap : JSValue → Field)
    (bad : JSValue) (post : List JSValue) (hbad : IS_WRAPPED bad "FieldDefn" = false) :
    ∀ (pre : List JSValue) (def_ : OGRFeatureDefn Field),
      (∀ v ∈ pre, IS_WRAPPED v "FieldDefn" = true) →
      FeatureDefnFields.addArray IS_WRAPPED unwrap (pre ++ bad :: post) def_ =
        (some (JSError.error "All array elements must be FieldDefn objects"),
          { fields := def_.fields ++ pre.map unwrap }) := by
  intro pre
  induction pre with
  | nil =>
    intro def_ _
    simp [FeatureDefnFields.addArray, hbad]
  | cons x xs ih =>
    intro def_ hw
    have hx : IS_WRAPPED x "FieldDefn" = true := hw x (List.mem_cons_self _ _)
    have hrec := ih (def_.AddFieldDefn (unwrap x)) (fun v hv => hw v (List.mem_cons_of_mem _ hv))
    simp only [List.cons_append, FeatureDefnFields.addArray, hx, if_true]
    simpa [OGRFeatureDefn.AddFieldDefn, List.append_assoc] using hrec

/-- C1: partial apply of `add` on an array.  For `PolygonRings.add`,
`CompoundCurveCurves.add` and `FeatureDefnFields.add` (on a live feature definition):
when the array is `pre ++ bad :: post`, every element of `pre` is a wrapped object of the
required kind which the native parent accepts in its turn, and `bad` is not of that kind,
the call raises the type error of the method and the native parent has gained exactly the
unwrapped elements of `pre`, in array order, and nothing of `bad :: post`. -/
theorem add_array_partial_apply :
    (∀ (Ring : Type) (IS_WRAPPED : JSValue → String → Bool) (unwrap : JSValue → Ring)
        (accepts : List Ring → Ring → Bool) (geom : OGRPolygon Ring)
        (pre : List JSValue) (bad : JSValue) (post more : List JSValue),
        (∀ v ∈ pre, IS_WRAPPED v "LinearRing" = true) →
        (∀ done r todo, pre.map unwrap = done ++ r :: todo →
          accepts (geom.rings ++ done) r = true) →
        IS_WRAPPED bad "LinearRing" = false →
        PolygonRings.add IS_WRAPPED unwrap accepts geom
            (JSValue.array (pre ++ bad :: post) :: more) =
          (some (JSError.error "All array elements must be LinearRings"),
            { rings := geom.rings ++ pre.map unwrap })) ∧
    (∀ (Curve : Type) (IS_WRAPPED : JSValue → String → Bool) (unwrap : JSValue → Curve)
        (accepts : List Curve → Curve → Bool) (geom : OGRCompoundCurve Curve)
        (pre : List JSValue) (bad : JSValue) (post more : List JSValue),
        (∀ v ∈ pre, IS_WRAPPED v "SimpleCurve" = true) →
        (∀ done r todo, pre.map unwrap = done ++ r :: todo →
          accepts (geom.curves ++ done) r = true) →
        IS_WRAPPED bad "SimpleCurve" = false →
        CompoundCurveCurves.add IS_WRAPPED unwrap accepts geom
            (JSValue.array (pre ++ bad :: post) :: more) =
          (some (JSError.error "All array elements must be SimpleCurves"),
            { curves := geom.curves ++ pre.map unwrap })) ∧
    (∀ (Field : Type) (IS_WRAPPED : JSValue → String → Bool) (unwrap : JSValue → Field)
        (feature_def : FeatureDefn Field) (raw : OGRFeatureDefn Field)
        (pre : List JSValue) (bad : JSValue) (post more : List JSValue),
        feature_def.this_ = some raw →
        (∀ v ∈ pre, IS_WRAPPED v "FieldDefn" = true) →
        IS_WRAPPED bad "FieldDefn" = false →
        FeatureDefnFields.add IS_WRAPPED unwrap feature_def
            (JSValue.array (pre ++ bad :: post) :: more) =
          (some (JSError.error "All array elements must be FieldDefn objects"),
            { this_ := some { fields := raw.fields ++ pre.map unwrap } })) := by
  refine ⟨?_, ?_, ?_⟩
  · intro Ring IS_WRAPPED unwrap accepts geom pre bad post more hw hacc hbad
    simp only [PolygonRings.add]
    exact polygonRings_addArray_stops IS_WRAPPED unwrap accepts bad post hbad pre geom hw hacc
  · intro Curve IS_WRAPPED unwrap accepts geom pre bad post more hw hacc hbad
    simp only [CompoundCurveCurves.add]
    exact compoundCurveCurves_addArray_stops IS_WRAPPED unwrap accepts bad post hbad pre geom
      hw hacc
  · intro Field IS_WRAPPED unwrap feature_def raw pre bad post more halive hw hbad
    simp only [FeatureDefnFields.add, halive]
    rw [featureDefnFields_addArray_stops IS_WRAPPED unwrap bad post hbad pre raw hw]

/-- Witness for C1: a polygon with ring 1, a compound curve with curve 1 and a feature
definition with field 1 each receive the array `[w 2, w 3, "x", w 4]`; the call fails on
the string and the parent holds `1, 2, 3`. -/
theorem add_array_partial_apply_witness :
    PolygonRings.add sampleIsWrapped sampleUnwrap (fun _ _ => true) { rings := [1] }
        [JSValue.array ([JSValue.wrapped "LinearRing" 2, JSValue.wrapped "LinearRing" 3] ++
          JSValue.string "x" :: [JSValue.wrapped "LinearRing" 4])] =
      (some (JSError.error "All array elements must be LinearRings"), { rings := [1, 2, 3] }) ∧
    CompoundCurveCurves.add sampleIsWrapped sampleUnwrap (fun _ _ => true) { curves := [1] }
        [JSValue.array ([JSValue.wrapped "SimpleCurve" 2, JSValue.wrapped "SimpleCurve" 3] ++
          JSValue.string "x" :: [JSValue.wrapped "SimpleCurve" 4])] =
      (some (JSError.error "All array elements must be SimpleCurves"), { curves := [1, 2, 3] }) ∧
    FeatureDefnFields.add sampleIsWrapped sampleUnwrap { this_ := some { fields := [1] } }
        [JSValue.array ([JSValue.wrapped "FieldDefn" 2, JSValue.wrapped "FieldDefn" 3] ++
          JSValue.string "x" :: [JSValue.wrapped "FieldDefn" 4])] =
      (some (JSError.error "All array elements must be FieldDefn objects"),
        { this_ := some { fields := [1, 2, 3] } }) :=
  ⟨add_array_partial_apply.1 Handle sampleIsWrapped sampleUnwrap (fun _ _ => true)
      { rings := [1] } [JSValue.wrapped "LinearRing" 2, JSValue.wrapped "LinearRing" 3]
      (JSValue.string "x") [JSValue.wrapped "LinearRing" 4] []
      (by intro v hv; simp at hv; rcases hv with rfl | rfl <;> rfl)
      (by intros; rfl) rfl,
    add_array_partial_apply.2.1 Handle sampleIsWrapped sampleUnwrap (fun _ _ => true)
      { curves := [1] } [JSValue.wrapped "SimpleCurve" 2, JSValue.wrapped "SimpleCurve" 3]
      (JSValue.string "x") [JSValue.wrapped "SimpleCurve" 4] []
      (by intro v hv; simp at hv; rcases hv with rfl | rfl <;> rfl)
      (by intros; rfl) rfl,
    add_array_partial_apply.2.2 Handle sampleIsWrapped sampleUnwrap
      { this_ := some { fields := [1] } } { fields := [1] }
      [JSValue.wrapped "FieldDefn" 2, JSValue.wrapped "FieldDefn" 3]
      (JSValue.string "x") [JSValue.wrapped "FieldDefn" 4] [] rfl
      (by intro v hv; simp at hv; rcases hv with rfl | rfl <;> rfl) rfl⟩

/-! ## Destroyed root dataset -/

/-- C2: `DatasetBands.create`, `DatasetLayers.create`, `DatasetLayers.copy`,
`DatasetLayers.remove` and the `GroupCollection` names getter on a root dataset wrapper
that is not alive: whatever the arguments (and whatever the argument macros would have
yielded), the call raises `Dataset object has already been destroyed`, builds no job,
hands back no value and makes no native call. -/
theorem destroyed_dataset_rejected (ds : Dataset) (hdead : ds.isAlive = false) :
    (∀ (drv : GDALDriver) (parse : JSValue → ParseOutcome) (info : List JSValue),
      DatasetBands.create drv parse ds info =
        { thrown := [JSError.error "Dataset object has already been destroyed"],
          value := none, job := none, calls := [], state := none }) ∧
    (∀ (drv : GDALDriver) (parse : JSValue → ParseOutcome) (info : List JSValue)
        (layer_name : ArgResult String) (spatial_ref : ArgResult (Option Handle))
        (geom_type : ArgResult (Option Int)),
      DatasetLayers.create drv parse ds info layer_name spatial_ref geom_type =
        { thrown := [JSError.error "Dataset object has already been destroyed"],
          value := none, job := none, calls := [], state := none }) ∧
    (∀ (drv : GDALDriver) (parse : JSValue → ParseOutcome) (info : List JSValue)
        (layer_to_copy : ArgResult Layer) (new_name : ArgResult String),
      DatasetLayers.copy drv parse ds info layer_to_copy new_name =
        { thrown := [JSError.error "Dataset object has already been destroyed"],
          value := none, job := none, calls := [], state := none }) ∧
    (∀ (drv : GDALDriver) (i : ArgResult Int),
      DatasetLayers.remove drv ds i =
        { thrown := [JSError.error "Dataset object has already been destroyed"],
          value := none, job := none, calls := [], state := none }) ∧
    (∀ (P : Type) (__getNames : P → List String) (parent : P),
      GroupCollection.namesGetter __getNames ds parent =
        { thrown := [JSError.error "Dataset object has already been destroyed"],
          value := none, job := none, calls := [], state := () }) := by
  have hnone : ds.this_dataset = none := by
    cases h : ds.this_dataset with
    | none => rfl
    | some raw => simp [Dataset.isAlive, h] at hdead
  refine ⟨?_, ?_, ?_, ?_, ?_⟩
  · intro drv parse info
    simp [DatasetBands.create, hnone, CallResult.raise]
  · intro drv parse info layer_name spatial_ref geom_type
    simp [DatasetLayers.create, hnone, CallResult.raise]
  · intro drv parse info layer_to_copy new_name
    simp [DatasetLayers.copy, hnone, CallResult.raise]
  · intro drv i
    simp [DatasetLayers.remove, hnone, CallResult.raise]
  · intro P __getNames parent
    simp [GroupCollection.namesGetter, hdead, CallResult.raise]

/-- Witness for C2: the closed dataset with uid 1. -/
theorem destroyed_dataset_rejected_witness :
    Dataset.isAlive { this_dataset := none, uid := 1 } = false ∧
    (∀ (drv : GDALDriver) (i : ArgResult Int),
      DatasetLayers.remove drv { this_dataset := none, uid := 1 } i =
        { thrown := [JSError.error "Dataset object has already been destroyed"],
          value := none, job := none, calls := [], state := none }) :=
  ⟨rfl, (destroyed_dataset_rejected { this_dataset := none, uid := 1 } rfl).2.2.2.1⟩

/-! ## `LayerFeatures` on a destroyed layer or dataset -/

/-- Counterexample to C3: the layer wrapper `sampleTownsLayer` is alive and holds feature
5, its root dataset (handle 7) is no longer in the object store; `get(5)` raises nothing,
calls the native `GetFeature` and hands the feature back. -/
theorem layer_features_get_ignores_store :
    emptyStore sampleTownsLayer.parent_ds = false ∧
    sampleTownsLayer.isAlive = true ∧
    (LayerFeatures.get sampleTownsLayer (Except.ok 5)).thrown = [] ∧
    (LayerFeatures.get sampleTownsLayer (Except.ok 5)).calls = [NativeCall.GetFeature 5] ∧
    (LayerFeatures.get sampleTownsLayer (Except.ok 5)).value =
      some { fid := 5, values := ["a"] } := by
  refine ⟨rfl, rfl, ?_, ?_, ?_⟩ <;> decide

/-- C3 (amended): every `LayerFeatures` operation on a layer wrapper that is not alive
raises `Layer object already destroyed`, whatever the arguments, builds no job and makes
no native call; and `count` on a live layer whose root dataset is no longer in the object
store raises `Dataset object already destroyed`, builds no job and makes no native call. -/
theorem layer_features_destroyed (lib : OGRLibrary) (object_store_has : Handle → Bool)
    (layer : Layer) :
    (layer.isAlive = false →
      (∀ feature_id, LayerFeatures.get layer feature_id =
        CallResult.raise (JSError.error "Layer object already destroyed") layer) ∧
      LayerFeatures.first layer =
        CallResult.raise (JSError.error "Layer object already destroyed") layer ∧
      LayerFeatures.next layer =
        CallResult.raise (JSError.error "Layer object already destroyed") layer ∧
      (∀ f, LayerFeatures.add lib layer f =
        CallResult.raise (JSError.error "Layer object already destroyed") layer) ∧
      (∀ info feature0 id0 feature1,
        LayerFeatures.set lib object_store_has layer info feature0 id0 feature1 =
          CallResult.raise (JSError.error "Layer object already destroyed") (layer, none)) ∧
      (∀ i, LayerFeatures.remove lib layer i =
        CallResult.raise (JSError.error "Layer object already destroyed") layer) ∧
      (∀ force, LayerFeatures.count lib object_store_has layer force =
        CallResult.raise (JSError.error "Layer object already destroyed") layer)) ∧
    (layer.isAlive = true → object_store_has layer.parent_ds = false →
      ∀ force, LayerFeatures.count lib object_store_has layer force =
        CallResult.raise (JSError.error "Dataset object already destroyed") layer) := by
  constructor
  · intro hdead
    have hnone : layer.this_ = none := by
      cases h : layer.this_ with
      | none => rfl
      | some g => simp [Layer.isAlive, h] at hdead
    refine ⟨?_, ?_, ?_, ?_, ?_, ?_, ?_⟩
    · intro feature_id
      simp [LayerFeatures.get, hnone]
    · simp [LayerFeatures.first, hnone]
    · simp [LayerFeatures.next, hnone]
    · intro f
      simp [LayerFeatures.add, hnone]
    · intro info feature0 id0 feature1
      simp [LayerFeatures.set, hnone]
    · intro i
      simp [LayerFeatures.remove, hnone]
    · intro force
      simp [LayerFeatures.count, hnone]
  · intro halive hstore force
    cases h : layer.this_ with
    | none => simp [Layer.isAlive, h] at halive
    | some g => simp [LayerFeatures.count, h, hstore]

/-- Witness for C3 (amended): `first()` on the disposed layer wrapper, and `count()` on the
live wrapper `sampleTownsLayer` once its dataset has left the object store. -/
theorem layer_features_destroyed_witness :
    sampleDeadLayer.isAlive = false ∧
    LayerFeatures.first sampleDeadLayer =
      CallResult.raise (JSError.error "Layer object already destroyed") sampleDeadLayer ∧
    sampleTownsLayer.isAlive = true ∧
    emptyStore sampleTownsLayer.parent_ds = false ∧
    LayerFeatures.count sampleLib emptyStore sampleTownsLayer (Except.ok none) =
      CallResult.raise (JSError.error "Dataset object already destroyed") sampleTownsLayer :=
  ⟨rfl, ((layer_features_destroyed sampleLib emptyStore sampleDeadLayer).1 rfl).2.1, rfl, rfl,
    (layer_features_destroyed sampleLib emptyStore sampleTownsLayer).2 rfl rfl (Except.ok none)⟩

/-! ## Index bounds of the standalone collections -/

theorem wrapInt_of_range (v : Int) (h0 : -2147483648 ≤ v) (h1 : v ≤ 2147483647) :
    wrapInt v = v := by
  unfold wrapInt
  omega

/-- C4: `LineStringPoints.get` on a line string with `n` points and the integer `i` bound
by `NODE_ARG_INT`: the call fails if and only if `i < 0` or `i >= n`, it then raises
`Invalid point requested` and returns no point; when `0 <= i < n` it succeeds and returns
the point the native line string holds at position `i`. -/
theorem linestring_get_bounds {Pt : Type} [Inhabited Pt] (geom : OGRLineString Pt) (i : Int) :
    ((∃ e, LineStringPoints.get geom (Except.ok i) = Except.error e) ↔
      (i < 0 ∨ (geom.points.length : Int) ≤ i)) ∧
    ((i < 0 ∨ (geom.points.length : Int) ≤ i) →
      LineStringPoints.get geom (Except.ok i) =
        Except.error (JSError.error "Invalid point requested")) ∧
    ((0 ≤ i ∧ i < (geom.points.length : Int)) →
      ∃ pt, geom.points.get? i.toNat = some pt ∧
        LineStringPoints.get geom (Except.ok i) = Except.ok pt) := by
  by_cases hout : i < 0 ∨ (geom.points.length : Int) ≤ i
  · have hget : LineStringPoints.get geom (Except.ok i) =
        Except.error (JSError.error "Invalid point requested") := by
      simp only [LineStringPoints.get, OGRLineString.getNumPoints]
      rw [if_pos (by omega)]
    refine ⟨⟨fun _ => hout, fun _ => ⟨_, hget⟩⟩, fun _ => hget, ?_⟩
    intro hin
    omega
  · have h0 : 0 ≤ i := by omega
    have h1 : i < (geom.points.length : Int) := by omega
    have hlt : i.toNat < geom.points.length := by omega
    have hget : LineStringPoints.get geom (Except.ok i) =
        Except.ok (geom.points.get ⟨i.toNat, hlt⟩) := by
      simp only [LineStringPoints.get, OGRLineString.getNumPoints, OGRLineString.getPoint]
      rw [if_neg (by omega), if_neg (by omega)]
      simp [List.getD, List.getElem?_eq_getElem hlt]
    refine ⟨⟨?_, fun h => absurd h hout⟩, fun h => absurd h hout, ?_⟩
    · rintro ⟨e, he⟩
      rw [hget] at he
      cases he
    · intro _
      exact ⟨geom.points.get ⟨i.toNat, hlt⟩, by simp [List.getElem?_eq_getElem hlt], hget⟩

/-- Witness for C4: the line string `[10, 20, 30]`; `get(1)` returns 20, `get(3)` and
`get(-1)` fail. -/
theorem linestring_get_bounds_witness :
    LineStringPoints.get ({ points := [10, 20, 30] } : OGRLineString Nat) (Except.ok 3) =
      Except.error (JSError.error "Invalid point requested") ∧
    LineStringPoints.get ({ points := [10, 20, 30] } : OGRLineString Nat) (Except.ok (-1)) =
      Except.error (JSError.error "Invalid point requested") ∧
    (∃ pt, ([10, 20, 30] : List Nat).get? (1 : Int).toNat = some pt ∧
      LineStringPoints.get ({ points := [10, 20, 30] } : OGRLineString Nat) (Except.ok 1) =
        Except.ok pt) :=
  ⟨(linestring_get_bounds ({ points := [10, 20, 30] } : OGRLineString Nat) 3).2.1
      (Or.inr (by decide)),
    (linestring_get_bounds ({ points := [10, 20, 30] } : OGRLineString Nat) (-1)).2.1
      (Or.inl (by decide)),
    (linestring_get_bounds ({ points := [10, 20, 30] } : OGRLineString Nat) 1).2.2
      ⟨by decide, by decide⟩⟩

theorem polygon_count_eq {Ring : Type} (geom : OGRPolygon Ring)
    (hn : geom.rings.length ≤ 2147483647) :
    PolygonRings.count geom = (geom.rings.length : Int) := by
  unfold PolygonRings.count OGRPolygon.getExteriorRing OGRPolygon.getNumInteriorRings
  cases h : geom.rings with
  | nil => simp [wrapInt]
  | cons r rs =>
    rw [h] at hn
    simp only [List.head?_cons, Option.isSome_some, if_true, List.tail_cons, List.length_cons]
    simp only [List.length_cons] at hn
    rw [wrapInt_of_range _ (by omega) (by omega)]
    push_cast
    omega

/-- C5: `PolygonRings` on a polygon modelled as a sequence of rings, the first being the
exterior ring.  With the number of rings in the range of `int`, `count()` is the number of
rings, and for every `int` `i`, `get(i)` succeeds if and only if `0 <= i < count()`; it
then returns the ring at position `i` of the sequence, and otherwise it fails, raising the
last GDAL error, so a null ring is never wrapped. -/
theorem polygon_rings_count_get {Ring : Type} (geom : OGRPolygon Ring)
    (hn : geom.rings.length ≤ 2147483647) :
    PolygonRings.count geom = (geom.rings.length : Int) ∧
    ∀ i : Int, -2147483648 ≤ i → i ≤ 2147483647 →
      ((∃ ring, PolygonRings.get geom (Except.ok i) = Except.ok ring) ↔
        (0 ≤ i ∧ i < PolygonRings.count geom)) ∧
      (∀ ring, PolygonRings.get geom (Except.ok i) = Except.ok ring →
        geom.rings.get? i.toNat = some ring) ∧
      (¬ (0 ≤ i ∧ i < PolygonRings.count geom) →
        PolygonRings.get geom (Except.ok i) = Except.error JSError.lastCPLErr) := by
  have hcount := polygon_count_eq geom hn
  refine ⟨hcount, ?_⟩
  intro i hlo hhi
  rw [hcount]
  -- the ring pointer the method obtains is the element at position `i`, if any
  have hptr : (if i = 0 then geom.getExteriorRing
      else geom.getInteriorRing (wrapInt (i - 1))) =
      (if 0 ≤ i ∧ i < (geom.rings.length : Int) then geom.rings.get? i.toNat else none) := by
    by_cases hi0 : i = 0
    · subst hi0
      cases h : geom.rings with
      | nil => simp [OGRPolygon.getExteriorRing, h]
      | cons r rs => simp [OGRPolygon.getExteriorRing, h]
    · rw [if_neg hi0]
      by_cases hmin : i = -2147483648
      · subst hmin
        have hw : wrapInt (-2147483648 - 1) = 2147483647 := by decide
        rw [hw, if_neg (by omega)]
        unfold OGRPolygon.getInteriorRing OGRPolygon.getNumInteriorRings
        rw [if_pos (by
          right
          simp only [List.length_tail]
          omega)]
      · rw [wrapInt_of_range _ (by omega) (by omega)]
        unfold OGRPolygon.getInteriorRing OGRPolygon.getNumInteriorRings
        by_cases hin : 0 ≤ i ∧ i < (geom.rings.length : Int)
        · rw [if_pos hin, if_neg (by
            simp only [List.length_tail]
            omega)]
          have hpos : 0 < i := by omega
          have hsucc : i.toNat = (i - 1).toNat + 1 := by omega
          rw [hsucc]
          cases h : geom.rings with
          | nil => simp
          | cons r rs => simp
        · rw [if_neg hin, if_pos (by
            simp only [List.length_tail]
            omega)]
  have hget : PolygonRings.get geom (Except.ok i) =
      (match (if 0 ≤ i ∧ i < (geom.rings.length : Int) then geom.rings.get? i.toNat else none)
        with
        | none => Except.error JSError.lastCPLErr
        | some ring => Except.ok ring) := by
    simp only [PolygonRings.get]
    rw [hptr]
  by_cases hin : 0 ≤ i ∧ i < (geom.rings.length : Int)
  · have hlt : i.toNat < geom.rings.length := by omega
    have hsome : geom.rings.get? i.toNat = some (geom.rings.get ⟨i.toNat, hlt⟩) := by
      simp [List.getElem?_eq_getElem hlt]
    rw [if_pos hin, hsome] at hget
    refine ⟨⟨fun _ => hin, fun _ => ⟨_, hget⟩⟩, ?_, fun h => absurd hin h⟩
    intro ring hring
    rw [hget] at hring
    cases hring
    exact hsome
  · rw [if_neg hin] at hget
    refine ⟨⟨?_, fun h => absurd h hin⟩, ?_, fun _ => hget⟩
    · rintro ⟨ring, hring⟩
      rw [hget] at hring
      cases hring
    · intro ring hring
      rw [hget] at hring
      cases hring

/-- Witness for C5: the polygon with rings `[10, 20]`: two rings, `get(1)` is ring 20. -/
theorem polygon_rings_count_get_witness :
    PolygonRings.count ({ rings := [10, 20] } : OGRPolygon Nat) = 2 ∧
    ((∃ ring, PolygonRings.get ({ rings := [10, 20] } : OGRPolygon Nat) (Except.ok 1) =
        Except.ok ring) ↔
      (0 ≤ (1 : Int) ∧ (1 : Int) < PolygonRings.count ({ rings := [10, 20] } : OGRPolygon Nat))) :=
  ⟨(polygon_rings_count_get ({ rings := [10, 20] } : OGRPolygon Nat) (by decide)).1,
    ((polygon_rings_count_get ({ rings := [10, 20] } : OGRPolygon Nat) (by decide)).2 1
      (by decide) (by decide)).1⟩

/-! ## The feature cursor -/

theorem getNextFeature_fid (g : OGRLayer) :
    g.GetNextFeature.1.map OGRFeature.fid = (g.features.get? g.cursor).map OGRFeature.fid := by
  unfold OGRLayer.GetNextFeature
  cases h : g.features.get? g.cursor <;> simp

theorem getNextFeature_state (g : OGRLayer) :
    ∃ c, g.GetNextFeature.2 = { g with cursor := c } ∧
      ((g.features.get? g.cursor).isSome = true → c = g.cursor + 1) ∧
      (g.features.get? g.cursor = none → c = g.cursor) := by
  unfold OGRLayer.GetNextFeature
  cases h : g.features.get? g.cursor with
  | none => exact ⟨g.cursor, by simp, by simp, by simp⟩
  | some f => exact ⟨g.cursor + 1, by simp, by simp, by simp⟩

theorem next_alive (layer : Layer) (g : OGRLayer) (h : layer.this_ = some g) :
    (LayerFeatures.next layer).value = some g.GetNextFeature.1 ∧
    (LayerFeatures.next layer).state = { layer with this_ := some g.GetNextFeature.2 } ∧
    (LayerFeatures.next layer).thrown = [] := by
  simp [LayerFeatures.next, h, GDALAsyncableJob.run]

theorem first_alive (layer : Layer) (g : OGRLayer) (h : layer.this_ = some g) :
    (LayerFeatures.first layer).value = some g.ResetReading.GetNextFeature.1 ∧
    (LayerFeatures.first layer).state =
      { layer with this_ := some g.ResetReading.GetNextFeature.2 } ∧
    (LayerFeatures.first layer).thrown = [] := by
  simp [LayerFeatures.first, h, GDALAsyncableJob.run]

theorem nextIds_alive (k : Nat) :
    ∀ (layer : Layer) (g : OGRLayer), layer.this_ = some g →
      (LayerFeatures.nextIds k layer).1 =
        (List.range k).map (fun j => (g.features.get? (g.cursor + j)).map OGRFeature.fid) ∧
      ∃ c, (LayerFeatures.nextIds k layer).2 = { layer with this_ := some { g with cursor := c } } := by
  induction k with
  | zero =>
    intro layer g h
    refine ⟨by simp [LayerFeatures.nextIds], g.cursor, ?_⟩
    simp only [LayerFeatures.nextIds]
    cases layer
    simp_all
  | succ k ih =>
    intro layer g h
    obtain ⟨hval, hstate, _⟩ := next_alive layer g h
    obtain ⟨c, hc, hsome, hnone⟩ := getNextFeature_state g
    have hthis : (LayerFeatures.next layer).state.this_ = some { g with cursor := c } := by
      rw [hstate, hc]
    obtain ⟨hids, c', hc'⟩ := ih (LayerFeatures.next layer).state { g with cursor := c } hthis
    constructor
    · simp only [LayerFeatures.nextIds, hval, Option.some_bind, getNextFeature_fid, hids]
      rw [List.range_succ_eq_map, List.map_cons, List.map_map]
      congr 1
      apply List.map_congr_left
      intro j _
      simp only [Function.comp, Nat.add_zero]
      cases hg : g.features.get? g.cursor with
      | some f =>
        have : c = g.cursor + 1 := hsome (by rw [hg]; rfl)
        subst this
        have : g.cursor + 1 + j = g.cursor + (j + 1) := by omega
        simp [this]
      | none =>
        have : c = g.cursor := hnone hg
        subst this
        have hlen : g.features.length ≤ g.cursor := List.get?_eq_none.mp hg
        have h1 : g.features.get? (g.cursor + j) = none :=
          List.get?_eq_none.mpr (by omega)
        have h2 : g.features.get? (g.cursor + (j + 1)) = none :=
          List.get?_eq_none.mpr (by omega)
        simp only [h1, h2]
    · refine ⟨c', ?_⟩
      rw [hstate] at hc'
      simpa [LayerFeatures.nextIds, hstate] using hc'

theorem scanIds_alive (k : Nat) (layer : Layer) (g : OGRLayer) (h : layer.this_ = some g) :
    LayerFeatures.scanIds k layer =
      (List.range (k + 1)).map (fun j => (g.features.get? j).map OGRFeature.fid) ∧
    ∃ c, LayerFeatures.scanState k layer = { layer with this_ := some { g with cursor := c } } := by
  obtain ⟨hval, hstate, _⟩ := first_alive layer g h
  obtain ⟨c, hc, hsome, hnone⟩ := getNextFeature_state g.ResetReading
  have hthis : (LayerFeatures.first layer).state.this_ = some { g with cursor := c } := by
    rw [hstate, hc]
    simp [OGRLayer.ResetReading]
  obtain ⟨hids, c', hc'⟩ := nextIds_alive k (LayerFeatures.first layer).state
    { g with cursor := c } hthis
  constructor
  · simp only [LayerFeatures.scanIds, hval, Option.some_bind, getNextFeature_fid, hids]
    rw [List.range_succ_eq_map, List.map_cons, List.map_map]
    congr 1
    apply List.map_congr_left
    intro j _
    simp only [Function.comp, OGRLayer.ResetReading]
    cases hg : g.features.get? 0 with
    | some f =>
      have : c = 0 + 1 := hsome (by
        show (g.features.get? 0).isSome = true
        rw [hg]; rfl)
      subst this
      have : 0 + 1 + j = j + 1 := by omega
      simp [this]
    | none =>
      have : c = 0 := hnone hg
      subst this
      have hlen : g.features.length ≤ 0 := List.get?_eq_none.mp hg
      have h1 : g.features = [] := List.length_eq_zero.mp (by omega)
      simp [h1]
  · refine ⟨c', ?_⟩
    rw [hstate] at hc'
    simpa [LayerFeatures.scanState, hstate] using hc'

/-- C6: feature cursor repeatability.  For a live layer modelled as a feature sequence
plus one forward cursor: the identifiers produced by `first()` followed by `k` calls of
`next()` do not depend on the cursor position before the call, and running the same
sequence again on the layer as the first run left it produces the same identifiers. -/
theorem feature_cursor_repeatable (layer : Layer) (g : OGRLayer) (k : Nat) :
    (∀ c1 c2 : Nat,
      LayerFeatures.scanIds k { layer with this_ := some { g with cursor := c1 } } =
        LayerFeatures.scanIds k { layer with this_ := some { g with cursor := c2 } }) ∧
    (∀ (c m : Nat),
      LayerFeatures.scanIds k
          (LayerFeatures.scanState m { layer with this_ := some { g with cursor := c } }) =
        LayerFeatures.scanIds k { layer with this_ := some { g with cursor := c } }) := by
  constructor
  · intro c1 c2
    rw [(scanIds_alive k _ { g with cursor := c1 } rfl).1,
      (scanIds_alive k _ { g with cursor := c2 } rfl).1]
  · intro c m
    obtain ⟨c', hc'⟩ := (scanIds_alive m { layer with this_ := some { g with cursor := c } }
      { g with cursor := c } rfl).2
    rw [hc', (scanIds_alive k _ { g with cursor := c' } rfl).1,
      (scanIds_alive k _ { g with cursor := c } rfl).1]

/-! ## `DatasetLayers`: create then get -/

theorem collection_get_of_some {P : Type}
    (__get : P → Nat → Except JSError (Option Handle) × List NativeCall)
    (__getByName : P → String → Except JSError (Option Handle) × List NativeCall)
    (ds : Dataset) (raw : P) (key : String ⊕ Nat) (h : Handle)
    (hkey : (match key with
      | Sum.inr idx => __get raw idx
      | Sum.inl name => __getByName raw name).1 = Except.ok (some h)) :
    (DatasetCollection.get __get __getByName (Except.ok ds) (Except.ok raw)
      (Except.ok key)).thrown = [] ∧
    (DatasetCollection.get __get __getByName (Except.ok ds) (Except.ok raw)
      (Except.ok key)).value = some h := by
  unfold DatasetCollection.get
  simp [hkey, GDALAsyncableJob.run]

theorem collection_get_of_none {P : Type}
    (__get : P → Nat → Except JSError (Option Handle) × List NativeCall)
    (__getByName : P → String → Except JSError (Option Handle) × List NativeCall)
    (ds : Dataset) (raw : P) (key : String ⊕ Nat)
    (hkey : (match key with
      | Sum.inr idx => __get raw idx
      | Sum.inl name => __getByName raw name).1 = Except.ok none) :
    (DatasetCollection.get __get __getByName (Except.ok ds) (Except.ok raw)
      (Except.ok key)).thrown = [JSError.error "Invalid element"] ∧
    (DatasetCollection.get __get __getByName (Except.ok ds) (Except.ok raw)
      (Except.ok key)).value = none := by
  unfold DatasetCollection.get
  simp [hkey, GDALAsyncableJob.run]

theorem collection_count_value {P : Type} (__count : P → Int × List NativeCall)
    (ds : Dataset) (raw : P) :
    (DatasetCollection.count __count (Except.ok ds) (Except.ok raw)).thrown = [] ∧
    (DatasetCollection.count __count (Except.ok ds) (Except.ok raw)).value =
      some (__count raw).1 := by
  unfold DatasetCollection.count
  simp [GDALAsyncableJob.run]

theorem getLayerByName_fallback (EQUAL : String → String → Bool) (raw : GDALDataset)
    (other : String) (l : OGRLayer)
    (hexact : ∀ x ∈ raw.layers, x.name ≠ other)
    (hfound : raw.layers.find? (fun x => EQUAL other x.name) = some l) :
    raw.GetLayerByName EQUAL other = some l.handle := by
  have hnone : raw.layers.find? (fun x => x.name == other) = none := by
    rw [List.find?_eq_none]
    intro x hx
    simpa using hexact x hx
  simp [GDALDataset.GetLayerByName, hnone, hfound]

theorem getRasterBand_last (raw : GDALDataset) (h : Handle) :
    GDALDataset.GetRasterBand { raw with bands := raw.bands ++ [h] }
      ((raw.bands.length : Int) + 1) = some h := by
  simp only [GDALDataset.GetRasterBand, GDALDataset.GetRasterCount, List.length_append,
    List.length_singleton]
  rw [if_neg (by push_cast; omega)]
  have : ((raw.bands.length : Int) + 1 - 1).toNat = raw.bands.length := by omega
  rw [this]
  simp

theorem bands_get_at (raw : GDALDataset) (idx : Nat) (h : Handle)
    (hn : raw.bands.length ≤ 2147483647)
    (h1 : 1 ≤ idx) (h2 : idx ≤ raw.bands.length)
    (hband : raw.bands.get? (idx - 1) = some h) :
    DatasetBands.__get raw idx =
      (Except.ok (some h), [NativeCall.GetRasterCount, NativeCall.GetRasterBand (idx : Int)]) := by
  have hwrap : wrapInt (idx : Int) = (idx : Int) :=
    wrapInt_of_range _ (by omega) (by omega)
  have hrb : raw.GetRasterBand (idx : Int) = some h := by
    unfold GDALDataset.GetRasterBand GDALDataset.GetRasterCount
    have hc : ¬ ((idx : Int) < 1 ∨ (idx : Int) > (raw.bands.length : Int)) := by omega
    rw [if_neg hc]
    have : ((idx : Int) - 1).toNat = idx - 1 := by omega
    rw [this, hband]
  unfold DatasetBands.__get DatasetBands.__count GDALDataset.GetRasterCount
  have hc : ¬ (idx > ((raw.bands.length : Int)).toNat ∨ idx = 0) := by
    rw [Int.toNat_ofNat]
    omega
  rw [if_neg hc, hwrap, hrb]

theorem bands_get_outside (raw : GDALDataset) (idx : Nat)
    (hout : ¬ (1 ≤ idx ∧ idx ≤ raw.bands.length)) :
    DatasetBands.__get raw idx = (Except.ok none, [NativeCall.GetRasterCount]) := by
  unfold DatasetBands.__get DatasetBands.__count GDALDataset.GetRasterCount
  have hc : idx > ((raw.bands.length : Int)).toNat ∨ idx = 0 := by
    rw [Int.toNat_ofNat]
    omega
  rw [if_pos hc]


/-- C8: the result of `DatasetBands.create`.  On a live dataset with `n` bands, with a
data type argument the method takes and options that parse: when the native `AddBand`
succeeds, creating band `h`, the call raises nothing and hands back `h`, which is the
band at the 1-based position `n + 1`; afterwards `count()` is `n + 1` and `get(n + 1)`
hands back `h` again.  When `AddBand` reports an error, the call raises the native
message, hands back no band and leaves the dataset as it was. -/
theorem bands_create_result (drv : GDALDriver) (parse : JSValue → ParseOutcome)
    (ds : Dataset) (raw : GDALDataset) (a0 : JSValue) (rest : List JSValue)
    (type : GDALDataType)
    (halive : ds.this_dataset = some raw)
    (hn : raw.bands.length < 2147483647)
    (htype : DatasetBands.create_type drv a0 = some type)
    (hopts : (DatasetBands.create_options parse rest).failed = false) :
    (∀ h : Handle,
      drv.addBand raw type (DatasetBands.create_options parse rest).list = Except.ok h →
      (DatasetBands.create drv parse ds (a0 :: rest)).thrown = [] ∧
      (DatasetBands.create drv parse ds (a0 :: rest)).value = some (some h) ∧
      (DatasetBands.create drv parse ds (a0 :: rest)).state =
        some { raw with bands := raw.bands ++ [h] } ∧
      GDALDataset.GetRasterBand { raw with bands := raw.bands ++ [h] }
        ((raw.bands.length : Int) + 1) = some h ∧
      (DatasetCollection.count DatasetBands.__count
        (Except.ok { ds with this_dataset := some { raw with bands := raw.bands ++ [h] } })
        (Except.ok { raw with bands := raw.bands ++ [h] })).value =
          some ((raw.bands.length : Int) + 1) ∧
      (DatasetCollection.get DatasetBands.__get DatasetBands.__getByName
        (Except.ok { ds with this_dataset := some { raw with bands := raw.bands ++ [h] } })
        (Except.ok { raw with bands := raw.bands ++ [h] })
        (Except.ok (Sum.inr (raw.bands.length + 1)))).thrown = [] ∧
      (DatasetCollection.get DatasetBands.__get DatasetBands.__getByName
        (Except.ok { ds with this_dataset := some { raw with bands := raw.bands ++ [h] } })
        (Except.ok { raw with bands := raw.bands ++ [h] })
        (Except.ok (Sum.inr (raw.bands.length + 1)))).value = some h) ∧
    (∀ msg : String,
      drv.addBand raw type (DatasetBands.create_options parse rest).list = Except.error msg →
      (DatasetBands.create drv parse ds (a0 :: rest)).thrown = [JSError.native msg] ∧
      (DatasetBands.create drv parse ds (a0 :: rest)).value = none ∧
      (DatasetBands.create drv parse ds (a0 :: rest)).state = some raw) := by
  constructor
  · intro h hadd
    have hlast := getRasterBand_last raw h
    have hc : GDALDataset.GetRasterCount { raw with bands := raw.bands ++ [h] } =
        (raw.bands.length : Int) + 1 := by
      simp [GDALDataset.GetRasterCount]
    have hcreate : DatasetBands.create drv parse ds (a0 :: rest) =
        { thrown := [], value := some (some h),
          job := some { persisted := [WrapperRef.dataset], captured := [WrapperRef.dataset] },
          calls := [NativeCall.AddBand type (DatasetBands.create_options parse rest).list,
            NativeCall.GetRasterCount,
            NativeCall.GetRasterBand ((raw.bands.length : Int) + 1)],
          state := some { raw with bands := raw.bands ++ [h] } } := by
      simp only [DatasetBands.create, halive, htype, hopts, GDALDataset.AddBand, hadd]
      simp only [GDALAsyncableJob.run, Bool.false_eq_true, if_false]
      rw [hc, hlast]
    have hget := bands_get_at { raw with bands := raw.bands ++ [h] } (raw.bands.length + 1) h
      (by simp only [List.length_append, List.length_singleton]; omega)
      (by omega)
      (by simp only [List.length_append, List.length_singleton]; omega)
      (by simp)
    have hcoll := collection_get_of_some DatasetBands.__get DatasetBands.__getByName
      { ds with this_dataset := some { raw with bands := raw.bands ++ [h] } }
      { raw with bands := raw.bands ++ [h] } (Sum.inr (raw.bands.length + 1)) h
      (by
        show (DatasetBands.__get _ (raw.bands.length + 1)).1 = Except.ok (some h)
        rw [hget])
    have hcount := collection_count_value DatasetBands.__count
      { ds with this_dataset := some { raw with bands := raw.bands ++ [h] } }
      { raw with bands := raw.bands ++ [h] }
    refine ⟨by rw [hcreate], by rw [hcreate], by rw [hcreate], hlast, ?_, hcoll.1, hcoll.2⟩
    rw [hcount.2]
    show some (GDALDataset.GetRasterCount _) = _
    rw [hc]
  · intro msg hadd
    have hcreate : DatasetBands.create drv parse ds (a0 :: rest) =
        { thrown := [JSError.native msg], value := none,
          job := some { persisted := [WrapperRef.dataset], captured := [WrapperRef.dataset] },
          calls := [NativeCall.AddBand type (DatasetBands.create_options parse rest).list],
          state := some raw } := by
      simp only [DatasetBands.create, halive, htype, hopts, GDALDataset.AddBand, hadd]
      simp [GDALAsyncableJob.run]
    exact ⟨by rw [hcreate], by rw [hcreate], by rw [hcreate]⟩

/-- Witness for C8: `create("Byte", {})` on the dataset with the single band 100 hands
back band 101, and `get(2)` hands it back again; the refusing driver makes the call fail
with its message. -/
theorem bands_create_result_witness :
    (DatasetBands.create sampleDriver sampleParse sampleDataset
      (JSValue.string "Byte" :: [JSValue.object []])).value = some (some 101) ∧
    (DatasetCollection.get DatasetBands.__get DatasetBands.__getByName
      (Except.ok { sampleDataset with
        this_dataset := some { sampleNative with bands := sampleNative.bands ++ [101] } })
      (Except.ok { sampleNative with bands := sampleNative.bands ++ [101] })
      (Except.ok (Sum.inr (sampleNative.bands.length + 1)))).value = some 101 ∧
    (DatasetBands.create refusingDriver sampleParse sampleDataset
      (JSValue.string "Byte" :: [JSValue.object []])).thrown =
        [JSError.native "not supported"] :=
  ⟨((bands_create_result sampleDriver sampleParse sampleDataset sampleNative
      (JSValue.string "Byte") [JSValue.object []] 1 rfl (by decide) rfl rfl).1 101 rfl).2.1,
    ((bands_create_result sampleDriver sampleParse sampleDataset sampleNative
      (JSValue.string "Byte") [JSValue.object []] 1 rfl (by decide) rfl rfl).1 101
      rfl).2.2.2.2.2.2,
    ((bands_create_result refusingDriver sampleParse sampleDataset sampleNative
      (JSValue.string "Byte") [JSValue.object []] 1 rfl (by decide) rfl rfl).2 "not supported"
      rfl).1⟩

/-- Counterexample to C9: on the dataset whose only band is 100, index 0 lies in
`0 <= i < n` but `get(0)` raises `Invalid element`; index 1 lies outside but `get(1)`
succeeds and hands back band 100, the band at zero-based position 0. -/
theorem bands_get_zero_fails :
    (0 : Nat) < sampleNative.bands.length ∧
    (DatasetCollection.get DatasetBands.__get DatasetBands.__getByName
      (Except.ok sampleDataset) (Except.ok sampleNative) (Except.ok (Sum.inr 0))).thrown =
        [JSError.error "Invalid element"] ∧
    (DatasetCollection.get DatasetBands.__get DatasetBands.__getByName
      (Except.ok sampleDataset) (Except.ok sampleNative) (Except.ok (Sum.inr 0))).value = none ∧
    ¬ ((1 : Nat) < sampleNative.bands.length) ∧
    (DatasetCollection.get DatasetBands.__get DatasetBands.__getByName
      (Except.ok sampleDataset) (Except.ok sampleNative) (Except.ok (Sum.inr 1))).thrown = [] ∧
    (DatasetCollection.get DatasetBands.__get DatasetBands.__getByName
      (Except.ok sampleDataset) (Except.ok sampleNative) (Except.ok (Sum.inr 1))).value =
        some 100 ∧
    sampleNative.bands.get? 0 = some 100 := by
  refine ⟨?_, ?_, ?_, ?_, ?_, ?_, ?_⟩ <;> decide

/-- C9 (amended): `DatasetBands.get` treats its index as a band id counted from one.  On
a dataset with `n` bands (`n` in the range of `int`) and for every index `idx` bound by
the argument macro, `get(idx)` succeeds if and only if `1 <= idx <= n`; it then hands back
the band at 1-based position `idx`, that is at zero-based position `idx - 1`; otherwise
it raises `Invalid element` and hands back nothing. -/
theorem bands_get_one_based (ds : Dataset) (raw : GDALDataset) (idx : Nat)
    (hn : raw.bands.length ≤ 2147483647) :
    (((DatasetCollection.get DatasetBands.__get DatasetBands.__getByName
        (Except.ok ds) (Except.ok raw) (Except.ok (Sum.inr idx))).thrown = [] ∧
      ∃ h, (DatasetCollection.get DatasetBands.__get DatasetBands.__getByName
        (Except.ok ds) (Except.ok raw) (Except.ok (Sum.inr idx))).value = some h) ↔
      (1 ≤ idx ∧ idx ≤ raw.bands.length)) ∧
    (∀ h, (DatasetCollection.get DatasetBands.__get DatasetBands.__getByName
        (Except.ok ds) (Except.ok raw) (Except.ok (Sum.inr idx))).value = some h →
      raw.bands.get? (idx - 1) = some h) ∧
    (¬ (1 ≤ idx ∧ idx ≤ raw.bands.length) →
      (DatasetCollection.get DatasetBands.__get DatasetBands.__getByName
        (Except.ok ds) (Except.ok raw) (Except.ok (Sum.inr idx))).thrown =
          [JSError.error "Invalid element"] ∧
      (DatasetCollection.get DatasetBands.__get DatasetBands.__getByName
        (Except.ok ds) (Except.ok raw) (Except.ok (Sum.inr idx))).value = none) := by
  by_cases hin : 1 ≤ idx ∧ idx ≤ raw.bands.length
  · have hlt : idx - 1 < raw.bands.length := by omega
    have hband : raw.bands.get? (idx - 1) = some (raw.bands.get ⟨idx - 1, hlt⟩) := by
      simp [List.getElem?_eq_getElem hlt]
    have hget := bands_get_at raw idx _ hn hin.1 hin.2 hband
    obtain ⟨hthrown, hvalue⟩ := collection_get_of_some DatasetBands.__get
      DatasetBands.__getByName ds raw (Sum.inr idx) (raw.bands.get ⟨idx - 1, hlt⟩)
      (by
        show (DatasetBands.__get raw idx).1 = _
        rw [hget])
    refine ⟨⟨fun _ => hin, fun _ => ⟨hthrown, _, hvalue⟩⟩, ?_, fun h => absurd hin h⟩
    intro h hh
    rw [hvalue] at hh
    rw [hband]
    exact hh
  · have hget := bands_get_outside raw idx hin
    obtain ⟨hthrown, hvalue⟩ := collection_get_of_none DatasetBands.__get
      DatasetBands.__getByName ds raw (Sum.inr idx)
      (by
        show (DatasetBands.__get raw idx).1 = _
        rw [hget])
    refine ⟨⟨?_, fun h => absurd h hin⟩, ?_, fun _ => ⟨hthrown, hvalue⟩⟩
    · rintro ⟨ht, _⟩
      rw [hthrown] at ht
      cases ht
    · intro h hh
      rw [hvalue] at hh
      cases hh

/-- Witness for C9 (amended): on the dataset whose only band is 100, `get(1)` succeeds. -/
theorem bands_get_one_based_witness :
    sampleNative.bands.length ≤ 2147483647 ∧
    (((DatasetCollection.get DatasetBands.__get DatasetBands.__getByName
        (Except.ok sampleDataset) (Except.ok sampleNative) (Except.ok (Sum.inr 1))).thrown = [] ∧
      ∃ h, (DatasetCollection.get DatasetBands.__get DatasetBands.__getByName
        (Except.ok sampleDataset) (Except.ok sampleNative)
        (Except.ok (Sum.inr 1))).value = some h) ↔
      (1 ≤ 1 ∧ 1 ≤ sampleNative.bands.length)) :=
  ⟨by decide, (bands_get_one_based sampleDataset sampleNative 1 (by decide)).1⟩

/-! ## `DatasetLayers.copy` with options that do not parse -/

/-- C10, the code at the failing input: `copy(towns, "copy", 5)` on a live dataset, where
parsing the options `5` fails.  The method raises (the parser's exception, then `Error
parsing string list`) and nevertheless builds the job and invokes the native `CopyLayer`:
the dataset ends with a second layer, `copy`. -/
theorem layers_copy_runs_after_failed_parse :
    (sampleParse (JSValue.number 5)).failed = true ∧
    (DatasetLayers.copy sampleDriver sampleParse sampleDataset
      [JSValue.wrapped "Layer" 3, JSValue.string "copy", JSValue.number 5]
      (Except.ok sampleTownsLayer) (Except.ok "copy")).thrown =
        [JSError.error "String list must be an array or object",
          JSError.error "Error parsing string list"] ∧
    (DatasetLayers.copy sampleDriver sampleParse sampleDataset
      [JSValue.wrapped "Layer" 3, JSValue.string "copy", JSValue.number 5]
      (Except.ok sampleTownsLayer) (Except.ok "copy")).calls =
        [NativeCall.CopyLayer (some 3) "copy" []] ∧
    (DatasetLayers.copy sampleDriver sampleParse sampleDataset
      [JSValue.wrapped "Layer" 3, JSValue.string "copy", JSValue.number 5]
      (Except.ok sampleTownsLayer) (Except.ok "copy")).job.isSome = true ∧
    ((DatasetLayers.copy sampleDriver sampleParse sampleDataset
      [JSValue.wrapped "Layer" 3, JSValue.string "copy", JSValue.number 5]
      (Except.ok sampleTownsLayer) (Except.ok "copy")).state.map
        (fun d => d.layers.map OGRLayer.name)) = some ["towns", "copy"] ∧
    (DatasetLayers.create sampleDriver sampleParse sampleDataset
      [JSValue.string "copy", JSValue.null, JSValue.number 1, JSValue.number 5]
      (Except.ok "copy") (Except.ok none) (Except.ok (some 1))).calls = [] := by
  refine ⟨?_, ?_, ?_, ?_, ?_, ?_⟩ <;> rfl

/-! ## `LineStringPoints`: add, get, reverse -/

theorem linestring_get_in_range {Pt : Type} [Inhabited Pt] (geom : OGRLineString Pt) (i : Nat)
    (pt : Pt) (hpt : geom.points.get? i = some pt) :
    LineStringPoints.get geom (Except.ok (i : Int)) = Except.ok pt := by
  have hlt : i < geom.points.length := by
    by_contra hge
    rw [List.get?_eq_none.mpr (by omega)] at hpt
    cases hpt
  simp only [LineStringPoints.get, OGRLineString.getNumPoints, OGRLineString.getPoint]
  rw [if_neg (by omega), if_neg (by omega)]
  simp only [Int.toNat_ofNat, List.getD]
  rw [hpt]
  rfl

/-- C12: `LineStringPoints.reverse`.  After `reverse()` the count is unchanged, `get(i)`
for `0 <= i < n` returns what `get(n - 1 - i)` returned before, and a second `reverse()`
restores the line string. -/
theorem linestring_reverse_points {Pt : Type} [Inhabited Pt] (geom : OGRLineString Pt) :
    LineStringPoints.__count (LineStringPoints.reverse geom) = LineStringPoints.__count geom ∧
    (∀ i : Int, 0 ≤ i → i < LineStringPoints.__count geom →
      LineStringPoints.get (LineStringPoints.reverse geom) (Except.ok i) =
        LineStringPoints.get geom (Except.ok (LineStringPoints.__count geom - 1 - i))) ∧
    LineStringPoints.reverse (LineStringPoints.reverse geom) = geom := by
  refine ⟨?_, ?_, ?_⟩
  · simp [LineStringPoints.__count, LineStringPoints.reverse, OGRLineString.reversePoints,
      OGRLineString.getNumPoints]
  · intro i h0 h1
    simp only [LineStringPoints.__count, OGRLineString.getNumPoints] at h1 ⊢
    have hlt : i.toNat < geom.points.length := by omega
    have hlt2 : geom.points.length - 1 - i.toNat < geom.points.length := by omega
    have hold : geom.points.get? (geom.points.length - 1 - i.toNat) =
        some (geom.points.get ⟨geom.points.length - 1 - i.toNat, hlt2⟩) := by
      simp [List.getElem?_eq_getElem hlt2]
    have hnew : (LineStringPoints.reverse geom).points.get? i.toNat =
        some (geom.points.get ⟨geom.points.length - 1 - i.toNat, hlt2⟩) := by
      simp only [LineStringPoints.reverse, OGRLineString.reversePoints]
      rw [List.get?_eq_getElem?, List.getElem?_reverse hlt]
      simp [List.getElem?_eq_getElem hlt2]
    have h1 := linestring_get_in_range (LineStringPoints.reverse geom) i.toNat _ hnew
    have h2 := linestring_get_in_range geom (geom.points.length - 1 - i.toNat) _ hold
    have hc1 : ((i.toNat : Nat) : Int) = i := by omega
    have hc2 : ((geom.points.length - 1 - i.toNat : Nat) : Int) =
        (geom.points.length : Int) - 1 - i := by omega
    rw [hc1] at h1
    rw [hc2] at h2
    rw [h1, h2]
  · simp [LineStringPoints.reverse, OGRLineString.reversePoints]

/-- Witness for C12: the scenario of the specification, `[(0, 0), (1, 1)]` reversed:
`get(0)` after the call is what `get(1)` was before. -/
theorem linestring_reverse_points_witness :
    LineStringPoints.get
      (LineStringPoints.reverse ({ points := [⟨0, 0, none⟩, ⟨1, 1, none⟩] } : OGRLineString OGRPoint))
      (Except.ok 0) =
    LineStringPoints.get ({ points := [⟨0, 0, none⟩, ⟨1, 1, none⟩] } : OGRLineString OGRPoint)
      (Except.ok (LineStringPoints.__count
        ({ points := [⟨0, 0, none⟩, ⟨1, 1, none⟩] } : OGRLineString OGRPoint) - 1 - 0)) :=
  (linestring_reverse_points
    ({ points := [⟨0, 0, none⟩, ⟨1, 1, none⟩] } : OGRLineString OGRPoint)).2.1 0 (by decide)
    (by decide)

/-- C14: the index mapping of `PolygonRings.get`.  On a polygon with an exterior ring
`get(0)` returns that ring, and for every `int` `i >= 1` with `i - 1` below the number of
interior rings `get(i)` returns interior ring number `i - 1`. -/
theorem polygon_rings_get_mapping {Ring : Type} (geom : OGRPolygon Ring) :
    (∀ ext : Ring, geom.getExteriorRing = some ext →
      PolygonRings.get geom (Except.ok 0) = Except.ok ext) ∧
    (∀ i : Int, 1 ≤ i → i ≤ 2147483647 → i - 1 < geom.getNumInteriorRings →
      ∃ ring, geom.getInteriorRing (i - 1) = some ring ∧
        PolygonRings.get geom (Except.ok i) = Except.ok ring) := by
  constructor
  · intro ext hext
    simp [PolygonRings.get, hext]
  · intro i h1 h2 h3
    have hw : wrapInt (i - 1) = i - 1 := wrapInt_of_range _ (by omega) (by omega)
    have hlt : (i - 1).toNat < geom.rings.tail.length := by
      simp only [OGRPolygon.getNumInteriorRings] at h3
      omega
    have hint : geom.getInteriorRing (i - 1) =
        some (geom.rings.tail.get ⟨(i - 1).toNat, hlt⟩) := by
      unfold OGRPolygon.getInteriorRing
      rw [if_neg (by omega)]
      simp [List.getElem?_eq_getElem hlt]
    refine ⟨_, hint, ?_⟩
    simp only [PolygonRings.get]
    rw [if_neg (by omega), hw, hint]

/-- Witness for C14: the polygon with rings `[10, 20, 30]`: `get(0)` is the exterior ring
10 and `get(2)` is interior ring number 1. -/
theorem polygon_rings_get_mapping_witness :
    PolygonRings.get ({ rings := [10, 20, 30] } : OGRPolygon Nat) (Except.ok 0) =
      Except.ok 10 ∧
    (∃ ring, OGRPolygon.getInteriorRing ({ rings := [10, 20, 30] } : OGRPolygon Nat) (2 - 1) =
        some ring ∧
      PolygonRings.get ({ rings := [10, 20, 30] } : OGRPolygon Nat) (Except.ok 2) =
        Except.ok ring) :=
  ⟨(polygon_rings_get_mapping ({ rings := [10, 20, 30] } : OGRPolygon Nat)).1 10 rfl,
    (polygon_rings_get_mapping ({ rings := [10, 20, 30] } : OGRPolygon Nat)).2 2 (by decide)
      (by decide) (by decide)⟩

/-- C15: the index lookup of `CompoundCurveCurves`.  On a compound curve with `n` curves
(`n` in the range of `int`) and for every index `idx`: `__get` returns null if and only if
`idx >= n`; otherwise it returns the curve at the zero-based position `idx`; the native
`getCurve` is only ever called with an index in `[0, n)`; and `get` fails exactly when
`__get` returns null, handing back the curve otherwise. -/
theorem compound_curves_get {Curve : Type} (parent : OGRCompoundCurve Curve) (idx : Nat)
    (hn : parent.curves.length ≤ 2147483647) :
    ((CompoundCurveCurves.__get parent idx).1 = none ↔ parent.curves.length ≤ idx) ∧
    (idx < parent.curves.length →
      ∃ c, parent.curves.get? idx = some c ∧ (CompoundCurveCurves.__get parent idx).1 = some c ∧
        StandaloneCollection.get CompoundCurveCurves.__get parent (Except.ok idx) =
          Except.ok c) ∧
    (∀ i : Int, GeometryCall.getCurve i ∈ (CompoundCurveCurves.__get parent idx).2 →
      0 ≤ i ∧ i < parent.getNumCurves) ∧
    (parent.curves.length ≤ idx →
      StandaloneCollection.get CompoundCurveCurves.__get parent (Except.ok idx) =
        Except.error (JSError.error "Invalid element")) := by
  by_cases hin : idx < parent.curves.length
  · have hw : wrapInt (idx : Int) = (idx : Int) := wrapInt_of_range _ (by omega) (by omega)
    have hcurve : parent.getCurve (idx : Int) = some (parent.curves.get ⟨idx, hin⟩) := by
      unfold OGRCompoundCurve.getCurve OGRCompoundCurve.getNumCurves
      rw [if_neg (by omega)]
      simp [List.getElem?_eq_getElem hin]
    have hget : CompoundCurveCurves.__get parent idx =
        (some (parent.curves.get ⟨idx, hin⟩),
          [GeometryCall.getNumCurves, GeometryCall.getCurve (idx : Int)]) := by
      unfold CompoundCurveCurves.__get CompoundCurveCurves.__count
        OGRCompoundCurve.getNumCurves
      have hc : ¬ idx ≥ ((parent.curves.length : Int)).toNat := by
        rw [Int.toNat_ofNat]
        omega
      rw [if_neg hc, hw, hcurve]
    refine ⟨?_, ?_, ?_, ?_⟩
    · rw [hget]
      constructor
      · intro h
        cases h
      · intro h
        omega
    · intro _
      refine ⟨parent.curves.get ⟨idx, hin⟩, by simp [List.getElem?_eq_getElem hin],
        by rw [hget], ?_⟩
      simp [StandaloneCollection.get, hget]
    · intro i hi
      rw [hget] at hi
      simp at hi
      subst hi
      simp only [OGRCompoundCurve.getNumCurves]
      omega
    · intro h
      omega
  · have hget : CompoundCurveCurves.__get parent idx = (none, [GeometryCall.getNumCurves]) := by
      unfold CompoundCurveCurves.__get CompoundCurveCurves.__count
        OGRCompoundCurve.getNumCurves
      have hc : idx ≥ ((parent.curves.length : Int)).toNat := by
        rw [Int.toNat_ofNat]
        omega
      rw [if_pos hc]
    refine ⟨?_, fun h => absurd h hin, ?_, ?_⟩
    · rw [hget]
      exact ⟨fun _ => by omega, fun _ => rfl⟩
    · intro i hi
      rw [hget] at hi
      simp at hi
    · intro _
      simp [StandaloneCollection.get, hget]

/-- Witness for C15: the compound curve with curves `[10, 20]`: `__get` at index 1 is the
curve 20 and at index 2 it is null. -/
theorem compound_curves_get_witness :
    ((CompoundCurveCurves.__get ({ curves := [10, 20] } : OGRCompoundCurve Nat) 2).1 = none ↔
      ({ curves := [10, 20] } : OGRCompoundCurve Nat).curves.length ≤ 2) ∧
    (∃ c, ({ curves := [10, 20] } : OGRCompoundCurve Nat).curves.get? 1 = some c ∧
      (CompoundCurveCurves.__get ({ curves := [10, 20] } : OGRCompoundCurve Nat) 1).1 = some c ∧
      StandaloneCollection.get CompoundCurveCurves.__get
        ({ curves := [10, 20] } : OGRCompoundCurve Nat) (Except.ok 1) = Except.ok c) :=
  ⟨(compound_curves_get ({ curves := [10, 20] } : OGRCompoundCurve Nat) 2 (by decide)).1,
    (compound_curves_get ({ curves := [10, 20] } : OGRCompoundCurve Nat) 1 (by decide)).2.1
      (by decide)⟩

/-! ## `DatasetBands.create`: the data type argument -/

/-- Counterexample to C16: `create()` without any argument on a live dataset raises
`data type argument needed`, builds no job and never reaches `AddBand`. -/
theorem bands_create_without_argument :
    sampleDataset.isAlive = true ∧
    (DatasetBands.create sampleDriver sampleParse sampleDataset []).thrown =
      [JSError.error "data type argument needed"] ∧
    (DatasetBands.create sampleDriver sampleParse sampleDataset []).job = none ∧
    (DatasetBands.create sampleDriver sampleParse sampleDataset []).calls = [] ∧
    (DatasetBands.create sampleDriver sampleParse sampleDataset []).state = some sampleNative := by
  refine ⟨rfl, rfl, rfl, rfl, rfl⟩

/-- C16 (amended): the data type default of `DatasetBands.create`.  On a live dataset, a
call whose data type argument is `null` or `undefined` (with options that parse) passes
argument validation: the job is built, its first native call is `AddBand` with
`GDT_Unknown`, the only exception it can raise is the native one, and when `AddBand`
succeeds the band is added.  A call with no argument at all raises `data type argument
needed` and adds nothing. -/
theorem bands_create_default_type (drv : GDALDriver) (parse : JSValue → ParseOutcome)
    (ds : Dataset) (raw : GDALDataset) (a0 : JSValue) (rest : List JSValue)
    (halive : ds.this_dataset = some raw)
    (hnull : a0 = JSValue.null ∨ a0 = JSValue.undefined)
    (hopts : (DatasetBands.create_options parse rest).failed = false) :
    DatasetBands.create_type drv a0 = some GDT_Unknown ∧
    (DatasetBands.create drv parse ds (a0 :: rest)).job.isSome = true ∧
    (DatasetBands.create drv parse ds (a0 :: rest)).calls.head? =
      some (NativeCall.AddBand GDT_Unknown (DatasetBands.create_options parse rest).list) ∧
    (∀ e ∈ (DatasetBands.create drv parse ds (a0 :: rest)).thrown, ∃ msg, e = JSError.native msg) ∧
    (∀ h : Handle,
      drv.addBand raw GDT_Unknown (DatasetBands.create_options parse rest).list = Except.ok h →
      (DatasetBands.create drv parse ds (a0 :: rest)).thrown = [] ∧
      (DatasetBands.create drv parse ds (a0 :: rest)).state =
        some { raw with bands := raw.bands ++ [h] }) ∧
    DatasetBands.create drv parse ds [] =
      CallResult.raise (JSError.error "data type argument needed") (some raw) := by
  have htype : DatasetBands.create_type drv a0 = some GDT_Unknown := by
    rcases hnull with rfl | rfl <;> rfl
  have hcreate : DatasetBands.create drv parse ds (a0 :: rest) =
      GDALAsyncableJob.run []
        { persisted := [WrapperRef.dataset], captured := [WrapperRef.dataset] }
        (match raw.AddBand drv GDT_Unknown (DatasetBands.create_options parse rest).list with
          | Except.error msg =>
            (Except.error (JSError.native msg),
              [NativeCall.AddBand GDT_Unknown (DatasetBands.create_options parse rest).list],
              some raw)
          | Except.ok raw1 =>
            (Except.ok (raw1.GetRasterBand raw1.GetRasterCount),
              [NativeCall.AddBand GDT_Unknown (DatasetBands.create_options parse rest).list,
                NativeCall.GetRasterCount, NativeCall.GetRasterBand raw1.GetRasterCount],
              some raw1)) := by
    simp only [DatasetBands.create, halive, htype, hopts]
    simp
  refine ⟨htype, ?_, ?_, ?_, ?_, ?_⟩
  · rw [hcreate]
    cases hadd : raw.AddBand drv GDT_Unknown (DatasetBands.create_options parse rest).list <;>
      simp [GDALAsyncableJob.run]
  · rw [hcreate]
    cases hadd : raw.AddBand drv GDT_Unknown (DatasetBands.create_options parse rest).list <;>
      simp [GDALAsyncableJob.run]
  · rw [hcreate]
    cases hadd : raw.AddBand drv GDT_Unknown (DatasetBands.create_options parse rest).list <;>
      simp [GDALAsyncableJob.run]
  · intro h hh
    rw [hcreate]
    simp [GDALDataset.AddBand, hh, GDALAsyncableJob.run]
  · simp [DatasetBands.create, halive]

/-- Witness for C16 (amended): `create(null)` on the dataset with band 100 adds band 101
with the unknown data type. -/
theorem bands_create_default_type_witness :
    (DatasetBands.create sampleDriver sampleParse sampleDataset (JSValue.null :: [])).calls.head? =
      some (NativeCall.AddBand GDT_Unknown (DatasetBands.create_options sampleParse []).list) ∧
    (DatasetBands.create sampleDriver sampleParse sampleDataset (JSValue.null :: [])).state =
      some { sampleNative with bands := sampleNative.bands ++ [101] } :=
  ⟨(bands_create_default_type sampleDriver sampleParse sampleDataset sampleNative JSValue.null []
      rfl (Or.inl rfl) rfl).2.2.1,
    ((bands_create_default_type sampleDriver sampleParse sampleDataset sampleNative JSValue.null []
      rfl (Or.inl rfl) rfl).2.2.2.2.1 101 rfl).2⟩

/-! ## `LayerFeatures`: enumeration and lookup -/

theorem getNextFeature_value (g : OGRLayer) :
    g.GetNextFeature.1 = g.features.get? g.cursor := by
  unfold OGRLayer.GetNextFeature
  cases h : g.features.get? g.cursor <;> rfl

theorem nextResults_alive (k : Nat) :
    ∀ (layer : Layer) (g : OGRLayer), layer.this_ = some g →
      LayerFeatures.nextResults k layer =
        (List.range k).map (fun j => ([], some (g.features.get? (g.cursor + j)))) := by
  induction k with
  | zero =>
    intro layer g _
    simp [LayerFeatures.nextResults]
  | succ k ih =>
    intro layer g h
    obtain ⟨hval, hstate, hthrown⟩ := next_alive layer g h
    obtain ⟨c, hc, hsome, hnone⟩ := getNextFeature_state g
    have hthis : (LayerFeatures.next layer).state.this_ = some { g with cursor := c } := by
      rw [hstate, hc]
    have hrest := ih (LayerFeatures.next layer).state { g with cursor := c } hthis
    simp only [LayerFeatures.nextResults, hval, hthrown, getNextFeature_value, hrest]
    rw [List.range_succ_eq_map, List.map_cons, List.map_map]
    congr 1
    apply List.map_congr_left
    intro j _
    simp only [Function.comp, Nat.add_zero]
    cases hg : g.features.get? g.cursor with
    | some f =>
      have : c = g.cursor + 1 := hsome (by rw [hg]; rfl)
      subst this
      have : g.cursor + 1 + j = g.cursor + (j + 1) := by omega
      simp only [this]
    | none =>
      have : c = g.cursor := hnone hg
      subst this
      have hlen : g.features.length ≤ g.cursor := List.get?_eq_none.mp hg
      have h1 : g.features.get? (g.cursor + j) = none :=
        List.get?_eq_none.mpr (by omega)
      have h2 : g.features.get? (g.cursor + (j + 1)) = none :=
        List.get?_eq_none.mpr (by omega)
      simp only [h1, h2]

/-- C17: enumeration and exhaustion.  On a live layer holding the features `f_0 ..
f_{n-1}` in native read order, whatever the cursor position before: `first()` and the `k`
calls of `next()` that follow raise nothing, and call number `j` (counting `first()` as
call 0) hands back `f_j` when `j < n` and null when `j >= n`. -/
theorem feature_pass_enumerates (layer : Layer) (g : OGRLayer) (k : Nat)
    (halive : layer.this_ = some g) :
    LayerFeatures.passResults k layer =
      (List.range (k + 1)).map (fun j => ([], some (g.features.get? j))) := by
  obtain ⟨hval, hstate, hthrown⟩ := first_alive layer g halive
  obtain ⟨c, hc, hsome, hnone⟩ := getNextFeature_state g.ResetReading
  have hthis : (LayerFeatures.first layer).state.this_ = some { g with cursor := c } := by
    rw [hstate, hc]
    simp [OGRLayer.ResetReading]
  have hrest := nextResults_alive k (LayerFeatures.first layer).state { g with cursor := c } hthis
  simp only [LayerFeatures.passResults, hval, hthrown, getNextFeature_value, hrest]
  rw [List.range_succ_eq_map, List.map_cons, List.map_map]
  congr 1
  apply List.map_congr_left
  intro j _
  simp only [Function.comp, OGRLayer.ResetReading]
  cases hg : g.features.get? 0 with
  | some f =>
    have : c = 0 + 1 := hsome (by
      show (g.features.get? 0).isSome = true
      rw [hg]; rfl)
    subst this
    have : 0 + 1 + j = j + 1 := by omega
    simp only [this]
  | none =>
    have : c = 0 := hnone hg
    subst this
    have hlen : g.features.length ≤ 0 := List.get?_eq_none.mp hg
    have h1 : g.features.get? (0 + j) = none := List.get?_eq_none.mpr (by omega)
    have h2 : g.features.get? (j + 1) = none := List.get?_eq_none.mpr (by omega)
    simp only [h1, h2]

/-- Witness for C17: on the layer `towns` (one feature, identifier 5), `first()` hands
back that feature and the two calls of `next()` that follow hand back null. -/
theorem feature_pass_enumerates_witness :
    LayerFeatures.passResults 2 sampleTownsLayer =
      (List.range (2 + 1)).map (fun j => ([], some (sampleTowns.features.get? j))) :=
  feature_pass_enumerates sampleTownsLayer sampleTowns 2 rfl

/-- C18: `LayerFeatures.get` looks up by identifier.  On a live layer, `get(id)` makes
exactly one native call, `GetFeature(id)` with the identifier unchanged; it succeeds if
and only if the layer holds a feature whose identifier is `id`, and then hands back a
feature of the layer carrying that identifier, wherever it stands in the layer; otherwise
it raises the last native error message and hands back nothing. -/
theorem layer_features_get_by_id (layer : Layer) (g : OGRLayer) (id : Int)
    (halive : layer.this_ = some g) :
    (LayerFeatures.get layer (Except.ok id)).calls = [NativeCall.GetFeature id] ∧
    (((LayerFeatures.get layer (Except.ok id)).thrown = [] ∧
        ∃ f, (LayerFeatures.get layer (Except.ok id)).value = some f) ↔
      ∃ f ∈ g.features, f.fid = id) ∧
    (∀ f, (LayerFeatures.get layer (Except.ok id)).value = some f →
      f ∈ g.features ∧ f.fid = id ∧ g.features.find? (fun x => x.fid == id) = some f) ∧
    ((¬ ∃ f ∈ g.features, f.fid = id) →
      (LayerFeatures.get layer (Except.ok id)).thrown = [JSError.lastCPLErr] ∧
      (LayerFeatures.get layer (Except.ok id)).value = none) := by
  cases hfind : g.features.find? (fun x => x.fid == id) with
  | none =>
    have hres : LayerFeatures.get layer (Except.ok id) =
        { thrown := [JSError.lastCPLErr], value := none,
          job := some { persisted := [WrapperRef.layer], captured := [WrapperRef.layer] },
          calls := [NativeCall.GetFeature id], state := layer } := by
      simp [LayerFeatures.get, halive, OGRLayer.GetFeature, hfind, GDALAsyncableJob.run]
    have habsent : ¬ ∃ f ∈ g.features, f.fid = id := by
      rintro ⟨f, hf, hid⟩
      have := List.find?_eq_none.mp hfind f hf
      simp [hid] at this
    rw [hres]
    refine ⟨rfl, ⟨?_, fun h => absurd h habsent⟩, ?_, fun _ => ⟨rfl, rfl⟩⟩
    · rintro ⟨ht, _⟩
      cases ht
    · intro f hf
      cases hf
  | some f0 =>
    have hres : LayerFeatures.get layer (Except.ok id) =
        { thrown := [], value := some f0,
          job := some { persisted := [WrapperRef.layer], captured := [WrapperRef.layer] },
          calls := [NativeCall.GetFeature id], state := layer } := by
      simp [LayerFeatures.get, halive, OGRLayer.GetFeature, hfind, GDALAsyncableJob.run]
    have hmem : f0 ∈ g.features := List.mem_of_find?_eq_some hfind
    have hid : f0.fid = id := by
      have := List.find?_some hfind
      simpa using this
    rw [hres]
    refine ⟨rfl, ⟨fun _ => ⟨f0, hmem, hid⟩, fun _ => ⟨rfl, f0, rfl⟩⟩, ?_, ?_⟩
    · intro f hf
      simp only [Option.some.injEq] at hf
      subst hf
      exact ⟨hmem, hid, rfl⟩
    · intro habsent
      exact absurd ⟨f0, hmem, hid⟩ habsent

/-- Witness for C18: on the layer `towns`, whose only feature carries the identifier 5,
`get(5)` succeeds although position 5 does not exist. -/
theorem layer_features_get_by_id_witness :
    (LayerFeatures.get sampleTownsLayer (Except.ok 5)).calls = [NativeCall.GetFeature 5] ∧
    (((LayerFeatures.get sampleTownsLayer (Except.ok 5)).thrown = [] ∧
        ∃ f, (LayerFeatures.get sampleTownsLayer (Except.ok 5)).value = some f) ↔
      ∃ f ∈ sampleTowns.features, f.fid = 5) :=
  ⟨(layer_features_get_by_id sampleTownsLayer sampleTowns 5 rfl).1,
    (layer_features_get_by_id sampleTownsLayer sampleTowns 5 rfl).2.1⟩

/-! ## `LayerFeatures.set` -/

theorem rewrite_find (f : OGRFeature) :
    ∀ l : List OGRFeature, (l.find? (fun g => g.fid == f.fid)).isSome = true →
      (OGRLayer.rewrite f l).find? (fun g => g.fid == f.fid) = some f ∧
      (OGRLayer.rewrite f l).length = l.length := by
  intro l
  induction l with
  | nil => intro h; simp at h
  | cons g rest ih =>
    intro h
    by_cases hg : g.fid = f.fid
    · simp [OGRLayer.rewrite, hg]
    · have hrest : (rest.find? (fun g => g.fid == f.fid)).isSome = true := by
        simpa [List.find?_cons, hg] using h
      obtain ⟨h1, h2⟩ := ih hrest
      simp [OGRLayer.rewrite, hg, List.find?_cons, h1, h2]

theorem setFeature_written (b : Bool) (l : OGRLayer) (f : OGRFeature)
    (hok : (l.SetFeature b f).1 = 0) :
    (l.SetFeature b f).2.GetFeature f.fid = some f ∧
    (l.SetFeature b f).2.features.length ≤ l.features.length + 1 ∧
    l.features.length ≤ (l.SetFeature b f).2.features.length := by
  unfold OGRLayer.SetFeature at hok ⊢
  by_cases hex : (l.features.find? (fun g => g.fid == f.fid)).isSome = true
  · obtain ⟨h1, h2⟩ := rewrite_find f l.features hex
    simp only [hex, if_true, OGRLayer.GetFeature]
    exact ⟨h1, by omega, by omega⟩
  · by_cases hb : b = true
    · have hnone : l.features.find? (fun g => g.fid == f.fid) = none := by
        cases h : l.features.find? (fun g => g.fid == f.fid) with
        | none => rfl
        | some x => simp [h] at hex
      simp only [hex, hb, if_true, OGRLayer.GetFeature]
      refine ⟨?_, by simp, by simp⟩
      simp [List.find?_append, hnone]
    · simp [hex, hb] at hok

theorem setJob_alive (b : Bool) (layer : Layer) (g : OGRLayer) (f : Feature) (gf : OGRFeature)
    (calls : List NativeCall) (hf : f.this_ = some gf) :
    (LayerFeatures.setJob (nativeLib b) layer g f calls).calls =
      calls ++ [NativeCall.SetFeature (some gf)] ∧
    (LayerFeatures.setJob (nativeLib b) layer g f calls).state =
      ({ layer with this_ := some (g.SetFeature b gf).2 }, some f) ∧
    ((LayerFeatures.setJob (nativeLib b) layer g f calls).thrown = [] →
      (g.SetFeature b gf).1 = 0) := by
  have halive : f.isAlive = true := by simp [Feature.isAlive, hf]
  by_cases hok : (g.SetFeature b gf).1 = 0
  · simp [LayerFeatures.setJob, halive, hf, nativeLib, hok, GDALAsyncableJob.run]
  · simp [LayerFeatures.setJob, halive, hf, nativeLib, hok, GDALAsyncableJob.run]

theorem get_after_write (layer : Layer) (g1 : OGRLayer) (f : OGRFeature)
    (h : g1.GetFeature f.fid = some f) :
    (LayerFeatures.get { layer with this_ := some g1 } (Except.ok f.fid)).thrown = [] ∧
    (LayerFeatures.get { layer with this_ := some g1 } (Except.ok f.fid)).value = some f := by
  simp [LayerFeatures.get, h, GDALAsyncableJob.run]

theorem isNumber_not_isObject (v : JSValue) (h : v.IsNumber = true) : v.IsObject = false := by
  cases v with
  | number x => rfl
  | _ => simp [JSValue.IsNumber] at h

theorem set_with_id_eq (b : Bool) (object_store_has : Handle → Bool) (layer : Layer)
    (g : OGRLayer) (info : List JSValue) (feature0 : ArgResult Feature) (id : Int)
    (f : Feature) (gf : OGRFeature) (halive : layer.this_ = some g)
    (hnum : (info.getD 0 JSValue.undefined).IsNumber = true) (hf : f.this_ = some gf) :
    LayerFeatures.set (nativeLib b) object_store_has layer info feature0 (Except.ok id)
        (Except.ok f) =
      LayerFeatures.setJob (nativeLib b) layer g { this_ := some { gf with fid := id } }
        [NativeCall.SetFID id] := by
  have hobj : (info.getD 0 JSValue.undefined).IsObject = false :=
    isNumber_not_isObject _ hnum
  have hlive : layer.isAlive = true := by simp [Layer.isAlive, halive]
  have hfid : (nativeLib b).SetFID (some gf) id = (0, some { gf with fid := id }) := rfl
  unfold LayerFeatures.set
  generalize info.getD 0 JSValue.undefined = a0 at hnum hobj ⊢
  simp [halive, hlive, hobj, hnum, hf, hfid]

theorem set_with_feature_eq (b : Bool) (object_store_has : Handle → Bool) (layer : Layer)
    (g : OGRLayer) (info : List JSValue) (id0 : ArgResult Int) (feature1 : ArgResult Feature)
    (f : Feature) (halive : layer.this_ = some g)
    (hobj : (info.getD 0 JSValue.undefined).IsObject = true) :
    LayerFeatures.set (nativeLib b) object_store_has layer info (Except.ok f) id0 feature1 =
      LayerFeatures.setJob (nativeLib b) layer g f [] := by
  have hlive : layer.isAlive = true := by simp [Layer.isAlive, halive]
  unfold LayerFeatures.set
  generalize info.getD 0 JSValue.undefined = a0 at hobj ⊢
  simp [halive, hlive, hobj]

theorem setFeature_ok_iff (b : Bool) (l : OGRLayer) (f : OGRFeature) :
    ((l.SetFeature b f).1 = 0 ↔ ((l.GetFeature f.fid).isSome = true ∨ b = true)) ∧
    ((l.SetFeature b f).1 ≠ 0 → l.SetFeature b f = (9, l)) := by
  unfold OGRLayer.SetFeature OGRLayer.GetFeature
  by_cases hex : (l.features.find? (fun g => g.fid == f.fid)).isSome = true
  · simp [hex]
  · by_cases hb : b = true
    · simp [hex, hb]
    · simp [hex, hb]

theorem setJob_thrown (b : Bool) (layer : Layer) (g : OGRLayer) (f : Feature) (gf : OGRFeature)
    (calls : List NativeCall) (hf : f.this_ = some gf) :
    (LayerFeatures.setJob (nativeLib b) layer g f calls).thrown =
      (if (g.SetFeature b gf).1 = 0 then [] else [JSError.ogr (g.SetFeature b gf).1]) := by
  have halive : f.isAlive = true := by simp [Feature.isAlive, hf]
  by_cases hok : (g.SetFeature b gf).1 = 0
  · simp [LayerFeatures.setJob, halive, hf, nativeLib, hok, GDALAsyncableJob.run]
  · simp [LayerFeatures.setJob, halive, hf, nativeLib, hok, GDALAsyncableJob.run]

theorem setJob_outcome (b : Bool) (layer : Layer) (g : OGRLayer) (f : Feature)
    (gf : OGRFeature) (calls : List NativeCall) (hf : f.this_ = some gf) :
    ((LayerFeatures.setJob (nativeLib b) layer g f calls).thrown = [] ↔
      ((g.GetFeature gf.fid).isSome = true ∨ b = true)) ∧
    ((LayerFeatures.setJob (nativeLib b) layer g f calls).thrown ≠ [] →
      (LayerFeatures.setJob (nativeLib b) layer g f calls).thrown = [JSError.ogr 9] ∧
      (LayerFeatures.setJob (nativeLib b) layer g f calls).state.1.this_ = some g) := by
  rw [setJob_thrown b layer g f gf calls hf, (setJob_alive b layer g f gf calls hf).2.1]
  obtain ⟨hiff, hfail⟩ := setFeature_ok_iff b g gf
  by_cases hok : (g.SetFeature b gf).1 = 0
  · rw [if_pos hok]
    exact ⟨⟨fun _ => hiff.mp hok, fun _ => rfl⟩, fun h => absurd rfl h⟩
  · rw [if_neg hok]
    refine ⟨⟨fun h => by simp at h, fun h => absurd (hiff.mpr h) hok⟩, fun _ => ?_⟩
    rw [hfail hok]
    exact ⟨rfl, rfl⟩

/-- C19: `LayerFeatures.set` writes by identifier.  On a live layer, with the native
write modelled as a write under the identifier the feature carries:
`set(id, f)` with a live feature `f` first calls `SetFID(id)` and then `SetFeature` on the
feature that now carries `id`, and the layer afterwards is the one that native write
leaves; the call raises nothing exactly when the layer holds a feature with identifier
`id` or the driver adds missing identifiers; when it raises nothing, `get(id)` on the
layer afterwards hands back the feature with the field values of `f` and the identifier
`id`, and the feature count has changed by at most one; when it raises, the error is the
one of the native write and the native layer is as before.  `set(f)` calls `SetFeature`
on `f` as it is, with the same outcomes under the identifier `f` carries.  A first
argument that is neither an object nor a number raises `Invalid arguments` and nothing is
written. -/
theorem layer_features_set_upserts (b : Bool) (object_store_has : Handle → Bool)
    (layer : Layer) (g : OGRLayer) (halive : layer.this_ = some g) :
    (∀ (info : List JSValue) (feature0 : ArgResult Feature) (id : Int) (f : Feature)
        (gf : OGRFeature),
      (info.getD 0 JSValue.undefined).IsNumber = true → f.this_ = some gf →
      (LayerFeatures.set (nativeLib b) object_store_has layer info feature0 (Except.ok id)
        (Except.ok f)).calls =
        [NativeCall.SetFID id, NativeCall.SetFeature (some { gf with fid := id })] ∧
      (LayerFeatures.set (nativeLib b) object_store_has layer info feature0 (Except.ok id)
        (Except.ok f)).state =
        ({ layer with this_ := some (g.SetFeature b { gf with fid := id }).2 },
          some { this_ := some { gf with fid := id } }) ∧
      ((LayerFeatures.set (nativeLib b) object_store_has layer info feature0 (Except.ok id)
          (Except.ok f)).thrown = [] ↔ ((g.GetFeature id).isSome = true ∨ b = true)) ∧
      ((LayerFeatures.set (nativeLib b) object_store_has layer info feature0 (Except.ok id)
          (Except.ok f)).thrown = [] →
        (LayerFeatures.get (LayerFeatures.set (nativeLib b) object_store_has layer info feature0
          (Except.ok id) (Except.ok f)).state.1 (Except.ok id)).thrown = [] ∧
        (LayerFeatures.get (LayerFeatures.set (nativeLib b) object_store_has layer info feature0
          (Except.ok id) (Except.ok f)).state.1 (Except.ok id)).value =
            some { gf with fid := id } ∧
        ∃ g1, (LayerFeatures.set (nativeLib b) object_store_has layer info feature0
            (Except.ok id) (Except.ok f)).state.1.this_ = some g1 ∧
          (nativeLib b).GetFeatureCount g1 1 ≤ (nativeLib b).GetFeatureCount g 1 + 1 ∧
          (nativeLib b).GetFeatureCount g 1 ≤ (nativeLib b).GetFeatureCount g1 1 + 1) ∧
      ((LayerFeatures.set (nativeLib b) object_store_has layer info feature0 (Except.ok id)
          (Except.ok f)).thrown ≠ [] →
        (LayerFeatures.set (nativeLib b) object_store_has layer info feature0 (Except.ok id)
          (Except.ok f)).thrown = [JSError.ogr 9] ∧
        (LayerFeatures.set (nativeLib b) object_store_has layer info feature0 (Except.ok id)
          (Except.ok f)).state.1.this_ = some g)) ∧
    (∀ (info : List JSValue) (id0 : ArgResult Int) (feature1 : ArgResult Feature) (f : Feature)
        (gf : OGRFeature),
      (info.getD 0 JSValue.undefined).IsObject = true → f.this_ = some gf →
      (LayerFeatures.set (nativeLib b) object_store_has layer info (Except.ok f) id0
        feature1).calls = [NativeCall.SetFeature (some gf)] ∧
      (LayerFeatures.set (nativeLib b) object_store_has layer info (Except.ok f) id0
        feature1).state = ({ layer with this_ := some (g.SetFeature b gf).2 }, some f) ∧
      ((LayerFeatures.set (nativeLib b) object_store_has layer info (Except.ok f) id0
          feature1).thrown = [] ↔ ((g.GetFeature gf.fid).isSome = true ∨ b = true)) ∧
      ((LayerFeatures.set (nativeLib b) object_store_has layer info (Except.ok f) id0
          feature1).thrown = [] →
        (LayerFeatures.get (LayerFeatures.set (nativeLib b) object_store_has layer info
          (Except.ok f) id0 feature1).state.1 (Except.ok gf.fid)).value = some gf) ∧
      ((LayerFeatures.set (nativeLib b) object_store_has layer info (Except.ok f) id0
          feature1).thrown ≠ [] →
        (LayerFeatures.set (nativeLib b) object_store_has layer info (Except.ok f) id0
          feature1).thrown = [JSError.ogr 9] ∧
        (LayerFeatures.set (nativeLib b) object_store_has layer info (Except.ok f) id0
          feature1).state.1.this_ = some g)) ∧
    (∀ (lib : OGRLibrary) (info : List JSValue) (feature0 : ArgResult Feature)
        (id0 : ArgResult Int) (feature1 : ArgResult Feature),
      (info.getD 0 JSValue.undefined).IsObject = false →
      (info.getD 0 JSValue.undefined).IsNumber = false →
      LayerFeatures.set lib object_store_has layer info feature0 id0 feature1 =
        CallResult.raise (JSError.error "Invalid arguments") (layer, none)) := by
  refine ⟨?_, ?_, ?_⟩
  · intro info feature0 id f gf hnum hf
    rw [set_with_id_eq b object_store_has layer g info feature0 id f gf halive hnum hf]
    obtain ⟨hcalls, hstate, hok⟩ := setJob_alive b layer g
      { this_ := some { gf with fid := id } } { gf with fid := id } [NativeCall.SetFID id] rfl
    obtain ⟨hiff, hfail⟩ := setJob_outcome b layer g
      { this_ := some { gf with fid := id } } { gf with fid := id } [NativeCall.SetFID id] rfl
    refine ⟨by rw [hcalls]; rfl, hstate, hiff, ?_, hfail⟩
    intro hthrown
    obtain ⟨hget, hlen1, hlen2⟩ := setFeature_written b g { gf with fid := id } (hok hthrown)
    rw [hstate]
    have hg := get_after_write layer (g.SetFeature b { gf with fid := id }).2
      { gf with fid := id } hget
    refine ⟨hg.1, hg.2, _, rfl, ?_, ?_⟩
    · simp only [nativeLib]
      omega
    · simp only [nativeLib]
      omega
  · intro info id0 feature1 f gf hobj hf
    rw [set_with_feature_eq b object_store_has layer g info id0 feature1 f halive hobj]
    obtain ⟨hcalls, hstate, hok⟩ := setJob_alive b layer g f gf [] hf
    obtain ⟨hiff, hfail⟩ := setJob_outcome b layer g f gf [] hf
    refine ⟨by rw [hcalls]; rfl, hstate, hiff, ?_, hfail⟩
    intro hthrown
    obtain ⟨hget, _, _⟩ := setFeature_written b g gf (hok hthrown)
    rw [hstate]
    exact (get_after_write layer (g.SetFeature b gf).2 gf hget).2
  · intro lib info feature0 id0 feature1 hobj hnum
    have hlive : layer.isAlive = true := by simp [Layer.isAlive, halive]
    unfold LayerFeatures.set
    generalize info.getD 0 JSValue.undefined = a0 at hobj hnum ⊢
    simp [halive, hlive, hobj, hnum]

/-- Witness for C19: on the layer `towns` (one feature, identifier 5, value `a`), with a
driver that adds no missing identifier, `set(5, f)` for the feature `f` with value `b`
raises nothing and `get(5)` afterwards hands back the feature with identifier 5 and value
`b`; with a driver that adds missing identifiers, `set(9, f)` raises nothing, `get(9)`
afterwards hands back the feature with identifier 9 and value `b` and the layer holds two
features; `set("x")` raises `Invalid arguments`. -/
theorem layer_features_set_upserts_witness :
    (LayerFeatures.set (nativeLib false) emptyStore sampleTownsLayer
      [JSValue.number 5, JSValue.wrapped "Feature" 1] (Except.ok sampleFeature) (Except.ok 5)
      (Except.ok sampleFeature)).thrown = [] ∧
    (LayerFeatures.get (LayerFeatures.set (nativeLib false) emptyStore sampleTownsLayer
      [JSValue.number 5, JSValue.wrapped "Feature" 1] (Except.ok sampleFeature) (Except.ok 5)
      (Except.ok sampleFeature)).state.1 (Except.ok 5)).value
      = some { fid := 5, values := ["b"] } ∧
    (LayerFeatures.get (LayerFeatures.set (nativeLib true) emptyStore sampleTownsLayer
      [JSValue.number 9, JSValue.wrapped "Feature" 1] (Except.ok sampleFeature) (Except.ok 9)
      (Except.ok sampleFeature)).state.1 (Except.ok 9)).value
      = some { fid := 9, values := ["b"] } ∧
    (LayerFeatures.set (nativeLib true) emptyStore sampleTownsLayer
      [JSValue.number 9, JSValue.wrapped "Feature" 1] (Except.ok sampleFeature) (Except.ok 9)
      (Except.ok sampleFeature)).state.1.this_
      = some { handle := 3, name := "towns",
               features := [{ fid := 5, values := ["a"] }, { fid := 9, values := ["b"] }],
               cursor := 0 } ∧
    LayerFeatures.set sampleLib emptyStore sampleTownsLayer [JSValue.string "x"]
      (Except.ok sampleFeature) (Except.ok 5) (Except.ok sampleFeature) =
      CallResult.raise (JSError.error "Invalid arguments") (sampleTownsLayer, none) := by
  have h5 := (layer_features_set_upserts false emptyStore sampleTownsLayer sampleTowns rfl).1
      [JSValue.number 5, JSValue.wrapped "Feature" 1] (Except.ok sampleFeature) 5 sampleFeature
      { fid := 0, values := ["b"] } rfl rfl
  have h9 := (layer_features_set_upserts true emptyStore sampleTownsLayer sampleTowns rfl).1
      [JSValue.number 9, JSValue.wrapped "Feature" 1] (Except.ok sampleFeature) 9 sampleFeature
      { fid := 0, values := ["b"] } rfl rfl
  have t5 := h5.2.2.1.mpr (Or.inl rfl)
  have t9 := h9.2.2.1.mpr (Or.inr rfl)
  refine ⟨t5, (h5.2.2.2.1 t5).2.1, (h9.2.2.2.1 t9).2.1, ?_,
    (layer_features_set_upserts true emptyStore sampleTownsLayer sampleTowns rfl).2.2
      sampleLib [JSValue.string "x"] (Except.ok sampleFeature) (Except.ok 5)
      (Except.ok sampleFeature) rfl rfl⟩
  rw [h9.2.1]
  rfl

/-! ## Job pinning -/

/-- C20, the code at the failing inputs: the job of `LayerFeatures.add` captures the
native feature but pins only the layer, and the job of `DatasetLayers.create` called with
a spatial reference captures its native reference but pins only the dataset; the jobs of
`LayerFeatures.set` and `DatasetLayers.copy` pin everything they capture. -/
theorem job_pinning_gaps :
    (LayerFeatures.add sampleLib sampleTownsLayer (Except.ok sampleFeature)).job =
      some { persisted := [WrapperRef.layer],
             captured := [WrapperRef.layer, WrapperRef.feature] } ∧
    (DatasetLayers.create sampleDriver sampleParse sampleDataset
      [JSValue.string "roads", JSValue.wrapped "SpatialReference" 9, JSValue.number 1]
      (Except.ok "roads") (Except.ok (some 9)) (Except.ok (some 1))).job =
      some { persisted := [WrapperRef.dataset],
             captured := [WrapperRef.dataset, WrapperRef.spatialReference] } ∧
    (LayerFeatures.set sampleLib emptyStore sampleTownsLayer [JSValue.wrapped "Feature" 1]
      (Except.ok sampleFeature) (Except.ok 5) (Except.ok sampleFeature)).job =
      some { persisted := [WrapperRef.layer, WrapperRef.feature],
             captured := [WrapperRef.layer, WrapperRef.feature] } ∧
    (DatasetLayers.copy sampleDriver sampleParse sampleDataset
      [JSValue.wrapped "Layer" 3, JSValue.string "copy"] (Except.ok sampleTownsLayer)
      (Except.ok "copy")).job =
      some { persisted := [WrapperRef.dataset, WrapperRef.sourceLayer],
             captured := [WrapperRef.dataset, WrapperRef.sourceLayer] } := by
  refine ⟨?_, ?_, ?_, ?_⟩ <;> rfl

/-! ## `FeatureDefnFields.reorder` -/

theorem toInt64_natCast (k : Nat) : (JSValue.number (k : Rat)).toInt64 = (k : Int) := by
  simp [JSValue.toInt64]

theorem reorderLoop_integers (n : Int) (hn : n ≤ 2147483647) :
    ∀ ks : List Nat, (∀ k ∈ ks, (k : Int) < n) →
      FeatureDefnFields.reorderLoop n (jsIntegers ks) = Except.ok (ks.map Int.ofNat) := by
  intro ks
  induction ks with
  | nil => intro _; rfl
  | cons k rest ih =>
    intro h
    have hk : (k : Int) < n := h k (List.mem_cons_self _ _)
    have hrest := ih (fun x hx => h x (List.mem_cons_of_mem _ hx))
    have hw : wrapInt (k : Int) = (k : Int) := wrapInt_of_range _ (by omega) (by omega)
    simp only [jsIntegers, List.map_cons] at hrest ⊢
    simp only [FeatureDefnFields.reorderLoop, JSValue.IsNumber, toInt64_natCast, hw]
    rw [if_neg (by simp), if_neg (by omega), hrest]
    rfl

theorem filterMap_get?_of_isSome {α β : Type} (f : α → Option β) :
    ∀ (l : List α), (∀ a ∈ l, (f a).isSome = true) →
      ∀ i, (l.filterMap f).get? i = (l.get? i).bind f := by
  intro l
  induction l with
  | nil => intro _ i; simp
  | cons a rest ih =>
    intro h i
    have ha := h a (List.mem_cons_self _ _)
    obtain ⟨b, hb⟩ := Option.isSome_iff_exists.mp ha
    have hrest := ih (fun x hx => h x (List.mem_cons_of_mem _ hx))
    rw [List.filterMap_cons, hb]
    cases i with
    | zero => simp [hb]
    | succ j =>
      have := hrest j
      simpa using this

theorem filterMap_get?_range {α : Type} (l : List α) :
    (List.range l.length).filterMap (fun k => l.get? k) = l := by
  apply List.ext_get?
  intro i
  rw [filterMap_get?_of_isSome (fun k => l.get? k) (List.range l.length) (by
    intro k hk
    have hlt : k < l.length := List.mem_range.mp hk
    simp [List.getElem?_eq_getElem hlt])]
  by_cases hi : i < l.length
  · simp [List.getElem?_range hi]
  · have h1 : (List.range l.length).get? i = none :=
      List.get?_eq_none.mpr (by simp; omega)
    have h2 : l.get? i = none := List.get?_eq_none.mpr (by omega)
    rw [h1, h2]
    rfl

theorem getFieldDefn_natCast {Field : Type} (d : OGRFeatureDefn Field) (i : Nat) :
    d.GetFieldDefn (i : Int) = d.fields.get? i := by
  unfold OGRFeatureDefn.GetFieldDefn OGRFeatureDefn.GetFieldCount
  by_cases hi : i < d.fields.length
  · rw [if_neg (by omega)]
    simp
  · rw [if_pos (by omega)]
    exact (List.get?_eq_none.mpr (by omega)).symm

theorem getNames_value (raw : OGRFeatureDefn OGRFieldDefn) :
    (FeatureDefnFields.getNames { this_ := some raw }).value
      = some (raw.fields.map OGRFieldDefn.name) := by
  have h : (List.range raw.fields.length).filterMap
      (fun (i : Nat) => (raw.GetFieldDefn (i : Int)).map OGRFieldDefn.name)
      = raw.fields.map OGRFieldDefn.name := by
    have h1 : (fun i : Nat => (raw.GetFieldDefn (i : Int)).map OGRFieldDefn.name)
        = (fun i : Nat => ((fun k => raw.fields.get? k) i).bind
            (fun f : OGRFieldDefn => some f.name)) := by
      funext i
      rw [getFieldDefn_natCast]
      show _ = (raw.fields.get? i).bind _
      cases raw.fields.get? i <;> rfl
    rw [h1, ← List.filterMap_filterMap, filterMap_get?_range]
    induction raw.fields with
    | nil => rfl
    | cons a rest ih => simp [List.filterMap_cons, ih]
  simp only [FeatureDefnFields.getNames, OGRFeatureDefn.GetFieldCount, Int.toNat_ofNat]
  rw [h]

theorem reorder_of_permutation (raw : OGRFeatureDefn OGRFieldDefn) (ks : List Nat)
    (hn : raw.fields.length ≤ 2147483647)
    (hperm : ks.Perm (List.range raw.fields.length)) :
    FeatureDefnFields.reorder { this_ := some raw } (Except.ok (jsIntegers ks))
      = { thrown := none, value := none,
          calls := [FieldDefnCall.GetFieldCount,
            FieldDefnCall.ReorderFieldDefns (ks.map Int.ofNat)],
          state := { this_ := some { fields := ks.filterMap (fun k => raw.fields.get? k) } } } := by
  have hlen : ks.length = raw.fields.length := by
    rw [hperm.length_eq, List.length_range]
  have hjs : (jsIntegers ks).length = raw.fields.length := by
    simp [jsIntegers, hlen]
  have hmem : ∀ k ∈ ks, (k : Int) < (raw.fields.length : Int) := by
    intro k hk
    have := List.mem_range.mp (hperm.mem_iff.mp hk)
    omega
  have hw : wrapInt ((jsIntegers ks).length : Int) = (raw.fields.length : Int) := by
    rw [hjs]
    exact wrapInt_of_range _ (by omega) (by omega)
  have htake : (jsIntegers ks).take raw.fields.length = jsIntegers ks :=
    List.take_of_length_le (by omega)
  have hloop := reorderLoop_integers (raw.fields.length : Int) (by omega) ks hmem
  have hp : (ks.map Int.ofNat).Perm ((List.range raw.fields.length).map Int.ofNat) :=
    hperm.map _
  have hnat : OGRFeatureDefn.ReorderFieldDefns raw (ks.map Int.ofNat)
      = (0, { fields := ks.filterMap (fun k => raw.fields.get? k) }) := by
    unfold OGRFeatureDefn.ReorderFieldDefns
    rw [if_pos hp, List.filterMap_map]
    rfl
  simp only [FeatureDefnFields.reorder, OGRFeatureDefn.GetFieldCount, Int.toNat_ofNat]
  rw [if_neg (by rw [hw]; simp), htake, hloop]
  simp only [hnat]
  rfl

/-- C21: for a feature definition with `n` fields and a map `ks` that is a permutation of
`0 .. n-1`, `reorder(ks)` raises nothing; afterwards the field at each new position `i` is
the field that stood at position `ks[i]` (which exists), `count()` is still `n`, the
fields are a rearrangement of the fields before, and for `ks = [2, 1, 0]` the result of
`getNames()` afterwards is the reverse of the one before. -/
theorem fields_reorder_permutation (raw : OGRFeatureDefn OGRFieldDefn) (ks : List Nat)
    (hn : raw.fields.length ≤ 2147483647)
    (hperm : ks.Perm (List.range raw.fields.length)) :
    (FeatureDefnFields.reorder { this_ := some raw } (Except.ok (jsIntegers ks))).thrown = none ∧
    ∃ raw1 : OGRFeatureDefn OGRFieldDefn,
      (FeatureDefnFields.reorder { this_ := some raw } (Except.ok (jsIntegers ks))).state
        = { this_ := some raw1 } ∧
      (∀ (i k : Nat), ks.get? i = some k →
        raw1.GetFieldDefn (i : Int) = raw.GetFieldDefn (k : Int) ∧
        (raw.GetFieldDefn (k : Int)).isSome = true) ∧
      FeatureDefnFields.__count raw1 = FeatureDefnFields.__count raw ∧
      raw1.fields.Perm raw.fields ∧
      (ks = [2, 1, 0] →
        (FeatureDefnFields.getNames { this_ := some raw1 }).value
          = (FeatureDefnFields.getNames { this_ := some raw }).value.map List.reverse) := by
  rw [reorder_of_permutation raw ks hn hperm]
  refine ⟨rfl, { fields := ks.filterMap (fun k => raw.fields.get? k) }, rfl, ?_, ?_, ?_, ?_⟩
  · intro i k hik
    have hsome : ∀ a ∈ ks, ((fun k => raw.fields.get? k) a).isSome = true := by
      intro a ha
      have hlt : a < raw.fields.length := List.mem_range.mp (hperm.mem_iff.mp ha)
      simp [List.getElem?_eq_getElem hlt]
    rw [getFieldDefn_natCast, getFieldDefn_natCast]
    refine ⟨?_, hsome k (List.get?_mem hik)⟩
    show (ks.filterMap (fun k => raw.fields.get? k)).get? i = _
    rw [filterMap_get?_of_isSome _ ks hsome i, hik]
    rfl
  · have hp : (ks.filterMap (fun k => raw.fields.get? k)).Perm raw.fields := by
      have := hperm.filterMap (fun k => raw.fields.get? k)
      rwa [filterMap_get?_range] at this
    show (((ks.filterMap (fun k => raw.fields.get? k)).length : Nat) : Int)
      = ((raw.fields.length : Nat) : Int)
    rw [hp.length_eq]
  · have := hperm.filterMap (fun k => raw.fields.get? k)
    rwa [filterMap_get?_range] at this
  · intro hks
    subst hks
    have hl : raw.fields.length = 3 := by
      have := hperm.length_eq
      simpa using this.symm
    rw [getNames_value, getNames_value]
    obtain ⟨fields⟩ := raw
    match fields, hl with
    | [a, b, c], _ => simp

theorem fields_reorder_permutation_witness :
    (FeatureDefnFields.getNames sampleDefn).value = some ["id", "name", "height"] ∧
    (FeatureDefnFields.getNames
      (FeatureDefnFields.reorder sampleDefn (Except.ok (jsIntegers [2, 1, 0]))).state).value
      = some ["height", "name", "id"] := by
  obtain ⟨_, raw1, hs, _, _, _, hrev⟩ :=
    fields_reorder_permutation sampleFields [2, 1, 0] (by decide) (by decide)
  have h0 : (FeatureDefnFields.getNames sampleDefn).value = some ["id", "name", "height"] :=
    getNames_value sampleFields
  refine ⟨h0, ?_⟩
  show (FeatureDefnFields.getNames (FeatureDefnFields.reorder { this_ := some sampleFields }
    (Except.ok (jsIntegers [2, 1, 0]))).state).value = _
  rw [hs, hrev rfl]
  show ((FeatureDefnFields.getNames sampleDefn).value).map List.reverse = _
  rw [h0]
  rfl

/-! ## `FeatureDefnFields.indexOf` and `getNames` -/

theorem fieldIndexFrom_spec (EQUAL : String → String → Bool) (name : String) :
    ∀ (fields : List OGRFieldDefn) (i : Int), 0 ≤ i →
      (OGRFeatureDefn.fieldIndexFrom EQUAL name fields i = -1 ↔
        ∀ f ∈ fields, EQUAL f.name name = false) ∧
      (OGRFeatureDefn.fieldIndexFrom EQUAL name fields i ≠ -1 →
        i ≤ OGRFeatureDefn.fieldIndexFrom EQUAL name fields i ∧
        OGRFeatureDefn.fieldIndexFrom EQUAL name fields i < i + (fields.length : Int) ∧
        ∃ f, fields.get? (OGRFeatureDefn.fieldIndexFrom EQUAL name fields i - i).toNat = some f ∧
          EQUAL f.name name = true) := by
  intro fields
  induction fields with
  | nil =>
    intro i _
    simp [OGRFeatureDefn.fieldIndexFrom]
  | cons f rest ih =>
    intro i hi
    unfold OGRFeatureDefn.fieldIndexFrom
    by_cases hf : EQUAL f.name name = true
    · rw [if_pos hf]
      refine ⟨⟨fun h => by omega, fun h => ?_⟩, fun _ => ⟨le_refl _, ?_, f, ?_, hf⟩⟩
      · have := h f (List.mem_cons_self _ _)
        rw [hf] at this
        exact absurd this (by decide)
      · simp only [List.length_cons]
        push_cast
        omega
      · simp
    · rw [if_neg hf]
      have hff : EQUAL f.name name = false := by
        cases h : EQUAL f.name name
        · rfl
        · exact absurd h hf
      obtain ⟨h1, h2⟩ := ih (i + 1) (by omega)
      refine ⟨⟨fun h g hg => ?_, fun h => h1.mpr (fun g hg => h g (List.mem_cons_of_mem _ hg))⟩,
        fun hne => ?_⟩
      · rcases List.mem_cons.mp hg with hgf | hgr
        · rw [hgf]; exact hff
        · exact h1.mp h g hgr
      · obtain ⟨ha, hb, g, hg, hgn⟩ := h2 hne
        refine ⟨by omega, ?_, g, ?_, hgn⟩
        · simp only [List.length_cons]
          push_cast
          omega
        · have hidx : (OGRFeatureDefn.fieldIndexFrom EQUAL name rest (i + 1) - i).toNat
              = (OGRFeatureDefn.fieldIndexFrom EQUAL name rest (i + 1) - (i + 1)).toNat + 1 := by
            omega
          rw [hidx, List.get?_cons_succ]
          exact hg

/-- C22: for an alive feature definition with `n` fields, `getNames()` raises nothing, has
length `n` and its element `i` is the name of the field at index `i`; for every name,
`indexOf(name)` raises nothing and returns `-1` exactly when no field carries the name
(under the library's comparison `EQUAL`), and otherwise an index `j` with `0 <= j < n`
whose field carries the name; so, `EQUAL` relating every name to itself,
`indexOf(getNames()[i])` is not `-1` for every `i < n`. -/
theorem fields_indexOf_getNames (EQUAL : String → String → Bool)
    (raw : OGRFeatureDefn OGRFieldDefn) (hrefl : ∀ s, EQUAL s s = true) :
    (FeatureDefnFields.getNames { this_ := some raw }).thrown = none ∧
    (∃ names : List String,
      (FeatureDefnFields.getNames { this_ := some raw }).value = some names ∧
      (names.length : Int) = FeatureDefnFields.__count raw ∧
      (∀ i : Nat, names.get? i = (raw.GetFieldDefn (i : Int)).map OGRFieldDefn.name) ∧
      (∀ i : Nat, (i : Int) < FeatureDefnFields.__count raw →
        ∃ nm, names.get? i = some nm ∧
          (FeatureDefnFields.indexOf EQUAL { this_ := some raw } (Except.ok nm)).value
            ≠ some (-1))) ∧
    (∀ name : String, ∃ j : Int,
      FeatureDefnFields.indexOf EQUAL { this_ := some raw } (Except.ok name)
        = { thrown := none, value := some j, calls := [FieldDefnCall.GetFieldIndex name],
            state := { this_ := some raw } } ∧
      (j = -1 ↔ ∀ f ∈ raw.fields, EQUAL f.name name = false) ∧
      (j ≠ -1 → 0 ≤ j ∧ j < FeatureDefnFields.__count raw ∧
        ∃ f, raw.GetFieldDefn j = some f ∧ EQUAL f.name name = true)) := by
  have hidx : ∀ name : String,
      FeatureDefnFields.indexOf EQUAL { this_ := some raw } (Except.ok name)
        = { thrown := none, value := some (raw.GetFieldIndex EQUAL name),
            calls := [FieldDefnCall.GetFieldIndex name], state := { this_ := some raw } } :=
    fun _ => rfl
  refine ⟨rfl, ⟨raw.fields.map OGRFieldDefn.name, getNames_value raw, ?_, ?_, ?_⟩, ?_⟩
  · simp [FeatureDefnFields.__count, OGRFeatureDefn.GetFieldCount]
  · intro i
    rw [getFieldDefn_natCast]
    simp
  · intro i hi
    have hlt : i < raw.fields.length := by
      simp only [FeatureDefnFields.__count, OGRFeatureDefn.GetFieldCount] at hi
      omega
    refine ⟨(raw.fields.get ⟨i, hlt⟩).name, by simp [List.getElem?_eq_getElem hlt], ?_⟩
    rw [hidx]
    intro hv
    have hj : raw.GetFieldIndex EQUAL (raw.fields.get ⟨i, hlt⟩).name = -1 := by
      simpa using hv
    have := (fieldIndexFrom_spec EQUAL (raw.fields.get ⟨i, hlt⟩).name raw.fields 0
      (le_refl _)).1.mp hj (raw.fields.get ⟨i, hlt⟩) (List.get_mem _ _ _)
    rw [hrefl] at this
    exact absurd this (by decide)
  · intro name
    obtain ⟨h1, h2⟩ := fieldIndexFrom_spec EQUAL name raw.fields 0 (le_refl _)
    refine ⟨raw.GetFieldIndex EQUAL name, hidx name, h1, fun hne => ?_⟩
    obtain ⟨ha, hb, f, hf, hfn⟩ := h2 hne
    refine ⟨ha, by simpa [FeatureDefnFields.__count, OGRFeatureDefn.GetFieldCount] using hb,
      f, ?_, hfn⟩
    have hnn : raw.GetFieldIndex EQUAL name
        = ((raw.GetFieldIndex EQUAL name).toNat : Int) := by
      have : 0 ≤ raw.GetFieldIndex EQUAL name := ha
      omega
    rw [hnn, getFieldDefn_natCast]
    simpa [OGRFeatureDefn.GetFieldIndex] using hf

theorem fields_indexOf_getNames_witness :
    (FeatureDefnFields.getNames sampleDefn).thrown = none ∧
    (∃ names : List String,
      (FeatureDefnFields.getNames sampleDefn).value = some names ∧
      (names.length : Int) = FeatureDefnFields.__count sampleFields ∧
      (∀ i : Nat, names.get? i = (sampleFields.GetFieldDefn (i : Int)).map OGRFieldDefn.name) ∧
      (∀ i : Nat, (i : Int) < FeatureDefnFields.__count sampleFields →
        ∃ nm, names.get? i = some nm ∧
          (FeatureDefnFields.indexOf sampleEQUAL sampleDefn (Except.ok nm)).value
            ≠ some (-1))) ∧
    (∀ name : String, ∃ j : Int,
      FeatureDefnFields.indexOf sampleEQUAL sampleDefn (Except.ok name)
        = { thrown := none, value := some j, calls := [FieldDefnCall.GetFieldIndex name],
            state := sampleDefn } ∧
      (j = -1 ↔ ∀ f ∈ sampleFields.fields, sampleEQUAL f.name name = false) ∧
      (j ≠ -1 → 0 ≤ j ∧ j < FeatureDefnFields.__count sampleFields ∧
        ∃ f, sampleFields.GetFieldDefn j = some f ∧ sampleEQUAL f.name name = true)) :=
  fields_indexOf_getNames sampleEQUAL sampleFields (fun s => by simp [sampleEQUAL])

/-! ## Destroyed feature definitions -/

/-- C23: when the parent `FeatureDefn` wrapper is not alive, each of `indexOf`, `get`,
`getNames`, `remove`, `reorder` and `add` of its fields collection raises
'FeatureDefn object already destroyed', whatever the arguments and whatever reading them
would have produced, makes no call on the native definition and leaves the wrapper as it
was. -/
theorem destroyed_feature_defn_rejected (feature_def : FeatureDefn OGRFieldDefn)
    (hdead : feature_def.isAlive = false) :
    (∀ (EQUAL : String → String → Bool) (name : ArgResult String),
      FeatureDefnFields.indexOf EQUAL feature_def name
        = FieldsResult.raise (JSError.error "FeatureDefn object already destroyed") feature_def) ∧
    (∀ (info : List JSValue) (field_index : ArgResult Int),
      FeatureDefnFields.get feature_def info field_index
        = FieldsResult.raise (JSError.error "FeatureDefn object already destroyed") feature_def) ∧
    FeatureDefnFields.getNames feature_def
      = FieldsResult.raise (JSError.error "FeatureDefn object already destroyed") feature_def ∧
    (∀ (info : List JSValue) (field_index : ArgResult Int),
      FeatureDefnFields.remove feature_def info field_index
        = FieldsResult.raise (JSError.error "FeatureDefn object already destroyed") feature_def) ∧
    (∀ (field_map : ArgResult (List JSValue)),
      FeatureDefnFields.reorder feature_def field_map
        = FieldsResult.raise (JSError.error "FeatureDefn object already destroyed") feature_def) ∧
    (∀ (IS_WRAPPED : JSValue → String → Bool) (unwrap : JSValue → OGRFieldDefn)
        (info : List JSValue),
      FeatureDefnFields.add IS_WRAPPED unwrap feature_def info
        = (some (JSError.error "FeatureDefn object already destroyed"), feature_def)) ∧
    (FieldsResult.raise (JSError.error "FeatureDefn object already destroyed") feature_def
      : FieldsResult Unit).calls = [] := by
  have h : feature_def.this_ = none := by
    cases hthis : feature_def.this_ with
    | none => rfl
    | some raw => simp [FeatureDefn.isAlive, hthis] at hdead
  refine ⟨?_, ?_, ?_, ?_, ?_, ?_, rfl⟩
  · intro EQUAL name
    simp only [FeatureDefnFields.indexOf, h]
  · intro info field_index
    simp only [FeatureDefnFields.get, h]
  · simp only [FeatureDefnFields.getNames, h]
  · intro info field_index
    simp only [FeatureDefnFields.remove, h]
  · intro field_map
    simp only [FeatureDefnFields.reorder, h]
  · intro IS_WRAPPED unwrap info
    simp only [FeatureDefnFields.add, h]

theorem destroyed_feature_defn_rejected_witness :
    FeatureDefnFields.reorder sampleDeadDefn (Except.ok (jsIntegers [0]))
      = { thrown := some (JSError.error "FeatureDefn object already destroyed"), value := none,
          calls := [], state := sampleDeadDefn } ∧
    FeatureDefnFields.get sampleDeadDefn [] (Except.ok 0)
      = { thrown := some (JSError.error "FeatureDefn object already destroyed"), value := none,
          calls := [], state := sampleDeadDefn } :=
  ⟨(destroyed_feature_defn_rejected sampleDeadDefn rfl).2.2.2.2.1 (Except.ok (jsIntegers [0])),
   (destroyed_feature_defn_rejected sampleDeadDefn rfl).2.1 [] (Except.ok 0)⟩

/-! ## Validation in `FeatureDefnFields.reorder` -/

theorem reorder_failure_unchanged (feature_def : FeatureDefn OGRFieldDefn)
    (field_map : ArgResult (List JSValue)) :
    (FeatureDefnFields.reorder feature_def field_map).state = feature_def ∨
    ∃ arr, FieldDefnCall.ReorderFieldDefns arr ∈
      (FeatureDefnFields.reorder feature_def field_map).calls := by
  unfold FeatureDefnFields.reorder
  cases hthis : feature_def.this_ with
  | none => left; rfl
  | some raw =>
    cases field_map with
    | error e => left; rfl
    | ok m =>
      simp only
      by_cases hlen : wrapInt (m.length : Int) ≠ raw.GetFieldCount
      · rw [if_pos hlen]; left; rfl
      · rw [if_neg hlen]
        cases hloop : FeatureDefnFields.reorderLoop raw.GetFieldCount
            (m.take raw.GetFieldCount.toNat) with
        | error e => left; rfl
        | ok arr =>
          right
          refine ⟨arr, ?_⟩
          simp only
          split <;> simp

theorem reorder_length_checked (raw : OGRFeatureDefn OGRFieldDefn) (m : List JSValue)
    (hn : raw.fields.length ≤ 2147483647) (hm : m.length < 4294967296) :
    FeatureDefnFields.reorder { this_ := some raw } (Except.ok m)
      = { thrown := some (JSError.error "Array length must match field count"), value := none,
          calls := [FieldDefnCall.GetFieldCount], state := { this_ := some raw } }
    ↔ m.length ≠ raw.fields.length := by
  have hw : wrapInt (m.length : Int) = (raw.fields.length : Int) ↔
      m.length = raw.fields.length := by
    unfold wrapInt
    constructor
    · intro h; omega
    · intro h; rw [h]; omega
  simp only [FeatureDefnFields.reorder, OGRFeatureDefn.GetFieldCount, Int.toNat_ofNat]
  constructor
  · intro h hlen
    rw [if_neg (by rw [hw.mpr hlen]; simp)] at h
    cases hloop : FeatureDefnFields.reorderLoop (raw.fields.length : Int)
        (m.take raw.fields.length) with
    | error e =>
      rw [hloop] at h
      simp only at h
      have he : e = JSError.error "Array length must match field count" := by
        have := congrArg FieldsResult.thrown h
        simpa using this
      subst he
      revert hloop
      generalize hl : m.take raw.fields.length = l
      have hlen2 : l.length = raw.fields.length := by
        rw [← hl, List.length_take]; omega
      clear hl h hw hm hlen
      generalize (raw.fields.length : Int) = n
      clear hlen2 hn
      induction l with
      | nil => intro h; cases h
      | cons v rest ih =>
        intro h
        unfold FeatureDefnFields.reorderLoop at h
        split at h
        · simp at h
        · simp only at h
          split at h
          · simp at h
          · cases hr : FeatureDefnFields.reorderLoop n rest with
            | error e2 =>
              rw [hr] at h
              simp only at h
              cases h
              exact ih hr
            | ok ks =>
              rw [hr] at h
              cases h
    | ok arr =>
      rw [hloop] at h
      simp only at h
      split at h
      · have := congrArg FieldsResult.calls h
        simp at this
      · have := congrArg FieldsResult.calls h
        simp at this
  · intro hlen
    rw [if_pos (fun h => hlen (hw.mp h))]

/-- C26, the code at a failing input: on a definition with the two fields `id`, `name`,
`reorder([4294967297, 4294967296])` has the right length and its first element is a
number outside `[0, 2)`, yet no exception is raised: the native `ReorderFieldDefns` is
called with `[1, 0]` and the two fields change places. -/
theorem reorder_validation_passes_large_number :
    FeatureDefnFields.reorder { this_ := some sampleTwoFields }
      (Except.ok [JSValue.number 4294967297, JSValue.number 4294967296])
      = { thrown := none, value := none,
          calls := [FieldDefnCall.GetFieldCount, FieldDefnCall.ReorderFieldDefns [1, 0]],
          state := { this_ := some { fields := [⟨"name", 4⟩, ⟨"id", 0⟩] } } } := by
  decide

/-- C28, the code at a failing input: on a definition with the two fields `id`, `name`,
`reorder([1.5, 0])` contains the non-integral number `1.5`, yet no exception is raised:
`1.5` is cut down to `1`, the native `ReorderFieldDefns` is called with `[1, 0]` and the
two fields change places. -/
theorem reorder_accepts_fraction :
    FeatureDefnFields.reorder { this_ := some sampleTwoFields }
      (Except.ok [JSValue.number oneAndAHalf, JSValue.number 0])
      = { thrown := none, value := none,
          calls := [FieldDefnCall.GetFieldCount, FieldDefnCall.ReorderFieldDefns [1, 0]],
          state := { this_ := some { fields := [⟨"name", 4⟩, ⟨"id", 0⟩] } } } := by
  decide

/-- C29, the code at the failing input: on a definition with the single field `id`,
`reorder([4294967296])` passes validation although `4294967296` is not below the field
count `1`: the value is narrowed to the `int` `0`, which is what the native
`ReorderFieldDefns` receives. -/
theorem reorder_narrowing_accepts :
    (JSValue.number 4294967296).toInt64 = 4294967296 ∧
    wrapInt 4294967296 = 0 ∧
    FeatureDefnFields.reorder { this_ := some sampleOneField }
      (Except.ok [JSValue.number 4294967296])
      = { thrown := none, value := none,
          calls := [FieldDefnCall.GetFieldCount, FieldDefnCall.ReorderFieldDefns [0]],
          state := { this_ := some sampleOneField } } := by
  decide

/-! ## `FeatureDefn`: construction, cloning, release -/

theorem heap_getD_update_self (h : DefnHeap) (p : Handle) (f : DefnCell → DefnCell)
    (hp : p < h.length) : (h.update p f).getD p default = f (h.getD p default) := by
  simp [DefnHeap.update, List.getD_eq_getElem?_getD, List.getElem?_set, hp]

theorem heap_getD_update_ne (h : DefnHeap) (p q : Handle) (f : DefnCell → DefnCell)
    (hne : q ≠ p) : (h.update p f).getD q default = h.getD q default := by
  simp [DefnHeap.update, List.getD_eq_getElem?_getD, List.getElem?_set, Ne.symm hne]

theorem heap_length_update (h : DefnHeap) (p : Handle) (f : DefnCell → DefnCell) :
    (h.update p f).length = h.length := by
  simp [DefnHeap.update]

theorem heap_getD_append_length (h : DefnHeap) (c : DefnCell) :
    (h ++ [c]).getD h.length default = c := by
  simp [List.getD_eq_getElem?_getD]

theorem heap_getD_append_lt (h : DefnHeap) (c : DefnCell) (q : Handle) (hq : q < h.length) :
    (h ++ [c]).getD q default = h.getD q default := by
  simp [List.getD_eq_getElem?_getD, List.getElem?_append_left hq]

theorem new_borrowed_result (heap : DefnHeap) (d : Handle) :
    FeatureDefn.New (some d) false heap
      = { value := some { this_ := some heap.length, owned_ := true },
          heap := DefnHeap.update
            (heap ++ [{ heap.getD d default with refCount := 0, deleted := false }]) heap.length
            (fun c => { c with refCount := c.refCount + 1 }),
          calls := [DefnCall.Clone d, DefnCall.Reference heap.length] } := rfl

theorem new_borrowed_cell (heap : DefnHeap) (d : Handle) :
    (FeatureDefn.New (some d) false heap).heap.getD heap.length default
      = { heap.getD d default with refCount := 1, deleted := false } := by
  rw [new_borrowed_result]
  dsimp only
  rw [heap_getD_update_self _ _ _ (by simp), heap_getD_append_length]
  rfl

theorem new_borrowed_frame (heap : DefnHeap) (d q : Handle) (hq : q < heap.length) :
    (FeatureDefn.New (some d) false heap).heap.getD q default = heap.getD q default := by
  rw [new_borrowed_result]
  dsimp only
  rw [heap_getD_update_ne _ _ _ _ (Nat.ne_of_lt hq), heap_getD_append_lt _ _ _ hq]

/-- C24: for a native feature definition at the valid pointer `d`, `New(d)` is
`New(d, false)`, which makes one native `Clone` of `d` and wraps the new definition, not
`d`: the new definition has the content of `d`, `d` itself is as before, and every later
change made through the wrapper (any native method on the wrapped definition, the
`geomType` / `geomIgnored` / `styleIgnored` setters, `fields.add`, `fields.remove`,
`fields.reorder`) leaves `d` as it was; `New(d, true)` wraps `d` itself; a null pointer
yields the null value, with no native call. -/
theorem new_clones_borrowed (heap : DefnHeap) (d : Handle) (hd : d < heap.length) :
    FeatureDefn.New1 (some d) heap = FeatureDefn.New (some d) false heap ∧
    (FeatureDefn.New (some d) false heap).value
      = some { this_ := some heap.length, owned_ := true } ∧
    heap.length ≠ d ∧
    (FeatureDefn.New (some d) false heap).calls
      = [DefnCall.Clone d, DefnCall.Reference heap.length] ∧
    (FeatureDefn.New (some d) false heap).heap.getD heap.length default
      = { heap.getD d default with refCount := 1, deleted := false } ∧
    (FeatureDefn.New (some d) false heap).heap.getD d default = heap.getD d default ∧
    (∀ f : DefnCell → DefnCell,
      ((FeatureDefn.New (some d) false heap).heap.update heap.length f).getD d default
        = heap.getD d default) ∧
    (∀ v : JSValue,
      (FeatureDefn.geomTypeSetter heap.length v
        (FeatureDefn.New (some d) false heap).heap).heap.getD d default = heap.getD d default ∧
      (FeatureDefn.geomIgnoredSetter heap.length v
        (FeatureDefn.New (some d) false heap).heap).heap.getD d default = heap.getD d default ∧
      (FeatureDefn.styleIgnoredSetter heap.length v
        (FeatureDefn.New (some d) false heap).heap).heap.getD d default
          = heap.getD d default) ∧
    (∀ (IS_WRAPPED : JSValue → String → Bool) (unwrap : JSValue → OGRFieldDefn)
        (info : List JSValue),
      ((FeatureDefn.New (some d) false heap).heap.fieldsMethod heap.length
        (fun w => (FeatureDefnFields.add IS_WRAPPED unwrap w info).2)).getD d default
        = heap.getD d default) ∧
    (∀ (info : List JSValue) (field_index : ArgResult Int),
      ((FeatureDefn.New (some d) false heap).heap.fieldsMethod heap.length
        (fun w => (FeatureDefnFields.remove w info field_index).state)).getD d default
        = heap.getD d default) ∧
    (∀ (field_map : ArgResult (List JSValue)),
      ((FeatureDefn.New (some d) false heap).heap.fieldsMethod heap.length
        (fun w => (FeatureDefnFields.reorder w field_map).state)).getD d default
        = heap.getD d default) ∧
    (FeatureDefn.New (some d) true heap).value = some { this_ := some d, owned_ := true } ∧
    (∀ owned : Bool,
      FeatureDefn.New none owned heap = { value := none, heap := heap, calls := [] }) ∧
    FeatureDefn.New1 none heap = { value := none, heap := heap, calls := [] } := by
  have hne : d ≠ heap.length := Nat.ne_of_lt hd
  have hframe := new_borrowed_frame heap d d hd
  have hupd : ∀ f : DefnCell → DefnCell,
      ((FeatureDefn.New (some d) false heap).heap.update heap.length f).getD d default
        = heap.getD d default := by
    intro f
    rw [heap_getD_update_ne _ _ _ _ hne, hframe]
  refine ⟨rfl, rfl, fun h => hne h.symm, rfl, new_borrowed_cell heap d, hframe, hupd, ?_,
    fun _ _ _ => hupd _, fun _ _ => hupd _, fun _ => hupd _, rfl, fun _ => rfl, rfl⟩
  intro v
  refine ⟨?_, ?_, ?_⟩
  · unfold FeatureDefn.geomTypeSetter
    split
    · exact hframe
    · dsimp only
      exact hupd _
  · unfold FeatureDefn.geomIgnoredSetter
    split
    · exact hframe
    · dsimp only
      exact hupd _
  · unfold FeatureDefn.styleIgnoredSetter
    split
    · exact hframe
    · dsimp only
      exact hupd _

theorem new_clones_borrowed_witness :
    (FeatureDefn.New (some 0) false sampleHeap).value
      = some { this_ := some 1, owned_ := true } ∧
    ((FeatureDefn.geomTypeSetter 1 (JSValue.number 3)
      (FeatureDefn.New (some 0) false sampleHeap).heap).heap.getD 0 default).geomType = 1 ∧
    ((FeatureDefn.geomTypeSetter 1 (JSValue.number 3)
      (FeatureDefn.New (some 0) false sampleHeap).heap).heap.getD 1 default).geomType = 3 ∧
    (((FeatureDefn.New (some 0) false sampleHeap).heap.fieldsMethod 1
      (fun w => (FeatureDefnFields.reorder w (Except.ok (jsIntegers [2, 1, 0]))).state)).getD 0
        default).fields = sampleFields.fields ∧
    (((FeatureDefn.New (some 0) false sampleHeap).heap.fieldsMethod 1
      (fun w => (FeatureDefnFields.reorder w (Except.ok (jsIntegers [2, 1, 0]))).state)).getD 1
        default).fields = [⟨"height", 2⟩, ⟨"name", 4⟩, ⟨"id", 0⟩] := by
  have h := new_clones_borrowed sampleHeap 0 (by decide)
  refine ⟨h.2.1, ?_, by decide, ?_, by decide⟩
  · exact congrArg DefnCell.geomType (h.2.2.2.2.2.2.2.1 (JSValue.number 3)).1
  · exact congrArg DefnCell.fields
      (h.2.2.2.2.2.2.2.2.2.2.1 (Except.ok (jsIntegers [2, 1, 0])))

theorem heap_reference_count (h : DefnHeap) (p : Handle) (hp : p < h.length) :
    ((h.Reference p).getD p default).refCount = (h.getD p default).refCount + 1 := by
  unfold DefnHeap.Reference
  rw [heap_getD_update_self _ _ _ hp]

theorem heap_release_count (h : DefnHeap) (p : Handle) (hp : p < h.length) :
    ((h.Release p).getD p default).refCount = (h.getD p default).refCount - 1 := by
  unfold DefnHeap.Release
  rw [heap_getD_update_self _ _ _ hp]

theorem heap_length_reference (h : DefnHeap) (p : Handle) :
    (h.Reference p).length = h.length := heap_length_update _ _ _

theorem destroy_owned (h : DefnHeap) (p : Handle) :
    FeatureDefn.destroy { this_ := some p, owned_ := true } h
      = { value := { this_ := none, owned_ := true }, heap := h.Release p,
          calls := [DefnCall.Release p] } := rfl

theorem construct_destroy_count (h : DefnHeap) (p : Handle) (hp : p < h.length) :
    ((FeatureDefn.destroy { this_ := some p, owned_ := true } (h.Reference p)).heap.getD p
      default).refCount = (h.getD p default).refCount := by
  rw [destroy_owned]
  dsimp only
  rw [heap_release_count _ _ (by rw [heap_length_reference]; exact hp),
    heap_reference_count _ _ hp]
  omega

theorem clone_result (p : Handle) (heap : DefnHeap) :
    FeatureDefn.clone p heap
      = { value := some { this_ := some (heap.length + 1), owned_ := true },
          heap := DefnHeap.Reference
            ((heap ++ [{ heap.getD p default with refCount := 0, deleted := false }]) ++
              [{ heap.getD p default with refCount := 0, deleted := false }])
            (heap.length + 1),
          calls := [DefnCall.Clone p, DefnCall.Clone heap.length,
            DefnCall.Reference (heap.length + 1)] } := by
  have hc : (heap ++ [{ heap.getD p default with refCount := 0, deleted := false }]).getD
      heap.length default = { heap.getD p default with refCount := 0, deleted := false } :=
    heap_getD_append_length _ _
  simp only [FeatureDefn.clone, FeatureDefn.New1, FeatureDefn.New, DefnHeap.Clone,
    List.length_append, List.length_singleton, hc]
  rfl

/-- C25: every wrapper built by the JavaScript constructor, by `New(def)`, by
`New(def, owned)` for either value of `owned`, or by `clone` has `owned_ = true` and the
construction makes exactly one `Reference` call, on the native definition the wrapper
holds, whose count goes up by one (from `0` for a definition created or cloned by the
construction); destroying the wrapper makes exactly one `Release` call on that
definition, lowers its count by one, touches no other definition and clears the handle;
destroying it again makes no call and changes nothing; so after construction and
destruction the count of the wrapped definition is what it was before. -/
theorem feature_defn_reference_balance (heap : DefnHeap) (d : Handle) (hd : d < heap.length) :
    ((FeatureDefn.New_js true [] heap).value
        = Except.ok { this_ := some heap.length, owned_ := true } ∧
      (FeatureDefn.New_js true [] heap).calls
        = [DefnCall.create, DefnCall.Reference heap.length] ∧
      ((FeatureDefn.New_js true [] heap).heap.getD heap.length default).refCount = 1 ∧
      ((FeatureDefn.destroy { this_ := some heap.length, owned_ := true }
        (FeatureDefn.New_js true [] heap).heap).heap.getD heap.length default).refCount = 0) ∧
    (FeatureDefn.New1 (some d) heap = FeatureDefn.New (some d) false heap ∧
      (FeatureDefn.New (some d) false heap).value
        = some { this_ := some heap.length, owned_ := true } ∧
      (FeatureDefn.New (some d) false heap).calls
        = [DefnCall.Clone d, DefnCall.Reference heap.length] ∧
      ((FeatureDefn.New (some d) false heap).heap.getD heap.length default).refCount = 1 ∧
      ((FeatureDefn.destroy { this_ := some heap.length, owned_ := true }
        (FeatureDefn.New (some d) false heap).heap).heap.getD heap.length default).refCount
        = 0) ∧
    ((FeatureDefn.New (some d) true heap).value = some { this_ := some d, owned_ := true } ∧
      (FeatureDefn.New (some d) true heap).calls = [DefnCall.Reference d] ∧
      ((FeatureDefn.New (some d) true heap).heap.getD d default).refCount
        = (heap.getD d default).refCount + 1 ∧
      ((FeatureDefn.destroy { this_ := some d, owned_ := true }
        (FeatureDefn.New (some d) true heap).heap).heap.getD d default).refCount
        = (heap.getD d default).refCount) ∧
    ((FeatureDefn.clone d heap).value
        = some { this_ := some (heap.length + 1), owned_ := true } ∧
      (FeatureDefn.clone d heap).calls.count (DefnCall.Reference (heap.length + 1)) = 1 ∧
      (∀ q, DefnCall.Reference q ∈ (FeatureDefn.clone d heap).calls → q = heap.length + 1) ∧
      ((FeatureDefn.clone d heap).heap.getD (heap.length + 1) default).refCount = 1 ∧
      ((FeatureDefn.destroy { this_ := some (heap.length + 1), owned_ := true }
        (FeatureDefn.clone d heap).heap).heap.getD (heap.length + 1) default).refCount = 0) ∧
    (∀ (h : DefnHeap) (p : Handle), p < h.length →
      FeatureDefn.destroy { this_ := some p, owned_ := true } h
        = { value := { this_ := none, owned_ := true }, heap := h.Release p,
            calls := [DefnCall.Release p] } ∧
      ((h.Release p).getD p default).refCount = (h.getD p default).refCount - 1 ∧
      (∀ q, q ≠ p → (h.Release p).getD q default = h.getD q default) ∧
      FeatureDefn.destroy (FeatureDefn.destroy { this_ := some p, owned_ := true } h).value
          (FeatureDefn.destroy { this_ := some p, owned_ := true } h).heap
        = { value := { this_ := none, owned_ := true }, heap := h.Release p, calls := [] }) := by
  have hfresh : ∀ (c : DefnCell) (h : DefnHeap), c.refCount = 0 →
      (((h ++ [c]).Reference h.length).getD h.length default).refCount = 1 ∧
      ((FeatureDefn.destroy { this_ := some h.length, owned_ := true }
        ((h ++ [c]).Reference h.length)).heap.getD h.length default).refCount = 0 := by
    intro c h hc
    have hl : h.length < (h ++ [c]).length := by simp
    refine ⟨?_, ?_⟩
    · rw [heap_reference_count _ _ hl, heap_getD_append_length, hc]
      rfl
    · rw [construct_destroy_count _ _ hl, heap_getD_append_length, hc]
  refine ⟨⟨rfl, rfl, ?_, ?_⟩, ⟨rfl, rfl, rfl, ?_, ?_⟩, ⟨rfl, rfl, ?_, ?_⟩,
    ⟨?_, ?_, ?_, ?_, ?_⟩, ?_⟩
  · exact (hfresh default heap rfl).1
  · exact (hfresh default heap rfl).2
  · exact (hfresh { heap.getD d default with refCount := 0, deleted := false } heap rfl).1
  · exact (hfresh { heap.getD d default with refCount := 0, deleted := false } heap rfl).2
  · exact heap_reference_count heap d hd
  · exact construct_destroy_count heap d hd
  · rw [clone_result]
  · rw [clone_result]
    simp [List.count_cons]
  · rw [clone_result]
    intro q hq
    simpa using hq
  · rw [clone_result]
    have := (hfresh { heap.getD d default with refCount := 0, deleted := false }
      (heap ++ [{ heap.getD d default with refCount := 0, deleted := false }]) rfl).1
    simpa using this
  · rw [clone_result]
    have := (hfresh { heap.getD d default with refCount := 0, deleted := false }
      (heap ++ [{ heap.getD d default with refCount := 0, deleted := false }]) rfl).2
    simpa using this
  · intro h p hp
    refine ⟨rfl, heap_release_count h p hp, ?_, rfl⟩
    intro q hq
    exact heap_getD_update_ne _ _ _ _ hq

theorem feature_defn_reference_balance_witness :
    ((FeatureDefn.New (some 0) true sampleHeap).heap.getD 0 default).refCount = 2 ∧
    ((FeatureDefn.destroy { this_ := some 0, owned_ := true }
      (FeatureDefn.New (some 0) true sampleHeap).heap).heap.getD 0 default).refCount = 1 := by
  have h := (feature_defn_reference_balance sampleHeap 0 (by decide)).2.2.1
  exact ⟨h.2.2.1, h.2.2.2⟩

/-- C30, the code at the failing input: `clone()` on a wrapper of the only definition in
memory (pointer `0`) makes two native `Clone` calls, the second one on the first copy;
the wrapper handed back holds the second copy (pointer `2`), and the first copy
(pointer `1`) is left allocated with reference count `0`, held by no wrapper and never
released. -/
theorem clone_leaves_orphan :
    (FeatureDefn.clone 0 sampleHeap).calls
      = [DefnCall.Clone 0, DefnCall.Clone 1, DefnCall.Reference 2] ∧
    (FeatureDefn.clone 0 sampleHeap).value = some { this_ := some 2, owned_ := true } ∧
    (FeatureDefn.clone 0 sampleHeap).heap.length = 3 ∧
    ((FeatureDefn.clone 0 sampleHeap).heap.getD 1 default).refCount = 0 ∧
    ((FeatureDefn.clone 0 sampleHeap).heap.getD 1 default).deleted = false ∧
    ((FeatureDefn.clone 0 sampleHeap).heap.getD 2 default).refCount = 1 := by
  decide

/-! ## `LineStringPoints.set` -/

theorem points_set_count (l : List OGRPoint) (n : Nat) (p : OGRPoint) :
    ({ points := l.set n p } : OGRLineString OGRPoint).getNumPoints
      = ({ points := l } : OGRLineString OGRPoint).getNumPoints := by
  simp [OGRLineString.getNumPoints]

theorem make3D_count (g : OGRLineString OGRPoint) :
    g.Make3D.getNumPoints = g.getNumPoints := by
  simp [OGRLineString.Make3D, OGRLineString.getNumPoints]

theorem points_set_get_self (l : List OGRPoint) (i : Int) (p : OGRPoint) (h0 : 0 ≤ i)
    (hn : i < (l.length : Int)) :
    LineStringPoints.get ({ points := l.set i.toNat p } : OGRLineString OGRPoint)
      (Except.ok i) = Except.ok p := by
  have hlt : i.toNat < l.length := by omega
  simp only [LineStringPoints.get, OGRLineString.getNumPoints, OGRLineString.getPoint,
    List.length_set]
  rw [if_neg (by omega), if_neg (by omega)]
  simp [List.getD_eq_getElem?_getD, List.getElem?_set, hlt]

theorem points_set_get_ne (l : List OGRPoint) (i j : Int) (p : OGRPoint) (h0 : 0 ≤ i)
    (hne : j ≠ i) :
    LineStringPoints.get ({ points := l.set i.toNat p } : OGRLineString OGRPoint)
      (Except.ok j)
      = LineStringPoints.get ({ points := l } : OGRLineString OGRPoint) (Except.ok j) := by
  simp only [LineStringPoints.get, OGRLineString.getNumPoints, OGRLineString.getPoint,
    List.length_set]
  by_cases hj : j < 0 ∨ j ≥ (l.length : Int)
  · rw [if_pos hj, if_pos hj]
  · rw [if_neg hj, if_neg hj, if_neg (by omega), if_neg (by omega)]
    have hnat : i.toNat ≠ j.toNat := by omega
    simp [List.getD_eq_getElem?_getD, List.getElem?_set, hnat]

theorem make3D_get_coordinates (g : OGRLineString OGRPoint) (j : Int) :
    (LineStringPoints.get g.Make3D (Except.ok j)).map OGRPoint.coordinates
      = (LineStringPoints.get g (Except.ok j)).map OGRPoint.coordinates := by
  simp only [LineStringPoints.get, make3D_count]
  by_cases hj : j < 0 ∨ j ≥ g.getNumPoints
  · rw [if_pos hj, if_pos hj]
  · rw [if_neg hj, if_neg hj]
    have hlt : j.toNat < g.points.length := by
      simp only [OGRLineString.getNumPoints] at hj
      omega
    simp only [OGRLineString.getPoint, OGRLineString.Make3D]
    rw [if_neg (by omega), if_neg (by omega)]
    simp [Except.map, List.getD_eq_getElem?_getD, List.getElem?_map,
      List.getElem?_eq_getElem hlt, OGRPoint.coordinates, OGRPoint.getZ]

theorem not3D_no_z (g : OGRLineString OGRPoint) (h : g.is3D = false) :
    (∀ p ∈ g.points, p.z = none) ∧ ∀ n, (g.points.getD n default).z = none := by
  have hall : ∀ p ∈ g.points, p.z = none := by
    intro p hp
    have := List.any_eq_false.mp h p hp
    cases hz : p.z with
    | none => rfl
    | some z => simp [hz] at this
  refine ⟨hall, fun n => ?_⟩
  by_cases hn : n < g.points.length
  · have : g.points.getD n default = g.points.get ⟨n, hn⟩ := by
      simp [List.getD_eq_getElem?_getD, List.getElem?_eq_getElem hn]
    rw [this]
    exact hall _ (List.get_mem _ _ _)
  · have : g.points.getD n default = default := by
      simp [List.getD_eq_getElem?_getD, List.getElem?_eq_none (by omega : g.points.length ≤ n)]
    rw [this]
    rfl

theorem uniform3D_all_z (g : OGRLineString OGRPoint) (hu : g.uniform = true)
    (h : g.is3D = true) :
    (∀ p ∈ g.points, p.z.isSome = true) ∧
    ∀ n, n < g.points.length → (g.points.getD n default).z.isSome = true := by
  have hall : ∀ p ∈ g.points, p.z.isSome = true := by
    simp only [OGRLineString.uniform, Bool.or_eq_true, List.all_eq_true] at hu
    rcases hu with hs | hnone
    · exact hs
    · obtain ⟨q, hq, hqz⟩ := List.any_eq_true.mp h
      have := hnone q hq
      cases hz : q.z with
      | none => simp [hz] at hqz
      | some z => simp [hz] at this
  refine ⟨hall, fun n hn => ?_⟩
  have : g.points.getD n default = g.points.get ⟨n, hn⟩ := by
    simp [List.getD_eq_getElem?_getD, List.getElem?_eq_getElem hn]
  rw [this]
  exact hall _ (List.get_mem _ _ _)

theorem set_keeps_uniform (g : OGRLineString OGRPoint) (m3 : Bool) (n : Nat) (p : OGRPoint)
    (hu : g.uniform = true) (hm : m3 = true → g.is3D = false)
    (hp : p.z.isSome = (g.is3D || m3)) :
    OGRLineString.uniform
      { points := (if m3 = true then g.Make3D else g).points.set n p } = true := by
  simp only [OGRLineString.uniform, Bool.or_eq_true, List.all_eq_true]
  cases m3 with
  | true =>
    left
    intro a ha
    rcases List.mem_or_eq_of_mem_set ha with hmem | heq
    · simp only [if_true, OGRLineString.Make3D, List.mem_map] at hmem
      obtain ⟨b, _, hb⟩ := hmem
      rw [← hb]
      rfl
    · rw [heq, hp]
      simp
  | false =>
    simp only [Bool.false_eq_true, if_false, Bool.or_false] at hp ⊢
    cases h3 : g.is3D with
    | true =>
      left
      intro a ha
      rcases List.mem_or_eq_of_mem_set ha with hmem | heq
      · exact (uniform3D_all_z g hu h3).1 a hmem
      · rw [heq, hp, h3]
    | false =>
      right
      intro a ha
      rcases List.mem_or_eq_of_mem_set ha with hmem | heq
      · rw [(not3D_no_z g h3).1 a hmem]
        rfl
      · rw [h3] at hp
        rw [heq]
        cases hz : p.z with
        | none => rfl
        | some z => simp [hz] at hp

theorem set_out_of_range (IS_WRAPPED : JSValue → String → Bool) (unwrap : JSValue → OGRPoint)
    (dbl : JSValue → String → ArgResult Rat) (geom : OGRLineString OGRPoint) (i : Int)
    (info : List JSValue) (h : i < 0 ∨ i ≥ geom.getNumPoints) :
    LineStringPoints.set IS_WRAPPED unwrap dbl geom (Except.ok i) info
      = (some (JSError.error "Point index out of range"), geom) := by
  simp only [LineStringPoints.set]
  rw [if_pos h]

theorem isNumber_number (v : JSValue) (h : v.IsNumber = true) :
    v = JSValue.number v.toDouble := by
  cases v <;> simp [JSValue.IsNumber, JSValue.toDouble] at h ⊢

theorem setPointXY_shape (geom : OGRLineString OGRPoint) (i : Int) (x y : Rat)
    (pointGiven : Prop) (hin : i.toNat < geom.points.length) :
    ∃ (p : OGRPoint) (m3 : Bool),
      geom.setPointXY i x y
        = { points := (if m3 = true then geom.Make3D else geom).points.set i.toNat p } ∧
      p.x = x ∧ p.y = y ∧
      (m3 = true → geom.is3D = false ∧ (none : Option Rat) ≠ none) ∧
      (geom.is3D = false → pointGiven → p.z = none ∧ m3 = false) ∧
      (geom.uniform = true → p.z.isSome = (geom.is3D || m3)) := by
  refine ⟨{ geom.points.getD i.toNat default with x := x, y := y }, false, rfl, rfl, rfl,
    fun h => by simp at h, fun h3 _ => ⟨(not3D_no_z geom h3).2 _, rfl⟩, fun hu => ?_⟩
  show (geom.points.getD i.toNat default).z.isSome = (geom.is3D || false)
  cases h3 : geom.is3D with
  | true => exact (uniform3D_all_z geom hu h3).2 _ hin
  | false => rw [(not3D_no_z geom h3).2 _]; rfl

theorem setPointXYZ_shape (geom : OGRLineString OGRPoint) (i : Int) (x y z : Rat) :
    ∃ (p : OGRPoint) (m3 : Bool),
      geom.setPointXYZ i x y z
        = { points := (if m3 = true then geom.Make3D else geom).points.set i.toNat p } ∧
      p.x = x ∧ p.y = y ∧ p.z = some z ∧
      (m3 = true → geom.is3D = false) ∧
      (geom.is3D = true → m3 = false) ∧
      (p.z.isSome = (geom.is3D || m3)) := by
  refine ⟨⟨x, y, some z⟩, !geom.is3D, ?_, rfl, rfl, rfl, ?_, ?_, ?_⟩
  · unfold OGRLineString.setPointXYZ
    cases geom.is3D <;> rfl
  · intro h
    cases h3 : geom.is3D with
    | true => simp [h3] at h
    | false => rfl
  · intro h
    simp [h]
  · cases geom.is3D <;> rfl

/-- How a call of `set` with an index in range ends, by the coordinates the arguments
give: none, and the call fails with another message than the one of the index check and
changes nothing; or some, and the point at the index is written, after the line string
has been made three-dimensional when a `z` is written to a two-dimensional one. -/
theorem set_in_range (IS_WRAPPED : JSValue → String → Bool) (unwrap : JSValue → OGRPoint)
    (dbl : JSValue → String → ArgResult Rat) (geom : OGRLineString OGRPoint) (i : Int)
    (info : List JSValue) (h : ¬ (i < 0 ∨ i ≥ geom.getNumPoints))
    (hmsg : ∀ obj key e, dbl obj key = Except.error e →
      e ≠ JSError.error "Point index out of range") :
    (LineStringPoints.givenPoint IS_WRAPPED unwrap dbl info.tail = none ∧
      ∃ e, e ≠ JSError.error "Point index out of range" ∧
        LineStringPoints.set IS_WRAPPED unwrap dbl geom (Except.ok i) info = (some e, geom)) ∨
    (∃ (q p : OGRPoint) (m3 : Bool),
      LineStringPoints.givenPoint IS_WRAPPED unwrap dbl info.tail = some q ∧
      LineStringPoints.set IS_WRAPPED unwrap dbl geom (Except.ok i) info
        = (none, { points := (if m3 = true then geom.Make3D else geom).points.set i.toNat p }) ∧
      p.x = q.x ∧ p.y = q.y ∧
      (m3 = true → geom.is3D = false ∧ q.z ≠ none) ∧
      ((geom.is3D = true ∨ ∀ a, info.tail = [a] → IS_WRAPPED a "Point" = false) →
        ∀ z, q.z = some z → p.z = some z) ∧
      (geom.is3D = false → (∃ a, info.tail = [a] ∧ IS_WRAPPED a "Point" = true) →
        p.z = none ∧ m3 = false) ∧
      (geom.uniform = true → p.z.isSome = (geom.is3D || m3))) := by
  have hin : i.toNat < geom.points.length := by
    simp only [OGRLineString.getNumPoints] at h
    omega
  have hXY : ∀ (x y : Rat) (g2 : OGRLineString OGRPoint),
      g2 = geom.setPointXY i x y →
      (∀ a, info.tail = [a] → IS_WRAPPED a "Point" = false) →
      ∃ (q p : OGRPoint) (m3 : Bool), some (⟨x, y, none⟩ : OGRPoint) = some q ∧
        ((none : Option JSError), g2) = (none, { points :=
          (if m3 = true then geom.Make3D else geom).points.set i.toNat p }) ∧
        p.x = q.x ∧ p.y = q.y ∧
        (m3 = true → geom.is3D = false ∧ q.z ≠ none) ∧
        ((geom.is3D = true ∨ ∀ a, info.tail = [a] → IS_WRAPPED a "Point" = false) →
          ∀ z, q.z = some z → p.z = some z) ∧
        (geom.is3D = false → (∃ a, info.tail = [a] ∧ IS_WRAPPED a "Point" = true) →
          p.z = none ∧ m3 = false) ∧
        (geom.uniform = true → p.z.isSome = (geom.is3D || m3)) := by
    intro x y g2 hg2 hnp
    obtain ⟨p, m3, hs, hx, hy, hm, h5, h6⟩ :=
      setPointXY_shape geom i x y (∃ a, info.tail = [a] ∧ IS_WRAPPED a "Point" = true) hin
    refine ⟨⟨x, y, none⟩, p, m3, rfl, by rw [hg2, hs], hx, hy, ?_, ?_, h5, h6⟩
    · intro hm3
      exact absurd rfl (hm hm3).2
    · intro _ z hz
      simp at hz
  have hXYZ : ∀ (x y z : Rat) (g2 : OGRLineString OGRPoint),
      g2 = geom.setPointXYZ i x y z →
      (∀ a, info.tail = [a] → IS_WRAPPED a "Point" = false) →
      ∃ (q p : OGRPoint) (m3 : Bool), some (⟨x, y, some z⟩ : OGRPoint) = some q ∧
        ((none : Option JSError), g2) = (none, { points :=
          (if m3 = true then geom.Make3D else geom).points.set i.toNat p }) ∧
        p.x = q.x ∧ p.y = q.y ∧
        (m3 = true → geom.is3D = false ∧ q.z ≠ none) ∧
        ((geom.is3D = true ∨ ∀ a, info.tail = [a] → IS_WRAPPED a "Point" = false) →
          ∀ z, q.z = some z → p.z = some z) ∧
        (geom.is3D = false → (∃ a, info.tail = [a] ∧ IS_WRAPPED a "Point" = true) →
          p.z = none ∧ m3 = false) ∧
        (geom.uniform = true → p.z.isSome = (geom.is3D || m3)) := by
    intro x y z g2 hg2 hnp
    obtain ⟨p, m3, hs, hx, hy, hz, hm, _, h6⟩ := setPointXYZ_shape geom i x y z
    refine ⟨⟨x, y, some z⟩, p, m3, rfl, by rw [hg2, hs], hx, hy, ?_, ?_, ?_, fun _ => h6⟩
    · intro hm3
      exact ⟨hm hm3, by simp⟩
    · intro _ z2 hz2
      rw [hz]
      exact hz2
    · intro _ hpg
      obtain ⟨a, ha, hwa⟩ := hpg
      rw [hnp a ha] at hwa
      exact absurd hwa (by decide)
  simp only [LineStringPoints.set]
  rw [if_neg h]
  match info with
  | [] =>
    left
    refine ⟨rfl, JSError.error "Number expected for second argument", by decide, ?_⟩
    simp [JSValue.IsNumber]
  | [_] =>
    left
    exact ⟨rfl, JSError.error "Point must be given", by decide, by simp⟩
  | [_, a] =>
    have hnp : IS_WRAPPED a "Point" = false →
        ∀ a2, [a] = [a2] → IS_WRAPPED a2 "Point" = false := by
      intro hw a2 ha2
      have : a = a2 := by simpa using ha2
      rw [← this]
      exact hw
    simp only [List.tail_cons, LineStringPoints.givenPoint, LineStringPoints.elementPoint,
      List.length_cons, List.length_nil, List.getD_cons_succ, List.getD_cons_zero] at hXY hXYZ ⊢
    by_cases hobj : a.IsObject = true
    · by_cases hw : IS_WRAPPED a "Point" = true
      · right
        simp only [hobj, hw, if_true, Bool.not_true, Bool.false_eq_true, if_false,
          Nat.cast_ofNat, Int.reduceAdd, Int.reduceSub]
        cases h3 : geom.is3D with
        | true =>
          obtain ⟨p, m3, hs, hx, hy, hz, _, hm, h6⟩ :=
            setPointXYZ_shape geom i (unwrap a).x (unwrap a).y (unwrap a).getZ
          have hm3 : m3 = false := hm h3
          refine ⟨unwrap a, p, m3, by simp, ?_, hx, hy, ?_, ?_, ?_, fun _ => ?_⟩
          · simp [OGRLineString.setPoint, h3, hs]
          · intro hm3t
            rw [hm3] at hm3t
            exact absurd hm3t (by decide)
          · intro _ z hqz
            rw [hz]
            simp [OGRPoint.getZ, hqz]
          · intro hf
            exact absurd hf (by decide)
          · rw [h6, h3]
        | false =>
          obtain ⟨p, m3, hs, hx, hy, hm, h5, h6⟩ :=
            setPointXY_shape geom i (unwrap a).x (unwrap a).y True hin
          obtain ⟨hpz, hm3⟩ := h5 h3 trivial
          refine ⟨unwrap a, p, m3, by simp, ?_, hx, hy, ?_, ?_, fun _ _ => ⟨hpz, hm3⟩,
            fun hu => ?_⟩
          · simp [OGRLineString.setPoint, h3, hs]
          · intro hm3t
            rw [hm3] at hm3t
            exact absurd hm3t (by decide)
          · intro hor z _
            rcases hor with hf | hall
            · exact absurd hf (by decide)
            · rw [hall a rfl] at hw
              exact absurd hw (by decide)
          · rw [h6 hu, h3]
      · have hwf : IS_WRAPPED a "Point" = false := by
          cases hh : IS_WRAPPED a "Point"
          · rfl
          · exact absurd hh hw
        simp only [hobj, hw, LineStringPoints.setFromObject, if_true, if_false, Bool.not_true,
          Bool.false_eq_true, Nat.cast_ofNat, Int.reduceAdd, Int.reduceSub]
        cases hx : dbl a "x" with
        | error e =>
          left
          exact ⟨by simp, e, hmsg _ _ _ hx, by simp⟩
        | ok x =>
          cases hy : dbl a "y" with
          | error e =>
            left
            exact ⟨by simp, e, hmsg _ _ _ hy, by simp⟩
          | ok y =>
            cases hz : a.ownProperty "z" with
            | none =>
              right
              simpa using hXY x y _ rfl (hnp hwf)
            | some z_val =>
              by_cases hzn : z_val.IsNumber = true
              · right
                obtain ⟨zz, hzz⟩ : ∃ zz, z_val = JSValue.number zz :=
                  ⟨_, isNumber_number z_val hzn⟩
                subst hzz
                simpa [JSValue.IsNumber, JSValue.toDouble] using hXYZ x y zz _ rfl (hnp hwf)
              · left
                refine ⟨?_, JSError.error "z property must be number", by decide,
                  by simp [hzn]⟩
                cases z_val <;> simp [JSValue.IsNumber] at hzn ⊢
    · left
      exact ⟨by simp [hobj], JSError.error "Point or object expected for second argument",
        by decide, by simp [hobj]⟩
  | [_, a, b] =>
    simp only [List.tail_cons, LineStringPoints.givenPoint,
      List.length_cons, List.length_nil, List.getD_cons_succ, List.getD_cons_zero] at hXY hXYZ ⊢
    by_cases ha : a.IsNumber = true
    · by_cases hb : b.IsNumber = true
      · right
        simpa [ha, hb] using hXY a.toDouble b.toDouble _ rfl (fun a2 h2 => by simp at h2)
      · left
        exact ⟨by simp [hb], JSError.error "Number expected for third argument", by decide,
          by simp [ha, hb]⟩
    · left
      exact ⟨by simp [ha], JSError.error "Number expected for second argument", by decide,
        by simp [ha]⟩
  | _ :: a :: b :: c :: rest =>
    have hlen : ((List.length rest + 1 + 1 + 1 + 1 : Nat) : Int) - 1 ≠ 0 := by omega
    have hlen1 : ((List.length rest + 1 + 1 + 1 + 1 : Nat) : Int) - 1 ≠ 1 := by omega
    have hlen2 : ((List.length rest + 1 + 1 + 1 + 1 : Nat) : Int) - 1 ≠ 2 := by omega
    simp only [List.tail_cons, LineStringPoints.givenPoint,
      List.length_cons, List.getD_cons_succ, List.getD_cons_zero] at hXY hXYZ ⊢
    rw [if_neg hlen, if_neg hlen1]
    by_cases ha : a.IsNumber = true
    · by_cases hb : b.IsNumber = true
      · by_cases hc : c.IsNumber = true
        · right
          have hr := hXYZ a.toDouble b.toDouble c.toDouble _ rfl
            (fun a2 h2 => by simp at h2)
          simp only [ha, hb, hc, Bool.not_true, Bool.false_eq_true, and_self, ↓reduceIte]
          rw [if_neg hlen2]
          exact hr
        · left
          refine ⟨by simp [hc], JSError.error "Number expected for fourth argument",
            by decide, ?_⟩
          simp only [ha, hb, Bool.not_true]
          rw [if_neg (by decide), if_neg (by decide), if_neg hlen2, if_pos (by simp [hc])]
      · left
        refine ⟨by simp [hb], JSError.error "Number expected for third argument",
          by decide, ?_⟩
        simp only [ha, Bool.not_true]
        rw [if_neg (by decide), if_pos (by simp [hb])]
    · left
      refine ⟨by simp [ha], JSError.error "Number expected for second argument",
        by decide, ?_⟩
      rw [if_pos (by simp [ha])]

theorem sampleDoubleFromObj_message (obj : JSValue) (key : String) (e : JSError)
    (h : sampleDoubleFromObj obj key = Except.error e) :
    e ≠ JSError.error "Point index out of range" := by
  unfold sampleDoubleFromObj at h
  split at h
  · cases h
  · cases h; decide
  · cases h; decide

/-- Counterexample to C27: on the two-dimensional line string
`(0, 0), (1, 1), (2, 2)`, `set(0, p)` with the Point object `p = (4, 4, 4)` succeeds, the
coordinates given are `(4, 4, 4)`, and `get(0)` afterwards returns `(4, 4)` without the
`z` given: the library writes a Point by the dimension of the line string. -/
theorem linestring_set_point_drops_z :
    LineStringPoints.set sampleIsWrapped samplePoint3DOf sampleDoubleFromObj sampleLine
        (Except.ok 0) [JSValue.number 0, JSValue.wrapped "Point" 4]
      = (none, { points := [⟨4, 4, none⟩, ⟨1, 1, none⟩, ⟨2, 2, none⟩] }) ∧
    LineStringPoints.givenPoint sampleIsWrapped samplePoint3DOf sampleDoubleFromObj
        [JSValue.wrapped "Point" 4] = some ⟨4, 4, some 4⟩ ∧
    LineStringPoints.get
        (LineStringPoints.set sampleIsWrapped samplePoint3DOf sampleDoubleFromObj sampleLine
          (Except.ok 0) [JSValue.number 0, JSValue.wrapped "Point" 4]).2 (Except.ok 0)
      = Except.ok ⟨4, 4, none⟩ ∧
    LineStringPoints.get
        (LineStringPoints.set sampleIsWrapped samplePoint3DOf sampleDoubleFromObj sampleLine
          (Except.ok 0) [JSValue.number 0, JSValue.wrapped "Point" 4]).2 (Except.ok 0)
      ≠ Except.ok ⟨4, 4, some 4⟩ := by
  have h1 : LineStringPoints.set sampleIsWrapped samplePoint3DOf sampleDoubleFromObj
      sampleLine (Except.ok 0) [JSValue.number 0, JSValue.wrapped "Point" 4]
      = (none, { points := [⟨4, 4, none⟩, ⟨1, 1, none⟩, ⟨2, 2, none⟩] }) := by decide
  have h3 : LineStringPoints.get
      (LineStringPoints.set sampleIsWrapped samplePoint3DOf sampleDoubleFromObj sampleLine
        (Except.ok 0) [JSValue.number 0, JSValue.wrapped "Point" 4]).2 (Except.ok 0)
      = Except.ok ⟨4, 4, none⟩ := by
    rw [h1]
    rfl
  refine ⟨h1, by decide, h3, ?_⟩
  rw [h3]
  intro h
  simp at h

/-- C27 (amended): for a line string with `n` points and an integer index `i`,
`set(i, ...)` fails with 'Point index out of range' exactly when `i < 0` or `i >= n`, and
then does so whatever the other arguments are; a failing call (index or malformed point
arguments) leaves the line string as it was; a successful call leaves `count()` as it
was and makes `get(i)` return the `x` and `y` given, and the `z` given unless it is given
by a Point object while the line string is two-dimensional, in which case the point has
no `z` afterwards; for every `j != i`, `get(j)` keeps its coordinates (a missing `z`
reading as `0`, since writing a `z` makes a two-dimensional line string
three-dimensional) and is as it was outright when the line string is three-dimensional or
no `z` is given; the line string stays one the library can hold; arguments that give no
coordinates make the call fail.  The messages of `NODE_DOUBLE_FROM_OBJ` are taken to
differ from the one of the index check. -/
theorem linestring_set_frame (IS_WRAPPED : JSValue → String → Bool)
    (unwrap : JSValue → OGRPoint) (dbl : JSValue → String → ArgResult Rat)
    (geom : OGRLineString OGRPoint) (i : Int) (info : List JSValue)
    (hmsg : ∀ obj key e, dbl obj key = Except.error e →
      e ≠ JSError.error "Point index out of range") :
    ((LineStringPoints.set IS_WRAPPED unwrap dbl geom (Except.ok i) info).1
        = some (JSError.error "Point index out of range")
      ↔ (i < 0 ∨ i ≥ LineStringPoints.__count geom)) ∧
    ((i < 0 ∨ i ≥ LineStringPoints.__count geom) → ∀ info2 : List JSValue,
      LineStringPoints.set IS_WRAPPED unwrap dbl geom (Except.ok i) info2
        = (some (JSError.error "Point index out of range"), geom)) ∧
    ((LineStringPoints.set IS_WRAPPED unwrap dbl geom (Except.ok i) info).1 ≠ none →
      (LineStringPoints.set IS_WRAPPED unwrap dbl geom (Except.ok i) info).2 = geom) ∧
    ((LineStringPoints.set IS_WRAPPED unwrap dbl geom (Except.ok i) info).1 = none →
      LineStringPoints.__count
          (LineStringPoints.set IS_WRAPPED unwrap dbl geom (Except.ok i) info).2
        = LineStringPoints.__count geom ∧
      (∃ q p, LineStringPoints.givenPoint IS_WRAPPED unwrap dbl info.tail = some q ∧
        LineStringPoints.get
          (LineStringPoints.set IS_WRAPPED unwrap dbl geom (Except.ok i) info).2 (Except.ok i)
          = Except.ok p ∧
        p.x = q.x ∧ p.y = q.y ∧
        ((geom.is3D = true ∨ ∀ a, info.tail = [a] → IS_WRAPPED a "Point" = false) →
          ∀ z, q.z = some z → p.z = some z) ∧
        (geom.is3D = false → (∃ a, info.tail = [a] ∧ IS_WRAPPED a "Point" = true) →
          p.z = none) ∧
        ((geom.is3D = true ∨ q.z = none) → ∀ j : Int, j ≠ i →
          LineStringPoints.get
            (LineStringPoints.set IS_WRAPPED unwrap dbl geom (Except.ok i) info).2
            (Except.ok j)
            = LineStringPoints.get geom (Except.ok j))) ∧
      (∀ j : Int, j ≠ i →
        (LineStringPoints.get
          (LineStringPoints.set IS_WRAPPED unwrap dbl geom (Except.ok i) info).2
          (Except.ok j)).map OGRPoint.coordinates
          = (LineStringPoints.get geom (Except.ok j)).map OGRPoint.coordinates) ∧
      (geom.uniform = true →
        (LineStringPoints.set IS_WRAPPED unwrap dbl geom (Except.ok i) info).2.uniform
          = true)) ∧
    (LineStringPoints.givenPoint IS_WRAPPED unwrap dbl info.tail = none →
      (LineStringPoints.set IS_WRAPPED unwrap dbl geom (Except.ok i) info).1 ≠ none) := by
  by_cases h : i < 0 ∨ i ≥ geom.getNumPoints
  · have hset := set_out_of_range IS_WRAPPED unwrap dbl geom i info h
    rw [hset]
    refine ⟨⟨fun _ => h, fun _ => rfl⟩,
      fun _ info2 => set_out_of_range IS_WRAPPED unwrap dbl geom i info2 h, fun _ => rfl,
      fun hnone => ?_, fun _ => ?_⟩
    · simp at hnone
    · simp
  · have h0 : 0 ≤ i := by omega
    have hn : i < geom.getNumPoints := by omega
    rcases set_in_range IS_WRAPPED unwrap dbl geom i info h hmsg with
      ⟨hg, e, he, hset⟩ | ⟨q, p, m3, hg, hset, hx, hy, hm, hz, hpt, hu⟩
    · rw [hset]
      refine ⟨⟨fun hm => ?_, fun hr => absurd hr h⟩, fun hr => absurd hr h, fun _ => rfl,
        fun hnone => ?_, fun _ => ?_⟩
      · exact absurd (Option.some.inj hm) he
      · simp at hnone
      · simp
    · rw [hset]
      have hlen : ((if m3 = true then geom.Make3D else geom).points.length : Int)
          = geom.getNumPoints := by
        cases m3 with
        | true => exact make3D_count geom
        | false => rfl
      have hbase : ∀ j : Int,
          (LineStringPoints.get (if m3 = true then geom.Make3D else geom)
            (Except.ok j)).map OGRPoint.coordinates
          = (LineStringPoints.get geom (Except.ok j)).map OGRPoint.coordinates := by
        intro j
        cases m3 with
        | true => exact make3D_get_coordinates geom j
        | false => rfl
      refine ⟨⟨fun hm => ?_, fun hr => absurd hr h⟩, fun hr => absurd hr h,
        fun hne => absurd rfl hne, fun _ => ⟨?_, ⟨q, p, hg, ?_, hx, hy, hz,
          fun h3 hpg => (hpt h3 hpg).1, ?_⟩, ?_, fun huni => ?_⟩, fun hnone => ?_⟩
      · simp at hm
      · show OGRLineString.getNumPoints _ = geom.getNumPoints
        rw [points_set_count]
        exact hlen
      · exact points_set_get_self _ i p h0 (by rw [hlen]; exact hn)
      · intro hor j hj
        have hm3 : m3 = false := by
          cases hm3 : m3 with
          | false => rfl
          | true =>
            obtain ⟨h3, hqz⟩ := hm hm3
            rcases hor with hf | hq
            · rw [h3] at hf
              exact absurd hf (by decide)
            · exact absurd hq hqz
        subst hm3
        exact points_set_get_ne _ i j p h0 hj
      · intro j hj
        show (LineStringPoints.get _ (Except.ok j)).map OGRPoint.coordinates = _
        rw [points_set_get_ne _ i j p h0 hj]
        exact hbase j
      · exact set_keeps_uniform geom m3 i.toNat p huni (fun hm3 => (hm hm3).1) (hu huni)
      · rw [hg] at hnone
        simp at hnone

theorem linestring_set_frame_witness :
    ((LineStringPoints.set sampleIsWrapped samplePointOf sampleDoubleFromObj sampleLine
        (Except.ok 1) [JSValue.number 1, JSValue.number 7, JSValue.number 8]).1
        = some (JSError.error "Point index out of range")
      ↔ ((1 : Int) < 0 ∨ (1 : Int) ≥ LineStringPoints.__count sampleLine)) ∧
    LineStringPoints.set sampleIsWrapped samplePointOf sampleDoubleFromObj sampleLine
        (Except.ok 1) [JSValue.number 1, JSValue.number 7, JSValue.number 8]
      = (none, { points := [⟨0, 0, none⟩, ⟨7, 8, none⟩, ⟨2, 2, none⟩] }) ∧
    LineStringPoints.set sampleIsWrapped samplePoint3DOf sampleDoubleFromObj sampleLine3D
        (Except.ok 0) [JSValue.number 0, JSValue.wrapped "Point" 4]
      = (none, { points := [⟨4, 4, some 4⟩, ⟨1, 1, some 2⟩] }) ∧
    LineStringPoints.set sampleIsWrapped samplePointOf sampleDoubleFromObj sampleLine
        (Except.ok 1) [JSValue.number 1, JSValue.number 7, JSValue.number 8, JSValue.number 9]
      = (none, { points := [⟨0, 0, some 0⟩, ⟨7, 8, some 9⟩, ⟨2, 2, some 0⟩] }) ∧
    LineStringPoints.set sampleIsWrapped samplePointOf sampleDoubleFromObj sampleLine
        (Except.ok 3) [JSValue.number 3, JSValue.string "x"]
      = (some (JSError.error "Point index out of range"), sampleLine) :=
  ⟨(linestring_set_frame sampleIsWrapped samplePointOf sampleDoubleFromObj sampleLine 1
      [JSValue.number 1, JSValue.number 7, JSValue.number 8] sampleDoubleFromObj_message).1,
    by decide, by decide, by decide,
    (linestring_set_frame sampleIsWrapped samplePointOf sampleDoubleFromObj sampleLine 3
      [] sampleDoubleFromObj_message).2.1 (by decide) _⟩

end NodeGdal
